import Mathlib

/-!
# STM8AL3189.h : device declarations

A shallow embedding of the device header `include/STM8AL3189.h`.  The header is
declarative: overlay structs of one-byte register unions placed at fixed base
addresses by the `sfr_<MODULE>` macros, and a table of `_<SOURCE>_VECTOR_`
macros.  Every declaration of the header becomes one entry of a table below,
together with the position and address given in its comment, so that the
comments can be compared with the layout the declarations produce.
-/

namespace STM8AL3189

/-! ## Data model -/

/-- Position comment written after a bit-field declaration. -/
inductive BitDoc where
  /-- The comment `// bit k`. -/
  | bit (k : Nat)
  /-- The comment `// bits a-b`. -/
  | bits (a b : Nat)
  /-- The comment `// n bits` (or `// 1 bit`) of an unnamed field. -/
  | pad (n : Nat)
  deriving DecidableEq, Repr

/-- One `BITFIELD_UINT name : width;  // doc` line; `name` is `none` for an unnamed field. -/
structure BitField where
  name : Option String
  width : Nat
  doc : BitDoc
  deriving DecidableEq, Repr

/-- A named bit-field line. -/
def fld (name : String) (width : Nat) (doc : BitDoc) : BitField := ⟨some name, width, doc⟩

/-- An unnamed bit-field line. -/
def gap (width : Nat) (doc : BitDoc) : BitField := ⟨none, width, doc⟩

/-- One bitwise-access struct `struct { ... };  // NAME bitfield` of a register union. -/
structure BitView where
  name : String
  fields : List BitField
  deriving DecidableEq, Repr

/-- One `#define sfr_<symbol>_RESET_VALUE ((uint8_t) value)` line. -/
structure ResetValue where
  symbol : String
  value : Nat
  deriving DecidableEq, Repr

/-- One register union: member name, the `(docName at docAddr)` comment, the bitwise-access
structs it holds (none when bitwise access is skipped) and its reset-value macros. -/
structure Register where
  name : String
  docName : String
  docAddr : Nat
  views : List BitView
  resets : List ResetValue
  deriving DecidableEq, Repr

/-- A member of an overlay struct: a register union or a `uint8_t Reserved_idx[size]` array. -/
inductive Member where
  | reg (r : Register)
  | reserved (idx size : Nat)
  deriving DecidableEq, Repr

/-- One `typedef struct { ... } typeName;` with the module named by its doc comment
`struct containing <docModule> module registers`. -/
structure Overlay where
  typeName : String
  docModule : String
  members : List Member
  deriving DecidableEq, Repr

/-- One `#define sfr_<module> (*((<typeName>*) <base>))` line. -/
structure SfrMacro where
  module : String
  typeName : String
  base : Nat
  deriving DecidableEq, Repr

/-- A `REGISTER.FIELD` cross-reference of the vector table. -/
structure BitRef where
  register : String
  field : String
  deriving DecidableEq, Repr

/-- The comment of a vector macro:
`<name> interrupt vector: enable: R.F, pending: R.F, priority: R.F`. -/
structure VectorDoc where
  name : String
  enable : BitRef
  pending : BitRef
  priority : BitRef
  deriving DecidableEq, Repr

/-- One `#define _<source>_VECTOR_ irq` line with its comment, when it has one. -/
structure VectorMacro where
  source : String
  irq : Nat
  doc : Option VectorDoc
  deriving DecidableEq, Repr

/-! ## Layout of structs and bit-fields -/

/-- Size in bytes of a member: a register union is one byte, `Reserved_n[k]` is `k` bytes. -/
def Member.size : Member → Nat
  | .reg _ => 1
  | .reserved _ k => k

/-- Registers of a member list with their byte offsets, members laid out in declaration
order without padding, the first one at offset `off`. -/
def layoutFrom : Nat → List Member → List (Nat × Register)
  | _, [] => []
  | off, .reg r :: ms => (off, r) :: layoutFrom (off + 1) ms
  | off, .reserved _ k :: ms => layoutFrom (off + k) ms

/-- Registers of an overlay struct with their byte offsets. -/
def Overlay.layout (o : Overlay) : List (Nat × Register) := layoutFrom 0 o.members

/-- The `sizeof` of an overlay struct. -/
def Overlay.size (o : Overlay) : Nat := (o.members.map Member.size).sum

/-- Bit-fields with the position of their lowest bit, allocated LSB-first in declaration
order, the first one at bit `pos`. -/
def bitLayoutFrom : Nat → List BitField → List (Nat × BitField)
  | _, [] => []
  | pos, f :: fs => (pos, f) :: bitLayoutFrom (pos + f.width) fs

/-- Bit-fields of a bitwise-access struct with the position of their lowest bit. -/
def BitView.layout (v : BitView) : List (Nat × BitField) := bitLayoutFrom 0 v.fields

/-- Number of bits a bitwise-access struct occupies. -/
def BitView.bits (v : BitView) : Nat := (v.fields.map BitField.width).sum

/-- The registers of an overlay struct. -/
def Overlay.registers (o : Overlay) : List Register := o.layout.map Prod.snd

/-- The names of the named bit-fields of a register, over all its bitwise-access structs. -/
def Register.fieldNames (r : Register) : List String :=
  (r.views.map fun v => v.fields.filterMap BitField.name).flatten

/-! ## The declarations of the header -/

/-- A cross-reference written `register.field`. -/
def xref (register field : String) : BitRef := BitRef.mk register field

/-- A vector macro whose line carries a cross-reference comment. -/
def documented (source : String) (irq : Nat) (name : String) (enable pending priority : BitRef) :
    VectorMacro :=
  VectorMacro.mk source irq (some (VectorDoc.mk name enable pending priority))

/-- A vector macro whose line carries no comment. -/
def undocumented (source : String) (irq : Nat) : VectorMacro := VectorMacro.mk source irq none

/-- Overlay struct ADC1_t (source lines 375 and following). -/
def ADC1_t : Overlay :=
  { typeName := "ADC1_t", docModule := "ADC1", members := [
    .reg ⟨"CR1", "CR1", 0x5340, [⟨"CR1", [fld "ADON" 1 (.bit 0), fld "START" 1 (.bit 1), fld "CONT" 1 (.bit 2), fld "EOCIE" 1 (.bit 3), fld "AWDIE" 1 (.bit 4), fld "RES" 2 (.bits 5 6), fld "OVERIE" 1 (.bit 7)]⟩], [⟨"ADC1_CR1", 0x00⟩]⟩,
    .reg ⟨"CR2", "CR2", 0x5341, [⟨"CR2", [fld "SMTP1" 3 (.bits 0 2), fld "EXTSEL0" 1 (.bit 3), fld "EXTSEL1" 1 (.bit 4), fld "TRIG_EDGE0" 1 (.bit 5), fld "TRIG_EDGE1" 1 (.bit 6), fld "PRESC" 1 (.bit 7)]⟩], [⟨"ADC1_CR2", 0x00⟩]⟩,
    .reg ⟨"CR3", "CR3", 0x5342, [⟨"CR3", [fld "CHSEL" 5 (.bits 0 4), fld "SMTP2" 3 (.bits 5 7)]⟩], [⟨"ADC1_CR3", 0x1F⟩]⟩,
    .reg ⟨"SR", "SR", 0x5343, [⟨"SR", [fld "EOC" 1 (.bit 0), fld "AWD" 1 (.bit 1), fld "OVER" 1 (.bit 2), gap 5 (.pad 5)]⟩], [⟨"ADC1_SR", 0x00⟩]⟩,
    .reg ⟨"DRH", "DRH", 0x5344, [⟨"DRH", [fld "CONV_DATA8" 1 (.bit 0), fld "CONV_DATA9" 1 (.bit 1), fld "CONV_DATA10" 1 (.bit 2), fld "CONV_DATA11" 1 (.bit 3), gap 4 (.pad 4)]⟩], [⟨"ADC1_DRH", 0x00⟩]⟩,
    .reg ⟨"DRL", "DRL", 0x5345, [⟨"DRL", [fld "CONV_DATA0" 1 (.bit 0), fld "CONV_DATA1" 1 (.bit 1), fld "CONV_DATA2" 1 (.bit 2), fld "CONV_DATA3" 1 (.bit 3), fld "CONV_DATA4" 1 (.bit 4), fld "CONV_DATA5" 1 (.bit 5), fld "CONV_DATA6" 1 (.bit 6), fld "CONV_DATA7" 1 (.bit 7)]⟩], [⟨"ADC1_DRL", 0x00⟩]⟩,
    .reg ⟨"HTRH", "HTRH", 0x5346, [⟨"HTRH", [fld "HT8" 1 (.bit 0), fld "HT9" 1 (.bit 1), fld "HT10" 1 (.bit 2), fld "HT11" 1 (.bit 3), gap 4 (.pad 4)]⟩], [⟨"ADC1_HTRH", 0x0F⟩]⟩,
    .reg ⟨"HTRL", "HTRL", 0x5347, [⟨"HTRL", [fld "HT0" 1 (.bit 0), fld "HT1" 1 (.bit 1), fld "HT2" 1 (.bit 2), fld "HT3" 1 (.bit 3), fld "HT4" 1 (.bit 4), fld "HT5" 1 (.bit 5), fld "HT6" 1 (.bit 6), fld "HT7" 1 (.bit 7)]⟩], [⟨"ADC1_HTRL", 0xFF⟩]⟩,
    .reg ⟨"LTRH", "LTRH", 0x5348, [⟨"LTRH", [fld "LT8" 1 (.bit 0), fld "LT9" 1 (.bit 1), fld "LT10" 1 (.bit 2), fld "LT11" 1 (.bit 3), gap 4 (.pad 4)]⟩], [⟨"ADC1_LTRH", 0x00⟩]⟩,
    .reg ⟨"LTRL", "LTRL", 0x5349, [⟨"LTRL", [fld "LT0" 1 (.bit 0), fld "LT1" 1 (.bit 1), fld "LT2" 1 (.bit 2), fld "LT3" 1 (.bit 3), fld "LT4" 1 (.bit 4), fld "LT5" 1 (.bit 5), fld "LT6" 1 (.bit 6), fld "LT7" 1 (.bit 7)]⟩], [⟨"ADC1_LTRL", 0x00⟩]⟩,
    .reg ⟨"SQR1", "SQR1", 0x534a, [⟨"SQR1", [fld "CHSEL_S24" 1 (.bit 0), fld "CHSEL_S25" 1 (.bit 1), fld "CHSEL_S26" 1 (.bit 2), fld "CHSEL_S27" 1 (.bit 3), fld "CHSEL_S28" 1 (.bit 4), fld "CHSEL_S29" 1 (.bit 5), gap 1 (.pad 1), fld "DMAOFF" 1 (.bit 7)]⟩], [⟨"ADC1_SQR1", 0x00⟩]⟩,
    .reg ⟨"SQR2", "SQR2", 0x534b, [⟨"SQR2", [fld "CHSEL_S16" 1 (.bit 0), fld "CHSEL_S17" 1 (.bit 1), fld "CHSEL_S18" 1 (.bit 2), fld "CHSEL_S19" 1 (.bit 3), fld "CHSEL_S20" 1 (.bit 4), fld "CHSEL_S21" 1 (.bit 5), fld "CHSEL_S22" 1 (.bit 6), fld "CHSEL_S23" 1 (.bit 7)]⟩], [⟨"ADC1_SQR2", 0x00⟩]⟩,
    .reg ⟨"SQR3", "SQR3", 0x534c, [⟨"SQR3", [fld "CHSEL_S8" 1 (.bit 0), fld "CHSEL_S9" 1 (.bit 1), fld "CHSEL_S10" 1 (.bit 2), fld "CHSEL_S11" 1 (.bit 3), fld "CHSEL_S12" 1 (.bit 4), fld "CHSEL_S13" 1 (.bit 5), fld "CHSEL_S14" 1 (.bit 6), fld "CHSEL_S15" 1 (.bit 7)]⟩], [⟨"ADC1_SQR3", 0x00⟩]⟩,
    .reg ⟨"SQR4", "SQR4", 0x534d, [⟨"SQR4", [fld "CHSEL_S0" 1 (.bit 0), fld "CHSEL_S1" 1 (.bit 1), fld "CHSEL_S2" 1 (.bit 2), fld "CHSEL_S3" 1 (.bit 3), fld "CHSEL_S4" 1 (.bit 4), fld "CHSEL_S5" 1 (.bit 5), fld "CHSEL_S6" 1 (.bit 6), fld "CHSEL_S7" 1 (.bit 7)]⟩], [⟨"ADC1_SQR4", 0x00⟩]⟩,
    .reg ⟨"TRIGR1", "TRIGR1", 0x534e, [⟨"TRIGR1", [fld "TRIG24" 1 (.bit 0), fld "TRIG25" 1 (.bit 1), fld "TRIG26" 1 (.bit 2), fld "TRIG27" 1 (.bit 3), fld "VREFINTON" 1 (.bit 4), fld "TSON" 1 (.bit 5), gap 2 (.pad 2)]⟩], [⟨"ADC1_TRIGR1", 0x00⟩]⟩,
    .reg ⟨"TRIGR2", "TRIGR2", 0x534f, [⟨"TRIGR2", [fld "TRIG16" 1 (.bit 0), fld "TRIG17" 1 (.bit 1), fld "TRIG18" 1 (.bit 2), fld "TRIG19" 1 (.bit 3), fld "TRIG20" 1 (.bit 4), fld "TRIG21" 1 (.bit 5), fld "TRIG22" 1 (.bit 6), fld "TRIG23" 1 (.bit 7)]⟩], [⟨"ADC1_TRIGR2", 0x00⟩]⟩,
    .reg ⟨"TRIGR3", "TRIGR3", 0x5350, [⟨"TRIGR3", [fld "TRIG8" 1 (.bit 0), fld "TRIG9" 1 (.bit 1), fld "TRIG10" 1 (.bit 2), fld "TRIG11" 1 (.bit 3), fld "TRIG12" 1 (.bit 4), fld "TRIG13" 1 (.bit 5), fld "TRIG14" 1 (.bit 6), fld "TRIG15" 1 (.bit 7)]⟩], [⟨"ADC1_TRIGR3", 0x00⟩]⟩,
    .reg ⟨"TRIGR4", "TRIGR4", 0x5351, [⟨"TRIGR4", [fld "TRIG0" 1 (.bit 0), fld "TRIG1" 1 (.bit 1), fld "TRIG2" 1 (.bit 2), fld "TRIG3" 1 (.bit 3), fld "TRIG4" 1 (.bit 4), fld "TRIG5" 1 (.bit 5), fld "TRIG6" 1 (.bit 6), fld "TRIG7" 1 (.bit 7)]⟩], [⟨"ADC1_TRIGR4", 0x00⟩]⟩ ] }

/-- Overlay struct BEEP_t (source lines 796 and following). -/
def BEEP_t : Overlay :=
  { typeName := "BEEP_t", docModule := "BEEP", members := [
    .reg ⟨"CSR1", "CSR1", 0x50f0, [⟨"CSR1", [fld "MSR" 1 (.bit 0), gap 7 (.pad 7)]⟩], [⟨"BEEP_CSR1", 0x00⟩]⟩,
    .reserved 1 2,
    .reg ⟨"CSR2", "CSR2", 0x50f3, [⟨"CSR2", [fld "BEEPDIV" 5 (.bits 0 4), fld "BEEPEN" 1 (.bit 5), fld "BEEPSEL" 2 (.bits 6 7)]⟩], [⟨"BEEP_CSR2", 0x1F⟩]⟩ ] }

/-- Overlay struct CLK_t (source lines 849 and following). -/
def CLK_t : Overlay :=
  { typeName := "CLK_t", docModule := "CLK", members := [
    .reg ⟨"CKDIVR", "CKDIVR", 0x50c0, [⟨"CKDIVR", [fld "CKM" 3 (.bits 0 2), gap 5 (.pad 5)]⟩], [⟨"CLK_CKDIVR", 0x03⟩]⟩,
    .reg ⟨"CRTCR", "CRTCR", 0x50c1, [⟨"CRTCR", [fld "RTCSWBSY" 1 (.bit 0), fld "RTCSEL0" 1 (.bit 1), fld "RTCSEL1" 1 (.bit 2), fld "RTCSEL2" 1 (.bit 3), fld "RTCSEL3" 1 (.bit 4), fld "RTCDIV0" 1 (.bit 5), fld "RTCDIV1" 1 (.bit 6), fld "RTCDIV2" 1 (.bit 7)]⟩], [⟨"CLK_CRTCR", 0x00⟩]⟩,
    .reg ⟨"ICKCR", "ICKCR", 0x50c2, [⟨"ICKCR", [fld "HSION" 1 (.bit 0), fld "HSIRDY" 1 (.bit 1), fld "LSION" 1 (.bit 2), fld "LSIRDY" 1 (.bit 3), fld "SAHALT" 1 (.bit 4), fld "FHWU" 1 (.bit 5), fld "BEEPAHALT" 1 (.bit 6), gap 1 (.pad 1)]⟩], [⟨"CLK_ICKCR", 0x11⟩]⟩,
    .reg ⟨"PCKENR1", "PCKENR1", 0x50c3, [⟨"PCKENR1", [fld "PCKEN10" 1 (.bit 0), fld "PCKEN11" 1 (.bit 1), fld "PCKEN12" 1 (.bit 2), fld "PCKEN13" 1 (.bit 3), fld "PCKEN14" 1 (.bit 4), fld "PCKEN15" 1 (.bit 5), fld "PCKEN16" 1 (.bit 6), fld "PCKEN17" 1 (.bit 7)]⟩], [⟨"CLK_PCKENR1", 0x00⟩]⟩,
    .reg ⟨"PCKENR2", "PCKENR2", 0x50c4, [⟨"PCKENR2", [fld "PCKEN20" 1 (.bit 0), fld "PCKEN21" 1 (.bit 1), fld "PCKEN22" 1 (.bit 2), fld "PCKEN23" 1 (.bit 3), fld "PCKEN24" 1 (.bit 4), fld "PCKEN25" 1 (.bit 5), gap 1 (.pad 1), fld "PCKEN27" 1 (.bit 7)]⟩], [⟨"CLK_PCKENR2", 0x00⟩]⟩,
    .reg ⟨"CCOR", "CCOR", 0x50c5, [⟨"CCOR", [fld "CCOSWBSY" 1 (.bit 0), fld "CCOSEL" 4 (.bits 1 4), fld "CCODIV" 3 (.bits 5 7)]⟩], [⟨"CLK_CCOR", 0x00⟩]⟩,
    .reg ⟨"ECKCR", "ECKCR", 0x50c6, [⟨"ECKCR", [fld "HSEON" 1 (.bit 0), fld "HSERDY" 1 (.bit 1), fld "LSEON" 1 (.bit 2), fld "LSERDY" 1 (.bit 3), fld "HSEBYP" 1 (.bit 4), fld "LSEBYP" 1 (.bit 5), gap 2 (.pad 2)]⟩], [⟨"CLK_ECKCR", 0x00⟩]⟩,
    .reg ⟨"SCSR", "SCSR", 0x50c7, [⟨"SCSR", [fld "CKM" 8 (.bits 0 7)]⟩], [⟨"CLK_SCSR", 0x01⟩]⟩,
    .reg ⟨"SWR", "SWR", 0x50c8, [⟨"SWR", [fld "SWI" 8 (.bits 0 7)]⟩], [⟨"CLK_SWR", 0x01⟩]⟩,
    .reg ⟨"SWCR", "SWCR", 0x50c9, [⟨"SWCR", [fld "SWBSY" 1 (.bit 0), fld "SWEN" 1 (.bit 1), fld "SWIEN" 1 (.bit 2), fld "SWIF" 1 (.bit 3), gap 4 (.pad 4)]⟩], [⟨"CLK_SWCR", 0x00⟩]⟩,
    .reg ⟨"CSSR", "CSSR", 0x50ca, [⟨"CSSR", [fld "CSSEN" 1 (.bit 0), fld "AUX" 1 (.bit 1), fld "CSSDIE" 1 (.bit 2), fld "CSSD" 1 (.bit 3), fld "CSSDGON" 1 (.bit 4), gap 3 (.pad 3)]⟩], [⟨"CLK_CSSR", 0x00⟩]⟩,
    .reg ⟨"CBEEPR", "CBEEPR", 0x50cb, [⟨"CBEEPR", [fld "BEEPSWBSY" 1 (.bit 0), fld "CLKBEEPSEL0" 1 (.bit 1), fld "CLKBEEPSEL1" 1 (.bit 2), gap 5 (.pad 5)]⟩], [⟨"CLK_CBEEPR", 0x00⟩]⟩,
    .reg ⟨"HSICALR", "HSICALR", 0x50cc, [⟨"HSICALR", [fld "HSICAL" 8 (.bits 0 7)]⟩], [⟨"CLK_HSICALR", 0x00⟩]⟩,
    .reg ⟨"HSITRIMR", "HSITRIMR", 0x50cd, [⟨"HSITRIMR", [fld "HSITRIM" 8 (.bits 0 7)]⟩], [⟨"CLK_HSITRIMR", 0x00⟩]⟩,
    .reg ⟨"HSIUNLCKR", "HSIUNLCKR", 0x50ce, [⟨"HSIUNLCKR", [fld "HSIUNLCK" 8 (.bits 0 7)]⟩], [⟨"CLK_HSIUNLCKR", 0x00⟩]⟩,
    .reg ⟨"REGCSR", "REGCSR", 0x50cf, [⟨"REGCSR", [fld "REGREADY" 1 (.bit 0), fld "REGOFF" 1 (.bit 1), fld "HSIPD" 1 (.bit 2), fld "LSIPD" 1 (.bit 3), fld "HSEPD" 1 (.bit 4), fld "LSEPD" 1 (.bit 5), fld "EEBUSY" 1 (.bit 6), fld "EEREADY" 1 (.bit 7)]⟩], [⟨"CLK_REGCSR", 0x38⟩]⟩,
    .reg ⟨"PCKENR3", "PCKENR3", 0x50d0, [⟨"PCKENR3", [fld "PCKEN30" 1 (.bit 0), fld "PCKEN31" 1 (.bit 1), fld "PCKEN32" 1 (.bit 2), fld "PCKEN33" 1 (.bit 3), fld "PCKEN34" 1 (.bit 4), fld "PCKEN35" 1 (.bit 5), gap 2 (.pad 2)]⟩], [⟨"CLK_PCKENR3", 0x00⟩]⟩ ] }

/-- Overlay struct COMP1_2_t (source lines 1212 and following). -/
def COMP1_2_t : Overlay :=
  { typeName := "COMP1_2_t", docModule := "COMP1_2", members := [
    .reg ⟨"CSR1", "CSR1", 0x5440, [⟨"CSR1", [fld "CMP1" 2 (.bits 0 1), fld "STE" 1 (.bit 2), fld "CMP1OUT" 1 (.bit 3), fld "EF1" 1 (.bit 4), fld "IE1" 1 (.bit 5), gap 2 (.pad 2)]⟩], [⟨"COMP1_2_CSR1", 0x00⟩]⟩,
    .reg ⟨"CSR2", "CSR2", 0x5441, [⟨"CSR2", [fld "CMP2" 2 (.bits 0 1), fld "SPEED" 1 (.bit 2), fld "CMP2OUT" 1 (.bit 3), fld "EF2" 1 (.bit 4), fld "IE2" 1 (.bit 5), gap 2 (.pad 2)]⟩], [⟨"COMP1_2_CSR2", 0x00⟩]⟩,
    .reg ⟨"CSR3", "CSR3", 0x5442, [⟨"CSR3", [fld "VREFOUTEN" 1 (.bit 0), fld "WNDWE" 1 (.bit 1), fld "VREFEN" 1 (.bit 2), fld "INSEL" 3 (.bits 3 5), fld "OUTSEL" 2 (.bits 6 7)]⟩], [⟨"COMP1_2_CSR3", 0x00⟩]⟩,
    .reg ⟨"CSR4", "CSR4", 0x5443, [⟨"CSR4", [fld "INVTRIG" 3 (.bits 0 2), fld "NINVTRIG" 3 (.bits 3 5), gap 2 (.pad 2)]⟩], [⟨"COMP1_2_CSR4", 0x00⟩]⟩,
    .reg ⟨"CSR5", "CSR5", 0x5444, [⟨"CSR5", [fld "VREFTRIG" 3 (.bits 0 2), fld "DACTRIG" 3 (.bits 3 5), gap 2 (.pad 2)]⟩], [⟨"COMP1_2_CSR5", 0x00⟩]⟩ ] }

/-- Overlay struct CPU_t (source lines 1327 and following). -/
def CPU_t : Overlay :=
  { typeName := "CPU_t", docModule := "CPU", members := [
    .reg ⟨"A", "A", 0x7f00, [], [⟨"CPU_A", 0x00⟩]⟩,
    .reg ⟨"PCE", "PCE", 0x7f01, [], [⟨"CPU_PCE", 0x00⟩]⟩,
    .reg ⟨"PCH", "PCH", 0x7f02, [], [⟨"CPU_PCH", 0x00⟩]⟩,
    .reg ⟨"PCL", "PCL", 0x7f03, [], [⟨"CPU_PCL", 0x00⟩]⟩,
    .reg ⟨"XH", "XH", 0x7f04, [], [⟨"CPU_XH", 0x00⟩]⟩,
    .reg ⟨"XL", "XL", 0x7f05, [], [⟨"CPU_XL", 0x00⟩]⟩,
    .reg ⟨"YH", "YH", 0x7f06, [], [⟨"CPU_YH", 0x00⟩]⟩,
    .reg ⟨"YL", "YL", 0x7f07, [], [⟨"CPU_YL", 0x00⟩]⟩,
    .reg ⟨"SPH", "SPH", 0x7f08, [], [⟨"CPU_SPH", 0x03⟩]⟩,
    .reg ⟨"SPL", "SPL", 0x7f09, [], [⟨"CPU_SPL", 0xFF⟩]⟩,
    .reg ⟨"CCR", "CCR", 0x7f0a, [⟨"CCR", [fld "C" 1 (.bit 0), fld "Z" 1 (.bit 1), fld "N" 1 (.bit 2), fld "I0" 1 (.bit 3), fld "H" 1 (.bit 4), fld "I1" 1 (.bit 5), gap 1 (.pad 1), fld "V" 1 (.bit 7)]⟩], [⟨"CPU_CCR", 0x28⟩]⟩,
    .reserved 1 85,
    .reg ⟨"CFG_GCR", "CFG_GCR", 0x7f60, [⟨"CFG_GCR", [fld "SWD" 1 (.bit 0), fld "AL" 1 (.bit 1), gap 6 (.pad 6)]⟩], [⟨"CPU_CFG_GCR", 0x00⟩]⟩ ] }

/-- Overlay struct DAC_t (source lines 1526 and following). -/
def DAC_t : Overlay :=
  { typeName := "DAC_t", docModule := "DAC", members := [
    .reg ⟨"CH1CR1", "CH1CR1", 0x5380, [⟨"CH1CR1", [fld "EN" 1 (.bit 0), fld "BOFF" 1 (.bit 1), fld "TEN" 1 (.bit 2), fld "TSEL" 3 (.bits 3 5), fld "WAVEN" 2 (.bits 6 7)]⟩], [⟨"DAC_CH1CR1", 0x00⟩]⟩,
    .reg ⟨"CH1CR2", "CH1CR2", 0x5381, [⟨"CH1CR2", [fld "MAMP" 4 (.bits 0 3), fld "DMAEN" 1 (.bit 4), fld "DMAUDRIE" 1 (.bit 5), gap 2 (.pad 2)]⟩], [⟨"DAC_CH1CR2", 0x00⟩]⟩,
    .reg ⟨"CH2CR1", "CH2CR1", 0x5382, [⟨"CH2CR1", [fld "EN" 1 (.bit 0), fld "BOFF" 1 (.bit 1), fld "TEN" 1 (.bit 2), fld "TSEL" 3 (.bits 3 5), fld "WAVEN" 2 (.bits 6 7)]⟩], [⟨"DAC_CH2CR1", 0x00⟩]⟩,
    .reg ⟨"CH2CR2", "CH2CR2", 0x5383, [⟨"CH2CR2", [fld "MAMP" 4 (.bits 0 3), fld "DMAEN" 1 (.bit 4), fld "DMAUDRIE" 1 (.bit 5), gap 2 (.pad 2)]⟩], [⟨"DAC_CH2CR2", 0x00⟩]⟩,
    .reg ⟨"SWTRIG", "SWTRIG", 0x5384, [⟨"SWTRIG", [fld "SWTRIG1" 1 (.bit 0), fld "SWTRIG2" 1 (.bit 1), gap 6 (.pad 6)]⟩], [⟨"DAC_SWTRIG", 0x00⟩]⟩,
    .reg ⟨"SR", "SR", 0x5385, [⟨"SR", [fld "DMAUDR1" 1 (.bit 0), fld "DMAUDR2" 1 (.bit 1), gap 6 (.pad 6)]⟩], [⟨"DAC_SR", 0x00⟩]⟩,
    .reserved 1 2,
    .reg ⟨"CH1RDHRH", "CH1RDHRH", 0x5388, [⟨"CH1RDHRH", [fld "RDHRH00" 1 (.bit 0), fld "RDHRH10" 1 (.bit 1), fld "RDHRH20" 1 (.bit 2), fld "RDHRH30" 1 (.bit 3), gap 4 (.pad 4)]⟩], [⟨"DAC_CH1RDHRH", 0x00⟩]⟩,
    .reg ⟨"CH1RDHRL", "CH1RDHRL", 0x5389, [⟨"CH1RDHRL", [fld "RDHRL00" 1 (.bit 0), fld "RDHRL10" 1 (.bit 1), fld "RDHRL20" 1 (.bit 2), fld "RDHRL30" 1 (.bit 3), fld "RDHRL40" 1 (.bit 4), fld "RDHRL50" 1 (.bit 5), fld "RDHRL60" 1 (.bit 6), fld "RDHRL70" 1 (.bit 7)]⟩], [⟨"DAC_CH1RDHRL", 0x00⟩]⟩,
    .reserved 2 2,
    .reg ⟨"CH1LDHRH", "CH1LDHRH", 0x538c, [⟨"CH1LDHRH", [fld "LDHRH00" 1 (.bit 0), fld "LDHRH10" 1 (.bit 1), fld "LDHRH20" 1 (.bit 2), fld "LDHRH30" 1 (.bit 3), fld "LDHRH40" 1 (.bit 4), fld "LDHRH50" 1 (.bit 5), fld "LDHRH60" 1 (.bit 6), fld "LDHRH70" 1 (.bit 7)]⟩], [⟨"DAC_CH1LDHRH", 0x00⟩]⟩,
    .reg ⟨"CH1LDHRL", "CH1LDHRL", 0x538d, [⟨"CH1LDHRL", [gap 4 (.pad 4), fld "LDHRL4" 1 (.bit 4), fld "LDHRL5" 1 (.bit 5), fld "LDHRL6" 1 (.bit 6), fld "LDHRL7" 1 (.bit 7)]⟩], [⟨"DAC_CH1LDHRL", 0x00⟩]⟩,
    .reserved 3 2,
    .reg ⟨"CH1DHR8", "CH1DHR8", 0x5390, [⟨"CH1DHR8", [fld "DHR00" 1 (.bit 0), fld "DHR10" 1 (.bit 1), fld "DHR20" 1 (.bit 2), fld "DHR30" 1 (.bit 3), fld "DHR40" 1 (.bit 4), fld "DHR50" 1 (.bit 5), fld "DHR60" 1 (.bit 6), fld "DHR70" 1 (.bit 7)]⟩], [⟨"DAC_CH1DHR8", 0x00⟩]⟩,
    .reserved 4 3,
    .reg ⟨"CH2RDHRH", "CH2RDHRH", 0x5394, [⟨"CH2RDHRH", [fld "RDHRH00" 1 (.bit 0), fld "RDHRH10" 1 (.bit 1), fld "RDHRH20" 1 (.bit 2), fld "RDHRH30" 1 (.bit 3), gap 4 (.pad 4)]⟩], [⟨"DAC_CH2RDHRH", 0x00⟩]⟩,
    .reg ⟨"CH2RDHRL", "CH2RDHRL", 0x5395, [⟨"CH2RDHRL", [fld "RDHRL00" 1 (.bit 0), fld "RDHRL10" 1 (.bit 1), fld "RDHRL20" 1 (.bit 2), fld "RDHRL30" 1 (.bit 3), fld "RDHRL40" 1 (.bit 4), fld "RDHRL50" 1 (.bit 5), fld "RDHRL60" 1 (.bit 6), fld "RDHRL70" 1 (.bit 7)]⟩], [⟨"DAC_CH2RDHRL", 0x00⟩]⟩,
    .reserved 5 2,
    .reg ⟨"CH2LDHRH", "CH2LDHRH", 0x5398, [⟨"CH2LDHRH", [fld "LDHRH00" 1 (.bit 0), fld "LDHRH10" 1 (.bit 1), fld "LDHRH20" 1 (.bit 2), fld "LDHRH30" 1 (.bit 3), fld "LDHRH40" 1 (.bit 4), fld "LDHRH50" 1 (.bit 5), fld "LDHRH60" 1 (.bit 6), fld "LDHRH70" 1 (.bit 7)]⟩], [⟨"DAC_CH2LDHRH", 0x00⟩]⟩,
    .reg ⟨"CH2LDHRL", "CH2LDHRL", 0x5399, [⟨"CH2LDHRL", [gap 4 (.pad 4), fld "LDHRL4" 1 (.bit 4), fld "LDHRL5" 1 (.bit 5), fld "LDHRL6" 1 (.bit 6), fld "LDHRL7" 1 (.bit 7)]⟩], [⟨"DAC_CH2LDHRL", 0x00⟩]⟩,
    .reserved 6 2,
    .reg ⟨"CH2DHR8", "CH2DHR8", 0x539c, [⟨"CH2DHR8", [fld "DHR00" 1 (.bit 0), fld "DHR10" 1 (.bit 1), fld "DHR20" 1 (.bit 2), fld "DHR30" 1 (.bit 3), fld "DHR40" 1 (.bit 4), fld "DHR50" 1 (.bit 5), fld "DHR60" 1 (.bit 6), fld "DHR70" 1 (.bit 7)]⟩], [⟨"DAC_CH2DHR8", 0x00⟩]⟩,
    .reserved 7 3,
    .reg ⟨"DCH1RDHRH", "DCH1RDHRH", 0x53a0, [⟨"DCH1RDHRH", [fld "RDHRH00" 1 (.bit 0), fld "RDHRH10" 1 (.bit 1), fld "RDHRH20" 1 (.bit 2), fld "RDHRH30" 1 (.bit 3), gap 4 (.pad 4)]⟩], [⟨"DAC_DCH1RDHRH", 0x00⟩]⟩,
    .reg ⟨"DCH1RDHRL", "DCH1RDHRL", 0x53a1, [⟨"DCH1RDHRL", [fld "RDHRL00" 1 (.bit 0), fld "RDHRL10" 1 (.bit 1), fld "RDHRL20" 1 (.bit 2), fld "RDHRL30" 1 (.bit 3), fld "RDHRL40" 1 (.bit 4), fld "RDHRL50" 1 (.bit 5), fld "RDHRL60" 1 (.bit 6), fld "RDHRL70" 1 (.bit 7)]⟩], [⟨"DAC_DCH1RDHRL", 0x00⟩]⟩,
    .reg ⟨"DCH2RDHRH", "DCH2RDHRH", 0x53a2, [⟨"DCH2RDHRH", [fld "RDHRH00" 1 (.bit 0), fld "RDHRH10" 1 (.bit 1), fld "RDHRH20" 1 (.bit 2), fld "RDHRH30" 1 (.bit 3), gap 4 (.pad 4)]⟩], [⟨"DAC_DCH2RDHRH", 0x00⟩]⟩,
    .reg ⟨"DCH2RDHRL", "DCH2RDHRL", 0x53a3, [⟨"DCH2RDHRL", [fld "RDHRL00" 1 (.bit 0), fld "RDHRL10" 1 (.bit 1), fld "RDHRL20" 1 (.bit 2), fld "RDHRL30" 1 (.bit 3), fld "RDHRL40" 1 (.bit 4), fld "RDHRL50" 1 (.bit 5), fld "RDHRL60" 1 (.bit 6), fld "RDHRL70" 1 (.bit 7)]⟩], [⟨"DAC_DCH2RDHRL", 0x00⟩]⟩,
    .reg ⟨"DCH1LDHRH", "DCH1LDHRH", 0x53a4, [⟨"DCH1LDHRH", [fld "LDHRH00" 1 (.bit 0), fld "LDHRH10" 1 (.bit 1), fld "LDHRH20" 1 (.bit 2), fld "LDHRH30" 1 (.bit 3), fld "LDHRH40" 1 (.bit 4), fld "LDHRH50" 1 (.bit 5), fld "LDHRH60" 1 (.bit 6), fld "LDHRH70" 1 (.bit 7)]⟩], [⟨"DAC_DCH1LDHRH", 0x00⟩]⟩,
    .reg ⟨"DCH1LDHRL", "DCH1LDHRL", 0x53a5, [⟨"DCH1LDHRL", [gap 4 (.pad 4), fld "LDHRL40" 1 (.bit 4), fld "LDHRL50" 1 (.bit 5), fld "LDHRL60" 1 (.bit 6), fld "LDHRL70" 1 (.bit 7)]⟩], [⟨"DAC_DCH1LDHRL", 0x00⟩]⟩,
    .reg ⟨"DCH2LDHRH", "DCH2LDHRH", 0x53a6, [⟨"DCH2LDHRH", [fld "LDHRH00" 1 (.bit 0), fld "LDHRH10" 1 (.bit 1), fld "LDHRH20" 1 (.bit 2), fld "LDHRH30" 1 (.bit 3), fld "LDHRH40" 1 (.bit 4), fld "LDHRH50" 1 (.bit 5), fld "LDHRH60" 1 (.bit 6), fld "LDHRH70" 1 (.bit 7)]⟩], [⟨"DAC_DCH2LDHRH", 0x00⟩]⟩,
    .reg ⟨"DCH2LDHRL", "DCH2LDHRL", 0x53a7, [⟨"DCH2LDHRL", [gap 4 (.pad 4), fld "LDHRL40" 1 (.bit 4), fld "LDHRL50" 1 (.bit 5), fld "LDHRL60" 1 (.bit 6), fld "LDHRL70" 1 (.bit 7)]⟩], [⟨"DAC_DCH2LDHRL", 0x00⟩]⟩,
    .reg ⟨"DCH1DHR8", "DCH1DHR8", 0x53a8, [⟨"DCH1DHR8", [fld "DHR00" 1 (.bit 0), fld "DHR10" 1 (.bit 1), fld "DHR20" 1 (.bit 2), fld "DHR30" 1 (.bit 3), fld "DHR40" 1 (.bit 4), fld "DHR50" 1 (.bit 5), fld "DHR60" 1 (.bit 6), fld "DHR70" 1 (.bit 7)]⟩], [⟨"DAC_DCH1DHR8", 0x00⟩]⟩,
    .reg ⟨"DCH2DHR8", "DCH2DHR8", 0x53a9, [⟨"DCH2DHR8", [fld "DHR00" 1 (.bit 0), fld "DHR10" 1 (.bit 1), fld "DHR20" 1 (.bit 2), fld "DHR30" 1 (.bit 3), fld "DHR40" 1 (.bit 4), fld "DHR50" 1 (.bit 5), fld "DHR60" 1 (.bit 6), fld "DHR70" 1 (.bit 7)]⟩], [⟨"DAC_DCH2DHR8", 0x00⟩]⟩,
    .reserved 8 2,
    .reg ⟨"DORH_CH1DORH", "DORH_CH1DORH", 0x53ac, [⟨"DORH", [fld "DORH" 4 (.bits 0 3), gap 4 (.pad 4)]⟩, ⟨"CH1DORH", [fld "DORH00" 1 (.bit 0), fld "DORH10" 1 (.bit 1), fld "DORH20" 1 (.bit 2), fld "DORH30" 1 (.bit 3), gap 4 (.pad 4)]⟩], [⟨"DAC_DORH", 0x00⟩, ⟨"DAC_CH1DORH", 0x00⟩]⟩,
    .reg ⟨"DORL_CH1DORL", "DORL_CH1DORL", 0x53ad, [⟨"DORL", [fld "DORL" 8 (.bits 0 7)]⟩, ⟨"CH1DORL", [fld "DORL00" 1 (.bit 0), fld "DORL10" 1 (.bit 1), fld "DORL20" 1 (.bit 2), fld "DORL30" 1 (.bit 3), fld "DORL40" 1 (.bit 4), fld "DORL50" 1 (.bit 5), fld "DORL60" 1 (.bit 6), fld "DORL70" 1 (.bit 7)]⟩], [⟨"DAC_DORL", 0x00⟩, ⟨"DAC_CH1DORL", 0x00⟩]⟩,
    .reserved 9 2,
    .reg ⟨"CH2DORH", "CH2DORH", 0x53b0, [⟨"CH2DORH", [fld "DORH00" 1 (.bit 0), fld "DORH10" 1 (.bit 1), fld "DORH20" 1 (.bit 2), fld "DORH30" 1 (.bit 3), gap 4 (.pad 4)]⟩], [⟨"DAC_CH2DORH", 0x00⟩]⟩,
    .reg ⟨"CH2DORL", "CH2DORL", 0x53b1, [⟨"CH2DORL", [fld "DORL00" 1 (.bit 0), fld "DORL10" 1 (.bit 1), fld "DORL20" 1 (.bit 2), fld "DORL30" 1 (.bit 3), fld "DORL40" 1 (.bit 4), fld "DORL50" 1 (.bit 5), fld "DORL60" 1 (.bit 6), fld "DORL70" 1 (.bit 7)]⟩], [⟨"DAC_CH2DORL", 0x00⟩]⟩ ] }

/-- Overlay struct DM_t (source lines 2259 and following). -/
def DM_t : Overlay :=
  { typeName := "DM_t", docModule := "DM", members := [
    .reg ⟨"BK1RE", "BK1RE", 0x7f90, [], [⟨"DM_BK1RE", 0xFF⟩]⟩,
    .reg ⟨"BK1RH", "BK1RH", 0x7f91, [], [⟨"DM_BK1RH", 0xFF⟩]⟩,
    .reg ⟨"BK1RL", "BK1RL", 0x7f92, [], [⟨"DM_BK1RL", 0xFF⟩]⟩,
    .reg ⟨"BK2RE", "BK2RE", 0x7f93, [], [⟨"DM_BK2RE", 0xFF⟩]⟩,
    .reg ⟨"BK2RH", "BK2RH", 0x7f94, [], [⟨"DM_BK2RH", 0xFF⟩]⟩,
    .reg ⟨"BK2RL", "BK2RL", 0x7f95, [], [⟨"DM_BK2RL", 0xFF⟩]⟩,
    .reg ⟨"CR1", "CR1", 0x7f96, [], [⟨"DM_CR1", 0x00⟩]⟩,
    .reg ⟨"CR2", "CR2", 0x7f97, [], [⟨"DM_CR2", 0x00⟩]⟩,
    .reg ⟨"CSR1", "CSR1", 0x7f98, [], [⟨"DM_CSR1", 0x10⟩]⟩,
    .reg ⟨"CSR2", "CSR2", 0x7f99, [], [⟨"DM_CSR2", 0x00⟩]⟩,
    .reg ⟨"ENFCTR", "ENFCTR", 0x7f9a, [], [⟨"DM_ENFCTR", 0xFF⟩]⟩ ] }

/-- Overlay struct DMA1_t (source lines 2425 and following). -/
def DMA1_t : Overlay :=
  { typeName := "DMA1_t", docModule := "DMA1", members := [
    .reg ⟨"GCSR", "GCSR", 0x5070, [⟨"GCSR", [fld "GEN" 1 (.bit 0), fld "GB" 1 (.bit 1), fld "TO" 6 (.bits 2 7)]⟩], [⟨"DMA1_GCSR", 0xFC⟩]⟩,
    .reg ⟨"GIR1", "GIR1", 0x5071, [⟨"GIR1", [fld "IFC0" 1 (.bit 0), fld "IFC1" 1 (.bit 1), fld "IFC2" 1 (.bit 2), fld "IFC3" 1 (.bit 3), gap 4 (.pad 4)]⟩], [⟨"DMA1_GIR1", 0x00⟩]⟩,
    .reserved 1 3,
    .reg ⟨"C0CR", "C0CR", 0x5075, [⟨"C0CR", [fld "EN" 1 (.bit 0), fld "TCIE" 1 (.bit 1), fld "HTIE" 1 (.bit 2), fld "DIR" 1 (.bit 3), fld "CIRC" 1 (.bit 4), fld "MINCDEC" 1 (.bit 5), gap 2 (.pad 2)]⟩], [⟨"DMA1_C0CR", 0x00⟩]⟩,
    .reg ⟨"C0SPR", "C0SPR", 0x5076, [⟨"C0SPR", [gap 1 (.pad 1), fld "TCIF" 1 (.bit 1), fld "HTIF" 1 (.bit 2), fld "TSIZE" 1 (.bit 3), fld "PL0" 1 (.bit 4), fld "PL1" 1 (.bit 5), fld "PEND" 1 (.bit 6), fld "BUSY" 1 (.bit 7)]⟩], [⟨"DMA1_C0SPR", 0x00⟩]⟩,
    .reg ⟨"C0NDTR", "C0NDTR", 0x5077, [⟨"C0NDTR", [fld "NDT0" 1 (.bit 0), fld "NDT1" 1 (.bit 1), fld "NDT2" 1 (.bit 2), fld "NDT3" 1 (.bit 3), fld "NDT4" 1 (.bit 4), fld "NDT5" 1 (.bit 5), fld "NDT6" 1 (.bit 6), fld "NDT7" 1 (.bit 7)]⟩], [⟨"DMA1_C0NDTR", 0x00⟩]⟩,
    .reg ⟨"C0PARH", "C0PARH", 0x5078, [⟨"C0PARH", [fld "PA8" 1 (.bit 0), fld "PA9" 1 (.bit 1), fld "PA10" 1 (.bit 2), fld "PA11" 1 (.bit 3), fld "PA12" 1 (.bit 4), fld "PA13" 1 (.bit 5), fld "PA14" 1 (.bit 6), fld "PA15" 1 (.bit 7)]⟩], [⟨"DMA1_C0PARH", 0x52⟩]⟩,
    .reg ⟨"C0PARL", "C0PARL", 0x5079, [⟨"C0PARL", [fld "PA0" 1 (.bit 0), fld "PA1" 1 (.bit 1), fld "PA2" 1 (.bit 2), fld "PA3" 1 (.bit 3), fld "PA4" 1 (.bit 4), fld "PA5" 1 (.bit 5), fld "PA6" 1 (.bit 6), fld "PA7" 1 (.bit 7)]⟩], [⟨"DMA1_C0PARL", 0x00⟩]⟩,
    .reserved 2 1,
    .reg ⟨"C0M0ARH", "C0M0ARH", 0x507b, [⟨"C0M0ARH", [fld "M0A8" 1 (.bit 0), fld "M0A9" 1 (.bit 1), fld "M0A10" 1 (.bit 2), fld "M0A11" 1 (.bit 3), fld "M0A12" 1 (.bit 4), fld "M0A13" 1 (.bit 5), fld "M0A14" 1 (.bit 6), fld "M0A15" 1 (.bit 7)]⟩], [⟨"DMA1_C0M0ARH", 0x00⟩]⟩,
    .reg ⟨"C0M0ARL", "C0M0ARL", 0x507c, [⟨"C0M0ARL", [fld "M0A0" 1 (.bit 0), fld "M0A1" 1 (.bit 1), fld "M0A2" 1 (.bit 2), fld "M0A3" 1 (.bit 3), fld "M0A4" 1 (.bit 4), fld "M0A5" 1 (.bit 5), fld "M0A6" 1 (.bit 6), fld "M0A7" 1 (.bit 7)]⟩], [⟨"DMA1_C0M0ARL", 0x00⟩]⟩,
    .reserved 3 2,
    .reg ⟨"C1CR", "C1CR", 0x507f, [⟨"C1CR", [fld "EN" 1 (.bit 0), fld "TCIE" 1 (.bit 1), fld "HTIE" 1 (.bit 2), fld "DIR" 1 (.bit 3), fld "CIRC" 1 (.bit 4), fld "MINCDEC" 1 (.bit 5), gap 2 (.pad 2)]⟩], [⟨"DMA1_C1CR", 0x00⟩]⟩,
    .reg ⟨"C1SPR", "C1SPR", 0x5080, [⟨"C1SPR", [gap 1 (.pad 1), fld "TCIF" 1 (.bit 1), fld "HTIF" 1 (.bit 2), fld "TSIZE" 1 (.bit 3), fld "PL0" 1 (.bit 4), fld "PL1" 1 (.bit 5), fld "PEND" 1 (.bit 6), fld "BUSY" 1 (.bit 7)]⟩], [⟨"DMA1_C1SPR", 0x00⟩]⟩,
    .reg ⟨"C1NDTR", "C1NDTR", 0x5081, [⟨"C1NDTR", [fld "NDT0" 1 (.bit 0), fld "NDT1" 1 (.bit 1), fld "NDT2" 1 (.bit 2), fld "NDT3" 1 (.bit 3), fld "NDT4" 1 (.bit 4), fld "NDT5" 1 (.bit 5), fld "NDT6" 1 (.bit 6), fld "NDT7" 1 (.bit 7)]⟩], [⟨"DMA1_C1NDTR", 0x00⟩]⟩,
    .reg ⟨"C1PARH", "C1PARH", 0x5082, [⟨"C1PARH", [fld "PA8" 1 (.bit 0), fld "PA9" 1 (.bit 1), fld "PA10" 1 (.bit 2), fld "PA11" 1 (.bit 3), fld "PA12" 1 (.bit 4), fld "PA13" 1 (.bit 5), fld "PA14" 1 (.bit 6), fld "PA15" 1 (.bit 7)]⟩], [⟨"DMA1_C1PARH", 0x52⟩]⟩,
    .reg ⟨"C1PARL", "C1PARL", 0x5083, [⟨"C1PARL", [fld "PA0" 1 (.bit 0), fld "PA1" 1 (.bit 1), fld "PA2" 1 (.bit 2), fld "PA3" 1 (.bit 3), fld "PA4" 1 (.bit 4), fld "PA5" 1 (.bit 5), fld "PA6" 1 (.bit 6), fld "PA7" 1 (.bit 7)]⟩], [⟨"DMA1_C1PARL", 0x00⟩]⟩,
    .reserved 4 1,
    .reg ⟨"C1M0ARH", "C1M0ARH", 0x5085, [⟨"C1M0ARH", [fld "M0A8" 1 (.bit 0), fld "M0A9" 1 (.bit 1), fld "M0A10" 1 (.bit 2), fld "M0A11" 1 (.bit 3), fld "M0A12" 1 (.bit 4), fld "M0A13" 1 (.bit 5), fld "M0A14" 1 (.bit 6), fld "M0A15" 1 (.bit 7)]⟩], [⟨"DMA1_C1M0ARH", 0x00⟩]⟩,
    .reg ⟨"C1M0ARL", "C1M0ARL", 0x5086, [⟨"C1M0ARL", [fld "M0A0" 1 (.bit 0), fld "M0A1" 1 (.bit 1), fld "M0A2" 1 (.bit 2), fld "M0A3" 1 (.bit 3), fld "M0A4" 1 (.bit 4), fld "M0A5" 1 (.bit 5), fld "M0A6" 1 (.bit 6), fld "M0A7" 1 (.bit 7)]⟩], [⟨"DMA1_C1M0ARL", 0x00⟩]⟩,
    .reserved 5 2,
    .reg ⟨"C2CR", "C2CR", 0x5089, [⟨"C2CR", [fld "EN" 1 (.bit 0), fld "TCIE" 1 (.bit 1), fld "HTIE" 1 (.bit 2), fld "DIR" 1 (.bit 3), fld "CIRC" 1 (.bit 4), fld "MINCDEC" 1 (.bit 5), gap 2 (.pad 2)]⟩], [⟨"DMA1_C2CR", 0x00⟩]⟩,
    .reg ⟨"C2SPR", "C2SPR", 0x508a, [⟨"C2SPR", [gap 1 (.pad 1), fld "TCIF" 1 (.bit 1), fld "HTIF" 1 (.bit 2), fld "TSIZE" 1 (.bit 3), fld "PL0" 1 (.bit 4), fld "PL1" 1 (.bit 5), fld "PEND" 1 (.bit 6), fld "BUSY" 1 (.bit 7)]⟩], [⟨"DMA1_C2SPR", 0x00⟩]⟩,
    .reg ⟨"C2NDTR", "C2NDTR", 0x508b, [⟨"C2NDTR", [fld "NDT0" 1 (.bit 0), fld "NDT1" 1 (.bit 1), fld "NDT2" 1 (.bit 2), fld "NDT3" 1 (.bit 3), fld "NDT4" 1 (.bit 4), fld "NDT5" 1 (.bit 5), fld "NDT6" 1 (.bit 6), fld "NDT7" 1 (.bit 7)]⟩], [⟨"DMA1_C2NDTR", 0x00⟩]⟩,
    .reg ⟨"C2PARH", "C2PARH", 0x508c, [⟨"C2PARH", [fld "PA8" 1 (.bit 0), fld "PA9" 1 (.bit 1), fld "PA10" 1 (.bit 2), fld "PA11" 1 (.bit 3), fld "PA12" 1 (.bit 4), fld "PA13" 1 (.bit 5), fld "PA14" 1 (.bit 6), fld "PA15" 1 (.bit 7)]⟩], [⟨"DMA1_C2PARH", 0x52⟩]⟩,
    .reg ⟨"C2PARL", "C2PARL", 0x508d, [⟨"C2PARL", [fld "PA0" 1 (.bit 0), fld "PA1" 1 (.bit 1), fld "PA2" 1 (.bit 2), fld "PA3" 1 (.bit 3), fld "PA4" 1 (.bit 4), fld "PA5" 1 (.bit 5), fld "PA6" 1 (.bit 6), fld "PA7" 1 (.bit 7)]⟩], [⟨"DMA1_C2PARL", 0x00⟩]⟩,
    .reserved 6 1,
    .reg ⟨"C2M0ARH", "C2M0ARH", 0x508f, [⟨"C2M0ARH", [fld "M0A8" 1 (.bit 0), fld "M0A9" 1 (.bit 1), fld "M0A10" 1 (.bit 2), fld "M0A11" 1 (.bit 3), fld "M0A12" 1 (.bit 4), fld "M0A13" 1 (.bit 5), fld "M0A14" 1 (.bit 6), fld "M0A15" 1 (.bit 7)]⟩], [⟨"DMA1_C2M0ARH", 0x00⟩]⟩,
    .reg ⟨"C2M0ARL", "C2M0ARL", 0x5090, [⟨"C2M0ARL", [fld "M0A0" 1 (.bit 0), fld "M0A1" 1 (.bit 1), fld "M0A2" 1 (.bit 2), fld "M0A3" 1 (.bit 3), fld "M0A4" 1 (.bit 4), fld "M0A5" 1 (.bit 5), fld "M0A6" 1 (.bit 6), fld "M0A7" 1 (.bit 7)]⟩], [⟨"DMA1_C2M0ARL", 0x00⟩]⟩,
    .reserved 7 2,
    .reg ⟨"C3CR", "C3CR", 0x5093, [⟨"C3CR", [fld "EN" 1 (.bit 0), fld "TCIE" 1 (.bit 1), fld "HTIE" 1 (.bit 2), fld "DIR" 1 (.bit 3), fld "CIRC" 1 (.bit 4), fld "MINCDEC" 1 (.bit 5), fld "MEM" 1 (.bit 6), gap 1 (.pad 1)]⟩], [⟨"DMA1_C3CR", 0x00⟩]⟩,
    .reg ⟨"C3SPR", "C3SPR", 0x5094, [⟨"C3SPR", [gap 1 (.pad 1), fld "TCIF" 1 (.bit 1), fld "HTIF" 1 (.bit 2), fld "TSIZE" 1 (.bit 3), fld "PL0" 1 (.bit 4), fld "PL1" 1 (.bit 5), fld "PEND" 1 (.bit 6), fld "BUSY" 1 (.bit 7)]⟩], [⟨"DMA1_C3SPR", 0x00⟩]⟩,
    .reg ⟨"C3NDTR", "C3NDTR", 0x5095, [⟨"C3NDTR", [fld "NDT0" 1 (.bit 0), fld "NDT1" 1 (.bit 1), fld "NDT2" 1 (.bit 2), fld "NDT3" 1 (.bit 3), fld "NDT4" 1 (.bit 4), fld "NDT5" 1 (.bit 5), fld "NDT6" 1 (.bit 6), fld "NDT7" 1 (.bit 7)]⟩], [⟨"DMA1_C3NDTR", 0x00⟩]⟩,
    .reg ⟨"C3PARH_C3M1ARH", "C3PARH_C3M1ARH", 0x5096, [⟨"C3PARH", [fld "PA8" 1 (.bit 0), fld "PA9" 1 (.bit 1), fld "PA10" 1 (.bit 2), fld "PA11" 1 (.bit 3), fld "PA12" 1 (.bit 4), fld "PA13" 1 (.bit 5), fld "PA14" 1 (.bit 6), fld "PA15" 1 (.bit 7)]⟩, ⟨"C3M1ARH", [fld "M1A8" 1 (.bit 0), fld "M1A9" 1 (.bit 1), fld "M1A10" 1 (.bit 2), fld "M1A11" 1 (.bit 3), fld "M1A12" 1 (.bit 4), fld "M1A13" 1 (.bit 5), fld "M1A14" 1 (.bit 6), fld "M1A15" 1 (.bit 7)]⟩], [⟨"DMA1_C3PARH", 0x40⟩, ⟨"DMA1_C3M1ARH", 0x40⟩]⟩,
    .reg ⟨"C3PARL_C3M1ARL", "C3PARL_C3M1ARL", 0x5097, [⟨"C3PARL", [fld "PA0" 1 (.bit 0), fld "PA1" 1 (.bit 1), fld "PA2" 1 (.bit 2), fld "PA3" 1 (.bit 3), fld "PA4" 1 (.bit 4), fld "PA5" 1 (.bit 5), fld "PA6" 1 (.bit 6), fld "PA7" 1 (.bit 7)]⟩, ⟨"C3M1ARL", [fld "M1A0" 1 (.bit 0), fld "M1A1" 1 (.bit 1), fld "M1A2" 1 (.bit 2), fld "M1A3" 1 (.bit 3), fld "M1A4" 1 (.bit 4), fld "M1A5" 1 (.bit 5), fld "M1A6" 1 (.bit 6), fld "M1A7" 1 (.bit 7)]⟩], [⟨"DMA1_C3PARL", 0x00⟩, ⟨"DMA1_C3M1ARL", 0x00⟩]⟩,
    .reg ⟨"C3M0EAR", "C3M0EAR", 0x5098, [⟨"C3M0EAR", [fld "M0A16" 1 (.bit 0), gap 7 (.pad 7)]⟩], [⟨"DMA1_C3M0EAR", 0x00⟩]⟩,
    .reg ⟨"C3M0ARH", "C3M0ARH", 0x5099, [⟨"C3M0ARH", [fld "M0A8" 1 (.bit 0), fld "M0A9" 1 (.bit 1), fld "M0A10" 1 (.bit 2), fld "M0A11" 1 (.bit 3), fld "M0A12" 1 (.bit 4), fld "M0A13" 1 (.bit 5), fld "M0A14" 1 (.bit 6), fld "M0A15" 1 (.bit 7)]⟩], [⟨"DMA1_C3M0ARH", 0x00⟩]⟩,
    .reg ⟨"C3M0ARL", "C3M0ARL", 0x509a, [⟨"C3M0ARL", [fld "M0A0" 1 (.bit 0), fld "M0A1" 1 (.bit 1), fld "M0A2" 1 (.bit 2), fld "M0A3" 1 (.bit 3), fld "M0A4" 1 (.bit 4), fld "M0A5" 1 (.bit 5), fld "M0A6" 1 (.bit 6), fld "M0A7" 1 (.bit 7)]⟩], [⟨"DMA1_C3M0ARL", 0x00⟩]⟩ ] }

/-- Overlay struct FLASH_t (source lines 3224 and following). -/
def FLASH_t : Overlay :=
  { typeName := "FLASH_t", docModule := "FLASH", members := [
    .reg ⟨"CR1", "CR1", 0x5050, [⟨"CR1", [fld "FIX" 1 (.bit 0), fld "IE" 1 (.bit 1), fld "WAITM" 1 (.bit 2), fld "EEPM" 1 (.bit 3), gap 4 (.pad 4)]⟩], [⟨"FLASH_CR1", 0x00⟩]⟩,
    .reg ⟨"CR2", "CR2", 0x5051, [⟨"CR2", [fld "PRG" 1 (.bit 0), gap 3 (.pad 3), fld "FPRG" 1 (.bit 4), fld "ERASE" 1 (.bit 5), fld "WPRG" 1 (.bit 6), fld "OPT" 1 (.bit 7)]⟩], [⟨"FLASH_CR2", 0x00⟩]⟩,
    .reg ⟨"PUKR", "PUKR", 0x5052, [⟨"PUKR", [fld "MASS_PRG" 8 (.bits 0 7)]⟩], [⟨"FLASH_PUKR", 0x00⟩]⟩,
    .reg ⟨"DUKR", "DUKR", 0x5053, [⟨"DUKR", [fld "MASS_DATA" 8 (.bits 0 7)]⟩], [⟨"FLASH_DUKR", 0x00⟩]⟩,
    .reg ⟨"IAPSR", "IAPSR", 0x5054, [⟨"IAPSR", [fld "WR_PG_DIS" 1 (.bit 0), fld "PUL" 1 (.bit 1), fld "EOP" 1 (.bit 2), fld "DUL" 1 (.bit 3), gap 2 (.pad 2), fld "HVOFF" 1 (.bit 6), gap 1 (.pad 1)]⟩], [⟨"FLASH_IAPSR", 0x00⟩]⟩ ] }

/-- Overlay struct I2C1_t (source lines 3336 and following). -/
def I2C1_t : Overlay :=
  { typeName := "I2C1_t", docModule := "I2C1", members := [
    .reg ⟨"CR1", "CR1", 0x5210, [⟨"CR1", [fld "PE" 1 (.bit 0), fld "SMBUS" 1 (.bit 1), gap 1 (.pad 1), fld "SMBTYPE" 1 (.bit 3), fld "ENARP" 1 (.bit 4), fld "ENPEC" 1 (.bit 5), fld "ENGC" 1 (.bit 6), fld "NOSTRETCH" 1 (.bit 7)]⟩], [⟨"I2C1_CR1", 0x00⟩]⟩,
    .reg ⟨"CR2", "CR2", 0x5211, [⟨"CR2", [fld "START" 1 (.bit 0), fld "STOP" 1 (.bit 1), fld "ACK" 1 (.bit 2), fld "POS" 1 (.bit 3), fld "PEC" 1 (.bit 4), fld "ALERT" 1 (.bit 5), gap 1 (.pad 1), fld "SWRST" 1 (.bit 7)]⟩], [⟨"I2C1_CR2", 0x00⟩]⟩,
    .reg ⟨"FREQR", "FREQR", 0x5212, [⟨"FREQR", [fld "FREQ" 6 (.bits 0 5), gap 2 (.pad 2)]⟩], [⟨"I2C1_FREQR", 0x00⟩]⟩,
    .reg ⟨"OARL", "OARL", 0x5213, [⟨"OARL", [fld "ADD0" 1 (.bit 0), fld "ADD1" 1 (.bit 1), fld "ADD2" 1 (.bit 2), fld "ADD3" 1 (.bit 3), fld "ADD4" 1 (.bit 4), fld "ADD5" 1 (.bit 5), fld "ADD6" 1 (.bit 6), fld "ADD7" 1 (.bit 7)]⟩], [⟨"I2C1_OARL", 0x00⟩]⟩,
    .reg ⟨"OARH", "OARH", 0x5214, [⟨"OARH", [gap 1 (.pad 1), fld "ADD8" 1 (.bit 1), fld "ADD9" 1 (.bit 2), gap 3 (.pad 3), fld "ADDCONF" 1 (.bit 6), fld "ADDMODE" 1 (.bit 7)]⟩], [⟨"I2C1_OARH", 0x00⟩]⟩,
    .reg ⟨"OAR2", "OAR2", 0x5215, [⟨"OAR2", [fld "ENDUAL" 1 (.bit 0), fld "ADD21" 1 (.bit 1), fld "ADD22" 1 (.bit 2), fld "ADD23" 1 (.bit 3), fld "ADD24" 1 (.bit 4), fld "ADD25" 1 (.bit 5), fld "ADD26" 1 (.bit 6), fld "ADD27" 1 (.bit 7)]⟩], [⟨"I2C1_OAR2", 0x00⟩]⟩,
    .reg ⟨"DR", "DR", 0x5216, [⟨"DR", [fld "DR" 8 (.bits 0 7)]⟩], [⟨"I2C1_DR", 0x00⟩]⟩,
    .reg ⟨"SR1", "SR1", 0x5217, [⟨"SR1", [fld "SB" 1 (.bit 0), fld "ADDR" 1 (.bit 1), fld "BTF" 1 (.bit 2), fld "ADD10" 1 (.bit 3), fld "STOPF" 1 (.bit 4), gap 1 (.pad 1), fld "RXNE" 1 (.bit 6), fld "TXE" 1 (.bit 7)]⟩], [⟨"I2C1_SR1", 0x00⟩]⟩,
    .reg ⟨"SR2", "SR2", 0x5218, [⟨"SR2", [fld "BERR" 1 (.bit 0), fld "ARLO" 1 (.bit 1), fld "AF" 1 (.bit 2), fld "OVR" 1 (.bit 3), fld "PECERR" 1 (.bit 4), fld "WUFH" 1 (.bit 5), fld "TIMEOUT" 1 (.bit 6), fld "SMBALERT" 1 (.bit 7)]⟩], [⟨"I2C1_SR2", 0x00⟩]⟩,
    .reg ⟨"SR3", "SR3", 0x5219, [⟨"SR3", [fld "MSL" 1 (.bit 0), fld "BUSY" 1 (.bit 1), fld "TRA" 1 (.bit 2), gap 1 (.pad 1), fld "GENCALL" 1 (.bit 4), fld "SMBDEFAULT" 1 (.bit 5), fld "SMBHOST" 1 (.bit 6), gap 1 (.pad 1)]⟩], [⟨"I2C1_SR3", 0x00⟩]⟩,
    .reg ⟨"ITR", "ITR", 0x521a, [⟨"ITR", [fld "ITERREN" 1 (.bit 0), fld "ITEVTEN" 1 (.bit 1), fld "ITBUFEN" 1 (.bit 2), fld "DMAEN" 1 (.bit 3), fld "LAST" 1 (.bit 4), gap 3 (.pad 3)]⟩], [⟨"I2C1_ITR", 0x00⟩]⟩,
    .reg ⟨"CCRL", "CCRL", 0x521b, [⟨"CCRL", [fld "CCR0" 1 (.bit 0), fld "CCR1" 1 (.bit 1), fld "CCR2" 1 (.bit 2), fld "CCR3" 1 (.bit 3), fld "CCR4" 1 (.bit 4), fld "CCR5" 1 (.bit 5), fld "CCR6" 1 (.bit 6), fld "CCR7" 1 (.bit 7)]⟩], [⟨"I2C1_CCRL", 0x00⟩]⟩,
    .reg ⟨"CCRH", "CCRH", 0x521c, [⟨"CCRH", [fld "CCR8" 1 (.bit 0), fld "CCR9" 1 (.bit 1), fld "CCR10" 1 (.bit 2), fld "CCR11" 1 (.bit 3), gap 2 (.pad 2), fld "DUTY" 1 (.bit 6), fld "F_S" 1 (.bit 7)]⟩], [⟨"I2C1_CCRH", 0x00⟩]⟩,
    .reg ⟨"TRISER", "TRISER", 0x521d, [⟨"TRISER", [fld "TRISE" 6 (.bits 0 5), gap 2 (.pad 2)]⟩], [⟨"I2C1_TRISER", 0x02⟩]⟩,
    .reg ⟨"PECR", "PECR", 0x521e, [⟨"PECR", [fld "PEC" 8 (.bits 0 7)]⟩], [⟨"I2C1_PECR", 0x00⟩]⟩ ] }

/-- Overlay struct IRTIM_t (source lines 3677 and following). -/
def IRTIM_t : Overlay :=
  { typeName := "IRTIM_t", docModule := "IRTIM", members := [
    .reg ⟨"CR", "CR", 0x52ff, [⟨"CR", [fld "IR_EN" 1 (.bit 0), fld "HS_EN" 1 (.bit 1), gap 6 (.pad 6)]⟩], [⟨"IRTIM_CR", 0x00⟩]⟩ ] }

/-- Overlay struct ITC_EXTI_t (source lines 3708 and following). -/
def ITC_EXTI_t : Overlay :=
  { typeName := "ITC_EXTI_t", docModule := "ITC_EXTI", members := [
    .reg ⟨"CR1", "CR1", 0x50a0, [⟨"CR1", [fld "P0IS" 2 (.bits 0 1), fld "P1IS" 2 (.bits 2 3), fld "P2IS" 2 (.bits 4 5), fld "P3IS" 2 (.bits 6 7)]⟩], [⟨"ITC_EXTI_CR1", 0x00⟩]⟩,
    .reg ⟨"CR2", "CR2", 0x50a1, [⟨"CR2", [fld "P4IS" 2 (.bits 0 1), fld "P5IS" 2 (.bits 2 3), fld "P6IS" 2 (.bits 4 5), fld "P7IS" 2 (.bits 6 7)]⟩], [⟨"ITC_EXTI_CR2", 0x00⟩]⟩,
    .reg ⟨"CR3", "CR3", 0x50a2, [⟨"CR3", [fld "PBIS" 2 (.bits 0 1), fld "PDIS" 2 (.bits 2 3), fld "PEIS" 2 (.bits 4 5), fld "PFIS" 2 (.bits 6 7)]⟩], [⟨"ITC_EXTI_CR3", 0x00⟩]⟩,
    .reg ⟨"SR1", "SR1", 0x50a3, [⟨"SR1", [fld "P0F" 1 (.bit 0), fld "P1F" 1 (.bit 1), fld "P2F" 1 (.bit 2), fld "P3F" 1 (.bit 3), fld "P4F" 1 (.bit 4), fld "P5F" 1 (.bit 5), fld "P6F" 1 (.bit 6), fld "P7F" 1 (.bit 7)]⟩], [⟨"ITC_EXTI_SR1", 0x00⟩]⟩,
    .reg ⟨"SR2", "SR2", 0x50a4, [⟨"SR2", [fld "PBF" 1 (.bit 0), fld "PDF" 1 (.bit 1), fld "PEF" 1 (.bit 2), fld "PFF" 1 (.bit 3), fld "PGF" 1 (.bit 4), fld "PHF" 1 (.bit 5), gap 2 (.pad 2)]⟩], [⟨"ITC_EXTI_SR2", 0x00⟩]⟩,
    .reg ⟨"CONF1", "CONF1", 0x50a5, [⟨"CONF1", [fld "PBLIS" 1 (.bit 0), fld "PBHIS" 1 (.bit 1), fld "PDLIS" 1 (.bit 2), fld "PDHIS" 1 (.bit 3), fld "PELIS" 1 (.bit 4), fld "PEHIS" 1 (.bit 5), fld "PFLIS" 1 (.bit 6), fld "PFES" 1 (.bit 7)]⟩], [⟨"ITC_EXTI_CONF1", 0x00⟩]⟩,
    .reserved 1 4,
    .reg ⟨"CR4", "CR4", 0x50aa, [⟨"CR4", [fld "PGIS" 2 (.bits 0 1), fld "PHIS" 2 (.bits 2 3), gap 4 (.pad 4)]⟩], [⟨"ITC_EXTI_CR4", 0x00⟩]⟩,
    .reg ⟨"CONF2", "CONF2", 0x50ab, [⟨"CONF2", [fld "PFHIS" 1 (.bit 0), fld "PGLIS" 1 (.bit 1), fld "PGHIS" 1 (.bit 2), fld "PHLIS" 1 (.bit 3), fld "PHHIS" 1 (.bit 4), fld "PGBS" 1 (.bit 5), fld "PHDS" 1 (.bit 6), gap 1 (.pad 1)]⟩], [⟨"ITC_EXTI_CONF2", 0x00⟩]⟩ ] }

/-- Overlay struct ITC_SPR_t (source lines 3898 and following). -/
def ITC_SPR_t : Overlay :=
  { typeName := "ITC_SPR_t", docModule := "ITC_SPR", members := [
    .reg ⟨"SPR1", "SPR1", 0x7f70, [⟨"SPR1", [fld "VECT0SPR" 2 (.bits 0 1), fld "VECT1SPR" 2 (.bits 2 3), fld "VECT2SPR" 2 (.bits 4 5), fld "VECT3SPR" 2 (.bits 6 7)]⟩], [⟨"ITC_SPR_SPR1", 0xFF⟩]⟩,
    .reg ⟨"SPR2", "SPR2", 0x7f71, [⟨"SPR2", [fld "VECT4SPR" 2 (.bits 0 1), fld "VECT5SPR" 2 (.bits 2 3), fld "VECT6SPR" 2 (.bits 4 5), fld "VECT7SPR" 2 (.bits 6 7)]⟩], [⟨"ITC_SPR_SPR2", 0xFF⟩]⟩,
    .reg ⟨"SPR3", "SPR3", 0x7f72, [⟨"SPR3", [fld "VECT8SPR" 2 (.bits 0 1), fld "VECT9SPR" 2 (.bits 2 3), fld "VECT10SPR" 2 (.bits 4 5), fld "VECT11SPR" 2 (.bits 6 7)]⟩], [⟨"ITC_SPR_SPR3", 0xFF⟩]⟩,
    .reg ⟨"SPR4", "SPR4", 0x7f73, [⟨"SPR4", [fld "VECT12SPR" 2 (.bits 0 1), fld "VECT13SPR" 2 (.bits 2 3), fld "VECT14SPR" 2 (.bits 4 5), fld "VECT15SPR" 2 (.bits 6 7)]⟩], [⟨"ITC_SPR_SPR4", 0xFF⟩]⟩,
    .reg ⟨"SPR5", "SPR5", 0x7f74, [⟨"SPR5", [fld "VECT16SPR" 2 (.bits 0 1), fld "VECT17SPR" 2 (.bits 2 3), fld "VECT18SPR" 2 (.bits 4 5), fld "VECT19SPR" 2 (.bits 6 7)]⟩], [⟨"ITC_SPR_SPR5", 0xFF⟩]⟩,
    .reg ⟨"SPR6", "SPR6", 0x7f75, [⟨"SPR6", [fld "VECT20SPR" 2 (.bits 0 1), fld "VECT21SPR" 2 (.bits 2 3), fld "VECT22SPR" 2 (.bits 4 5), fld "VECT23SPR" 2 (.bits 6 7)]⟩], [⟨"ITC_SPR_SPR6", 0xFF⟩]⟩,
    .reg ⟨"SPR7", "SPR7", 0x7f76, [⟨"SPR7", [fld "VECT24SPR" 2 (.bits 0 1), fld "VECT25SPR" 2 (.bits 2 3), fld "VECT26SPR" 2 (.bits 4 5), fld "VECT27SPR" 2 (.bits 6 7)]⟩], [⟨"ITC_SPR_SPR7", 0xFF⟩]⟩,
    .reg ⟨"SPR8", "SPR8", 0x7f77, [⟨"SPR8", [fld "VECT28SPR" 2 (.bits 0 1), fld "VECT29SPR" 2 (.bits 2 3), gap 4 (.pad 4)]⟩], [⟨"ITC_SPR_SPR8", 0xFF⟩]⟩ ] }

/-- Overlay struct IWDG_t (source lines 4069 and following). -/
def IWDG_t : Overlay :=
  { typeName := "IWDG_t", docModule := "IWDG", members := [
    .reg ⟨"KR", "KR", 0x50e0, [⟨"KR", [fld "KEY0" 1 (.bit 0), fld "KEY1" 1 (.bit 1), fld "KEY2" 1 (.bit 2), fld "KEY3" 1 (.bit 3), fld "KEY4" 1 (.bit 4), fld "KEY5" 1 (.bit 5), fld "KEY6" 1 (.bit 6), fld "KEY7" 1 (.bit 7)]⟩], [⟨"IWDG_KR", 0x00⟩]⟩,
    .reg ⟨"PR", "PR", 0x50e1, [⟨"PR", [fld "PR" 3 (.bits 0 2), gap 5 (.pad 5)]⟩], [⟨"IWDG_PR", 0x00⟩]⟩,
    .reg ⟨"RLR", "RLR", 0x50e2, [⟨"RLR", [fld "RL" 8 (.bits 0 7)]⟩], [⟨"IWDG_RLR", 0xFF⟩]⟩ ] }

/-- Overlay struct OPT_t (source lines 4140 and following). -/
def OPT_t : Overlay :=
  { typeName := "OPT_t", docModule := "OPT", members := [
    .reg ⟨"OPT0", "OPT0", 0x4800, [], [⟨"OPT_OPT0", 0xAA⟩]⟩,
    .reserved 1 1,
    .reg ⟨"OPT1", "OPT1", 0x4802, [], [⟨"OPT_OPT1", 0x00⟩]⟩,
    .reserved 2 4,
    .reg ⟨"OPT2", "OPT2", 0x4807, [], [⟨"OPT_OPT2", 0x00⟩]⟩,
    .reg ⟨"OPT3", "OPT3", 0x4808, [], [⟨"OPT_OPT3", 0x00⟩]⟩,
    .reg ⟨"OPT4", "OPT4", 0x4809, [], [⟨"OPT_OPT4", 0x00⟩]⟩,
    .reg ⟨"OPT5", "OPT5", 0x480a, [], [⟨"OPT_OPT5", 0x01⟩]⟩,
    .reg ⟨"OPTBL_H", "OPTBL_H", 0x480b, [], [⟨"OPT_OPTBL_H", 0x00⟩]⟩,
    .reg ⟨"OPTBL_L", "OPTBL_L", 0x480c, [], [⟨"OPT_OPTBL_L", 0x00⟩]⟩ ] }

/-- Overlay struct PWR_t (source lines 4272 and following). -/
def PWR_t : Overlay :=
  { typeName := "PWR_t", docModule := "PWR", members := [
    .reg ⟨"CSR1", "CSR1", 0x50b2, [⟨"CSR1", [fld "PVDE" 1 (.bit 0), fld "PLS" 3 (.bits 1 3), fld "PVDIEN" 1 (.bit 4), fld "PVDIF" 1 (.bit 5), fld "PVDOF" 1 (.bit 6), gap 1 (.pad 1)]⟩], [⟨"PWR_CSR1", 0x00⟩]⟩,
    .reg ⟨"CSR2", "CSR2", 0x50b3, [⟨"CSR2", [fld "VREFINTF" 1 (.bit 0), fld "ULP" 1 (.bit 1), fld "FWU" 1 (.bit 2), gap 5 (.pad 5)]⟩], [⟨"PWR_CSR2", 0x00⟩]⟩ ] }

/-- Overlay struct PORT_t (source lines 4326 and following). -/
def PORT_t : Overlay :=
  { typeName := "PORT_t", docModule := "PORTA", members := [
    .reg ⟨"ODR", "ODR", 0x5000, [⟨"ODR", [fld "ODR0" 1 (.bit 0), fld "ODR1" 1 (.bit 1), fld "ODR2" 1 (.bit 2), fld "ODR3" 1 (.bit 3), fld "ODR4" 1 (.bit 4), fld "ODR5" 1 (.bit 5), fld "ODR6" 1 (.bit 6), fld "ODR7" 1 (.bit 7)]⟩], [⟨"PORT_ODR", 0x00⟩]⟩,
    .reg ⟨"IDR", "IDR", 0x5001, [⟨"IDR", [fld "IDR0" 1 (.bit 0), fld "IDR1" 1 (.bit 1), fld "IDR2" 1 (.bit 2), fld "IDR3" 1 (.bit 3), fld "IDR4" 1 (.bit 4), fld "IDR5" 1 (.bit 5), fld "IDR6" 1 (.bit 6), fld "IDR7" 1 (.bit 7)]⟩], [⟨"PORT_IDR", 0x00⟩]⟩,
    .reg ⟨"DDR", "DDR", 0x5002, [⟨"DDR", [fld "DDR0" 1 (.bit 0), fld "DDR1" 1 (.bit 1), fld "DDR2" 1 (.bit 2), fld "DDR3" 1 (.bit 3), fld "DDR4" 1 (.bit 4), fld "DDR5" 1 (.bit 5), fld "DDR6" 1 (.bit 6), fld "DDR7" 1 (.bit 7)]⟩], [⟨"PORT_DDR", 0x00⟩]⟩,
    .reg ⟨"CR1", "CR1", 0x5003, [⟨"CR1", [fld "C10" 1 (.bit 0), fld "C11" 1 (.bit 1), fld "C12" 1 (.bit 2), fld "C13" 1 (.bit 3), fld "C14" 1 (.bit 4), fld "C15" 1 (.bit 5), fld "C16" 1 (.bit 6), fld "C17" 1 (.bit 7)]⟩], [⟨"PORT_CR1", 0x00⟩]⟩,
    .reg ⟨"CR2", "CR2", 0x5004, [⟨"CR2", [fld "C20" 1 (.bit 0), fld "C21" 1 (.bit 1), fld "C22" 1 (.bit 2), fld "C23" 1 (.bit 3), fld "C24" 1 (.bit 4), fld "C25" 1 (.bit 5), fld "C26" 1 (.bit 6), fld "C27" 1 (.bit 7)]⟩], [⟨"PORT_CR2", 0x00⟩]⟩ ] }

/-- Overlay struct RI_t (source lines 4490 and following). -/
def RI_t : Overlay :=
  { typeName := "RI_t", docModule := "RI", members := [
    .reg ⟨"ICR1", "ICR1", 0x5431, [⟨"ICR1", [fld "IC2CS" 5 (.bits 0 4), gap 3 (.pad 3)]⟩], [⟨"RI_ICR1", 0x00⟩]⟩,
    .reg ⟨"ICR2", "ICR2", 0x5432, [⟨"ICR2", [fld "IC3CS" 5 (.bits 0 4), gap 3 (.pad 3)]⟩], [⟨"RI_ICR2", 0x00⟩]⟩,
    .reg ⟨"IOIR1", "IOIR1", 0x5433, [⟨"IOIR1", [fld "CH1I" 1 (.bit 0), fld "CH4I" 1 (.bit 1), fld "CH7I" 1 (.bit 2), fld "CH10I" 1 (.bit 3), fld "CH13I" 1 (.bit 4), fld "CH16I" 1 (.bit 5), fld "CH19I" 1 (.bit 6), fld "CH22I" 1 (.bit 7)]⟩], [⟨"RI_IOIR1", 0x00⟩]⟩,
    .reg ⟨"IOIR2", "IOIR2", 0x5434, [⟨"IOIR2", [fld "CH2I" 1 (.bit 0), fld "CH5I" 1 (.bit 1), fld "CH8I" 1 (.bit 2), fld "CH11I" 1 (.bit 3), fld "CH14I" 1 (.bit 4), fld "CH17I" 1 (.bit 5), fld "CH20I" 1 (.bit 6), fld "CH23I" 1 (.bit 7)]⟩], [⟨"RI_IOIR2", 0x00⟩]⟩,
    .reg ⟨"IOIR3", "IOIR3", 0x5435, [⟨"IOIR3", [fld "CH3I" 1 (.bit 0), fld "CH6I" 1 (.bit 1), fld "CH9I" 1 (.bit 2), fld "CH12I" 1 (.bit 3), fld "CH15I" 1 (.bit 4), fld "CH18I" 1 (.bit 5), fld "CH21I" 1 (.bit 6), fld "CH24I" 1 (.bit 7)]⟩], [⟨"RI_IOIR3", 0x00⟩]⟩,
    .reg ⟨"IOCMR1", "IOCMR1", 0x5436, [⟨"IOCMR1", [fld "CH1M" 1 (.bit 0), fld "CH4M" 1 (.bit 1), fld "CH7M" 1 (.bit 2), fld "CH10M" 1 (.bit 3), fld "CH13M" 1 (.bit 4), fld "CH16M" 1 (.bit 5), fld "CH19M" 1 (.bit 6), fld "CH22M" 1 (.bit 7)]⟩], [⟨"RI_IOCMR1", 0x00⟩]⟩,
    .reg ⟨"IOCMR2", "IOCMR2", 0x5437, [⟨"IOCMR2", [fld "CH2M" 1 (.bit 0), fld "CH5M" 1 (.bit 1), fld "CH8M" 1 (.bit 2), fld "CH11M" 1 (.bit 3), fld "CH14M" 1 (.bit 4), fld "CH17M" 1 (.bit 5), fld "CH20M" 1 (.bit 6), fld "CH23M" 1 (.bit 7)]⟩], [⟨"RI_IOCMR2", 0x00⟩]⟩,
    .reg ⟨"IOCMR3", "IOCMR3", 0x5438, [⟨"IOCMR3", [fld "CH3M" 1 (.bit 0), fld "CH6M" 1 (.bit 1), fld "CH9M" 1 (.bit 2), fld "CH12M" 1 (.bit 3), fld "CH53M" 1 (.bit 4), fld "CH18M" 1 (.bit 5), fld "CH21M" 1 (.bit 6), fld "CH24M" 1 (.bit 7)]⟩], [⟨"RI_IOCMR3", 0x00⟩]⟩,
    .reg ⟨"IOSR1", "IOSR1", 0x5439, [⟨"IOSR1", [fld "CH1E" 1 (.bit 0), fld "CH4E" 1 (.bit 1), fld "CH7E" 1 (.bit 2), fld "CH10E" 1 (.bit 3), fld "CH13E" 1 (.bit 4), fld "CH16E" 1 (.bit 5), fld "CH19E" 1 (.bit 6), fld "CH22E" 1 (.bit 7)]⟩], [⟨"RI_IOSR1", 0x00⟩]⟩,
    .reg ⟨"IOSR2", "IOSR2", 0x543a, [⟨"IOSR2", [fld "CH2E" 1 (.bit 0), fld "CH5E" 1 (.bit 1), fld "CH8E" 1 (.bit 2), fld "CH11E" 1 (.bit 3), fld "CH14E" 1 (.bit 4), fld "CH17E" 1 (.bit 5), fld "CH20E" 1 (.bit 6), fld "CH23E" 1 (.bit 7)]⟩], [⟨"RI_IOSR2", 0x00⟩]⟩,
    .reg ⟨"IOSR3", "IOSR3", 0x543b, [⟨"IOSR3", [fld "CH3E" 1 (.bit 0), fld "CH6E" 1 (.bit 1), fld "CH9E" 1 (.bit 2), fld "CH12E" 1 (.bit 3), fld "CH15E" 1 (.bit 4), fld "CH18E" 1 (.bit 5), fld "CH21E" 1 (.bit 6), fld "CH24E" 1 (.bit 7)]⟩], [⟨"RI_IOSR3", 0x00⟩]⟩,
    .reg ⟨"IOGCR", "IOGCR", 0x543c, [⟨"IOGCR", [fld "IOM1" 2 (.bits 0 1), fld "IOM2" 2 (.bits 2 3), fld "IOM3" 2 (.bits 4 5), gap 2 (.pad 2)]⟩], [⟨"RI_IOGCR", 0x3F⟩]⟩,
    .reg ⟨"ASCR1", "ASCR1", 0x543d, [⟨"ASCR1", [fld "AS0" 1 (.bit 0), fld "AS1" 1 (.bit 1), fld "AS2" 1 (.bit 2), fld "AS3" 1 (.bit 3), fld "AS4" 1 (.bit 4), fld "AS5" 1 (.bit 5), fld "AS6" 1 (.bit 6), fld "AS7" 1 (.bit 7)]⟩], [⟨"RI_ASCR1", 0x00⟩]⟩,
    .reg ⟨"ASCR2", "ASCR2", 0x543e, [⟨"ASCR2", [fld "AS8" 1 (.bit 0), gap 5 (.pad 5), fld "AS14" 1 (.bit 6), gap 1 (.pad 1)]⟩], [⟨"RI_ASCR2", 0x00⟩]⟩,
    .reg ⟨"RCR", "RCR", 0x543f, [⟨"RCR", [fld "KPU10" 1 (.bit 0), fld "KPU400" 1 (.bit 1), fld "KPD10" 1 (.bit 2), fld "KPD400" 1 (.bit 3), gap 4 (.pad 4)]⟩], [⟨"RI_RCR", 0x00⟩]⟩ ] }

/-- Overlay struct RST_t (source lines 4839 and following). -/
def RST_t : Overlay :=
  { typeName := "RST_t", docModule := "RST", members := [
    .reg ⟨"CR", "CR", 0x50b0, [⟨"CR", [fld "RSTPIN_KEY" 8 (.bits 0 7)]⟩], [⟨"RST_CR", 0x00⟩]⟩,
    .reg ⟨"SR", "SR", 0x50b1, [⟨"SR", [fld "PORF" 1 (.bit 0), fld "IWDGF" 1 (.bit 1), fld "ILLOPF" 1 (.bit 2), fld "SWIMF" 1 (.bit 3), fld "WWDGF" 1 (.bit 4), fld "BORF" 1 (.bit 5), gap 2 (.pad 2)]⟩], [⟨"RST_SR", 0x01⟩]⟩ ] }

/-- Overlay struct RTC_t (source lines 4891 and following). -/
def RTC_t : Overlay :=
  { typeName := "RTC_t", docModule := "RTC", members := [
    .reg ⟨"TR1", "TR1", 0x5140, [⟨"TR1", [fld "SU" 4 (.bits 0 3), fld "ST" 4 (.bits 4 7)]⟩], [⟨"RTC_TR1", 0x00⟩]⟩,
    .reg ⟨"TR2", "TR2", 0x5141, [⟨"TR2", [fld "MNU" 4 (.bits 0 3), fld "MNT" 4 (.bits 4 7)]⟩], [⟨"RTC_TR2", 0x00⟩]⟩,
    .reg ⟨"TR3", "TR3", 0x5142, [⟨"TR3", [fld "HU" 4 (.bits 0 3), fld "HT" 2 (.bits 4 5), fld "PM" 1 (.bit 6), gap 1 (.pad 1)]⟩], [⟨"RTC_TR3", 0x00⟩]⟩,
    .reserved 1 1,
    .reg ⟨"DR1", "DR1", 0x5144, [⟨"DR1", [fld "DU" 4 (.bits 0 3), fld "DT" 2 (.bits 4 5), gap 2 (.pad 2)]⟩], [⟨"RTC_DR1", 0x00⟩]⟩,
    .reg ⟨"DR2", "DR2", 0x5145, [⟨"DR2", [fld "MU" 4 (.bits 0 3), fld "MT" 1 (.bit 4), fld "WDU" 3 (.bits 5 7)]⟩], [⟨"RTC_DR2", 0x00⟩]⟩,
    .reg ⟨"DR3", "DR3", 0x5146, [⟨"DR3", [fld "YU" 4 (.bits 0 3), fld "YT" 4 (.bits 4 7)]⟩], [⟨"RTC_DR3", 0x00⟩]⟩,
    .reserved 2 1,
    .reg ⟨"CR1", "CR1", 0x5148, [⟨"CR1", [fld "WUCKSEL" 4 (.bits 0 3), gap 1 (.pad 1), fld "RATIO" 1 (.bit 5), fld "FMT" 1 (.bit 6), gap 1 (.pad 1)]⟩], [⟨"RTC_CR1", 0x00⟩]⟩,
    .reg ⟨"CR2", "CR2", 0x5149, [⟨"CR2", [fld "ALRAE" 1 (.bit 0), gap 1 (.pad 1), fld "WUTE" 1 (.bit 2), gap 1 (.pad 1), fld "ALRAIE" 1 (.bit 4), gap 1 (.pad 1), fld "WUTIE" 1 (.bit 6), gap 1 (.pad 1)]⟩], [⟨"RTC_CR2", 0x00⟩]⟩,
    .reg ⟨"CR3", "CR3", 0x514a, [⟨"CR3", [fld "ADD1H" 1 (.bit 0), fld "SUB1H" 1 (.bit 1), fld "BCK" 1 (.bit 2), gap 1 (.pad 1), fld "POL" 1 (.bit 4), fld "OSEL" 2 (.bits 5 6), fld "COE" 1 (.bit 7)]⟩], [⟨"RTC_CR3", 0x00⟩]⟩,
    .reserved 3 1,
    .reg ⟨"ISR1", "ISR1", 0x514c, [⟨"ISR1", [fld "ALRAWF" 1 (.bit 0), fld "RECALPF" 1 (.bit 1), fld "WUTWF" 1 (.bit 2), fld "SHPF" 1 (.bit 3), fld "INITS" 1 (.bit 4), fld "RSF" 1 (.bit 5), fld "INITF" 1 (.bit 6), fld "INIT" 1 (.bit 7)]⟩], [⟨"RTC_ISR1", 0x00⟩]⟩,
    .reg ⟨"ISR2", "ISR2", 0x514d, [⟨"ISR2", [fld "ALRAF" 1 (.bit 0), gap 1 (.pad 1), fld "WUTF" 1 (.bit 2), gap 2 (.pad 2), fld "TAMP1F" 1 (.bit 5), fld "TAMP2F" 1 (.bit 6), fld "TAMP3F" 1 (.bit 7)]⟩], [⟨"RTC_ISR2", 0x00⟩]⟩,
    .reserved 4 2,
    .reg ⟨"SPRERH", "SPRERH", 0x5150, [⟨"SPRERH", [fld "PREDIV_S8" 1 (.bit 0), fld "PREDIV_S9" 1 (.bit 1), fld "PREDIV_S10" 1 (.bit 2), fld "PREDIV_S11" 1 (.bit 3), fld "PREDIV_S12" 1 (.bit 4), fld "PREDIV_S13" 1 (.bit 5), fld "PREDIV_S14" 1 (.bit 6), gap 1 (.pad 1)]⟩], [⟨"RTC_SPRERH", 0x00⟩]⟩,
    .reg ⟨"SPRERL", "SPRERL", 0x5151, [⟨"SPRERL", [fld "PREDIV_S0" 1 (.bit 0), fld "PREDIV_S1" 1 (.bit 1), fld "PREDIV_S2" 1 (.bit 2), fld "PREDIV_S3" 1 (.bit 3), fld "PREDIV_S4" 1 (.bit 4), fld "PREDIV_S5" 1 (.bit 5), fld "PREDIV_S6" 1 (.bit 6), fld "PREDIV_S7" 1 (.bit 7)]⟩], [⟨"RTC_SPRERL", 0x00⟩]⟩,
    .reg ⟨"APRER", "APRER", 0x5152, [⟨"APRER", [fld "PREDIV_A" 7 (.bits 0 6), gap 1 (.pad 1)]⟩], [⟨"RTC_APRER", 0x00⟩]⟩,
    .reserved 5 1,
    .reg ⟨"WUTRH", "WUTRH", 0x5154, [⟨"WUTRH", [fld "WUT8" 1 (.bit 0), fld "WUT9" 1 (.bit 1), fld "WUT10" 1 (.bit 2), fld "WUT11" 1 (.bit 3), fld "WUT12" 1 (.bit 4), fld "WUT13" 1 (.bit 5), fld "WUT14" 1 (.bit 6), fld "WUT15" 1 (.bit 7)]⟩], [⟨"RTC_WUTRH", 0x00⟩]⟩,
    .reg ⟨"WUTRL", "WUTRL", 0x5155, [⟨"WUTRL", [fld "WUT0" 1 (.bit 0), fld "WUT1" 1 (.bit 1), fld "WUT2" 1 (.bit 2), fld "WUT3" 1 (.bit 3), fld "WUT4" 1 (.bit 4), fld "WUT5" 1 (.bit 5), fld "WUT6" 1 (.bit 6), fld "WUT7" 1 (.bit 7)]⟩], [⟨"RTC_WUTRL", 0x00⟩]⟩,
    .reserved 6 1,
    .reg ⟨"SSRL", "SSRL", 0x5157, [⟨"SSRL", [fld "SS0" 1 (.bit 0), fld "SS1" 1 (.bit 1), fld "SS2" 1 (.bit 2), fld "SS3" 1 (.bit 3), fld "SS4" 1 (.bit 4), fld "SS5" 1 (.bit 5), fld "SS6" 1 (.bit 6), fld "SS7" 1 (.bit 7)]⟩], [⟨"RTC_SSRL", 0x00⟩]⟩,
    .reg ⟨"SSRH", "SSRH", 0x5158, [⟨"SSRH", [fld "SS8" 1 (.bit 0), fld "SS9" 1 (.bit 1), fld "SS10" 1 (.bit 2), fld "SS11" 1 (.bit 3), fld "SS12" 1 (.bit 4), fld "SS13" 1 (.bit 5), fld "SS14" 1 (.bit 6), fld "SS15" 1 (.bit 7)]⟩], [⟨"RTC_SSRH", 0x00⟩]⟩,
    .reg ⟨"WPR", "WPR", 0x5159, [⟨"WPR", [fld "KEY0" 1 (.bit 0), fld "KEY1" 1 (.bit 1), fld "KEY2" 1 (.bit 2), fld "KEY3" 1 (.bit 3), fld "KEY4" 1 (.bit 4), fld "KEY5" 1 (.bit 5), fld "KEY6" 1 (.bit 6), fld "KEY7" 1 (.bit 7)]⟩], [⟨"RTC_WPR", 0x00⟩]⟩,
    .reg ⟨"SHIFTRH", "SHIFTRH", 0x515a, [⟨"SHIFTRH", [fld "SUBFS8" 1 (.bit 0), fld "SUBFS9" 1 (.bit 1), fld "SUBFS10" 1 (.bit 2), fld "SUBFS11" 1 (.bit 3), fld "SUBFS12" 1 (.bit 4), fld "SUBFS13" 1 (.bit 5), fld "SUBFS14" 1 (.bit 6), fld "ADDIS" 1 (.bit 7)]⟩], [⟨"RTC_SHIFTRH", 0x00⟩]⟩,
    .reg ⟨"SHIFTRL", "SHIFTRL", 0x515b, [⟨"SHIFTRL", [fld "SUBFS0" 1 (.bit 0), fld "SUBFS1" 1 (.bit 1), fld "SUBFS2" 1 (.bit 2), fld "SUBFS3" 1 (.bit 3), fld "SUBFS4" 1 (.bit 4), fld "SUBFS5" 1 (.bit 5), fld "SUBFS6" 1 (.bit 6), fld "SUBFS7" 1 (.bit 7)]⟩], [⟨"RTC_SHIFTRL", 0x00⟩]⟩,
    .reg ⟨"ALRMAR1", "ALRMAR1", 0x515c, [⟨"ALRMAR1", [fld "ALSU" 4 (.bits 0 3), fld "ALST" 3 (.bits 4 6), fld "MSK1" 1 (.bit 7)]⟩], [⟨"RTC_ALRMAR1", 0x00⟩]⟩,
    .reg ⟨"ALRMAR2", "ALRMAR2", 0x515d, [⟨"ALRMAR2", [fld "ALMNU" 4 (.bits 0 3), fld "ALMNT" 3 (.bits 4 6), fld "MSK2" 1 (.bit 7)]⟩], [⟨"RTC_ALRMAR2", 0x00⟩]⟩,
    .reg ⟨"ALRMAR3", "ALRMAR3", 0x515e, [⟨"ALRMAR3", [fld "ALHU" 4 (.bits 0 3), fld "ALHT" 2 (.bits 4 5), fld "PM" 1 (.bit 6), fld "MSK3" 1 (.bit 7)]⟩], [⟨"RTC_ALRMAR3", 0x00⟩]⟩,
    .reg ⟨"ALRMAR4", "ALRMAR4", 0x515f, [⟨"ALRMAR4", [fld "ALDU" 4 (.bits 0 3), fld "ALDT" 2 (.bits 4 5), fld "WDSEL" 1 (.bit 6), fld "MSK4" 1 (.bit 7)]⟩], [⟨"RTC_ALRMAR4", 0x00⟩]⟩,
    .reserved 7 4,
    .reg ⟨"ALRMASSRH", "ALRMASSRH", 0x5164, [⟨"ALRMASSRH", [fld "ALSS8" 1 (.bit 0), fld "ALSS9" 1 (.bit 1), fld "ALSS10" 1 (.bit 2), fld "ALSS11" 1 (.bit 3), fld "ALSS12" 1 (.bit 4), fld "ALSS13" 1 (.bit 5), fld "ALSS14" 1 (.bit 6), gap 1 (.pad 1)]⟩], [⟨"RTC_ALRMASSRH", 0x00⟩]⟩,
    .reg ⟨"ALRMASSRL", "ALRMASSRL", 0x5165, [⟨"ALRMASSRL", [fld "ALSS0" 1 (.bit 0), fld "ALSS1" 1 (.bit 1), fld "ALSS2" 1 (.bit 2), fld "ALSS3" 1 (.bit 3), fld "ALSS4" 1 (.bit 4), fld "ALSS5" 1 (.bit 5), fld "ALSS6" 1 (.bit 6), fld "ALSS7" 1 (.bit 7)]⟩], [⟨"RTC_ALRMASSRL", 0x00⟩]⟩,
    .reg ⟨"ALRMASSMSKR", "ALRMASSMSKR", 0x5166, [⟨"ALRMASSMSKR", [fld "MASKSS0" 1 (.bit 0), fld "MASKSS1" 1 (.bit 1), fld "MASKSS2" 1 (.bit 2), fld "MASKSS3" 1 (.bit 3), gap 4 (.pad 4)]⟩], [⟨"RTC_ALRMASSMSKR", 0x00⟩]⟩,
    .reserved 8 3,
    .reg ⟨"CALRH", "CALRH", 0x516a, [⟨"CALRH", [fld "CALM8" 1 (.bit 0), gap 4 (.pad 4), fld "CALW16" 1 (.bit 5), fld "CALW8" 1 (.bit 6), fld "CALP" 1 (.bit 7)]⟩], [⟨"RTC_CALRH", 0x00⟩]⟩,
    .reg ⟨"CALRL", "CALRL", 0x516b, [⟨"CALRL", [fld "CALM0" 1 (.bit 0), fld "CALM1" 1 (.bit 1), fld "CALM2" 1 (.bit 2), fld "CALM3" 1 (.bit 3), fld "CALM4" 1 (.bit 4), fld "CALM5" 1 (.bit 5), fld "CALM6" 1 (.bit 6), fld "CALM7" 1 (.bit 7)]⟩], [⟨"RTC_CALRL", 0x00⟩]⟩,
    .reg ⟨"TCR1", "TCR1", 0x516c, [⟨"TCR1", [fld "TAMPIE" 1 (.bit 0), fld "TAMP1E" 1 (.bit 1), fld "TAMP1LEVEL" 1 (.bit 2), fld "TAMP2E" 1 (.bit 3), fld "TAMP2LEVEL" 1 (.bit 4), fld "TAMP3E" 1 (.bit 5), fld "TAMP3LEVEL" 1 (.bit 6), gap 1 (.pad 1)]⟩], [⟨"RTC_TCR1", 0x00⟩]⟩,
    .reg ⟨"TCR2", "TCR2", 0x516d, [⟨"TCR2", [fld "TAMPFREQ" 3 (.bits 0 2), fld "TAMPFLT" 2 (.bits 3 4), fld "TAMPPRCH" 2 (.bits 5 6), fld "TAMPPUDIS" 1 (.bit 7)]⟩], [⟨"RTC_TCR2", 0x00⟩]⟩,
    .reserved 9 34,
    .reg ⟨"CSS_LSE_CSR", "CSS_LSE_CSR", 0x5190, [⟨"CSS_LSE_CSR", [fld "CSSEN" 1 (.bit 0), fld "SWITCHEN" 1 (.bit 1), fld "CSSIE" 1 (.bit 2), fld "CSSF" 1 (.bit 3), fld "SWITCHF" 1 (.bit 4), gap 3 (.pad 3)]⟩], [⟨"RTC_CSS_LSE_CSR", 0x00⟩]⟩ ] }

/-- Overlay struct SPI1_t (source lines 5658 and following). -/
def SPI1_t : Overlay :=
  { typeName := "SPI1_t", docModule := "SPI1", members := [
    .reg ⟨"CR1", "CR1", 0x5200, [⟨"CR1", [fld "CPHA" 1 (.bit 0), fld "CPOL" 1 (.bit 1), fld "MSTR" 1 (.bit 2), fld "BR" 3 (.bits 3 5), fld "SPE" 1 (.bit 6), fld "LSBFIRST" 1 (.bit 7)]⟩], [⟨"SPI1_CR1", 0x00⟩]⟩,
    .reg ⟨"CR2", "CR2", 0x5201, [⟨"CR2", [fld "SSI" 1 (.bit 0), fld "SSM" 1 (.bit 1), fld "RXONLY" 1 (.bit 2), gap 1 (.pad 1), fld "CRCNEXT" 1 (.bit 4), fld "CRCEN" 1 (.bit 5), fld "BDOE" 1 (.bit 6), fld "BDM" 1 (.bit 7)]⟩], [⟨"SPI1_CR2", 0x00⟩]⟩,
    .reg ⟨"ICR", "ICR", 0x5202, [⟨"ICR", [fld "RXDMAEN" 1 (.bit 0), fld "TXDMAEN" 1 (.bit 1), gap 2 (.pad 2), fld "WKIE" 1 (.bit 4), fld "ERRIE" 1 (.bit 5), fld "RXIE" 1 (.bit 6), fld "TXIE" 1 (.bit 7)]⟩], [⟨"SPI1_ICR", 0x00⟩]⟩,
    .reg ⟨"SR", "SR", 0x5203, [⟨"SR", [fld "RXNE" 1 (.bit 0), fld "TXE" 1 (.bit 1), gap 1 (.pad 1), fld "WKUP" 1 (.bit 3), fld "CRCERR" 1 (.bit 4), fld "MODF" 1 (.bit 5), fld "OVR" 1 (.bit 6), fld "BSY" 1 (.bit 7)]⟩], [⟨"SPI1_SR", 0x02⟩]⟩,
    .reg ⟨"DR", "DR", 0x5204, [⟨"DR", [fld "DR" 8 (.bits 0 7)]⟩], [⟨"SPI1_DR", 0x00⟩]⟩,
    .reg ⟨"CRCPR", "CRCPR", 0x5205, [⟨"CRCPR", [fld "CRCPOLY" 8 (.bits 0 7)]⟩], [⟨"SPI1_CRCPR", 0x07⟩]⟩,
    .reg ⟨"RXCRCR", "RXCRCR", 0x5206, [⟨"RXCRCR", [fld "RXCRC" 8 (.bits 0 7)]⟩], [⟨"SPI1_RXCRCR", 0x00⟩]⟩,
    .reg ⟨"TXCRCR", "TXCRCR", 0x5207, [⟨"TXCRCR", [fld "TXCRC" 7 (.bits 0 6), gap 1 (.pad 1)]⟩], [⟨"SPI1_TXCRCR", 0x00⟩]⟩ ] }

/-- Overlay struct SPI2_t (source lines 5832 and following). -/
def SPI2_t : Overlay :=
  { typeName := "SPI2_t", docModule := "SPI2", members := [
    .reg ⟨"CR1", "CR1", 0x53c0, [⟨"CR1", [fld "CPHA" 1 (.bit 0), fld "CPOL" 1 (.bit 1), fld "MSTR" 1 (.bit 2), fld "BR" 3 (.bits 3 5), fld "SPE" 1 (.bit 6), fld "LSBFIRST" 1 (.bit 7)]⟩], [⟨"SPI2_CR1", 0x00⟩]⟩,
    .reg ⟨"CR2", "CR2", 0x53c1, [⟨"CR2", [fld "SSI" 1 (.bit 0), fld "SSM" 1 (.bit 1), fld "RXONLY" 1 (.bit 2), gap 1 (.pad 1), fld "CRCNEXT" 1 (.bit 4), fld "CRCEN" 1 (.bit 5), fld "BDOE" 1 (.bit 6), fld "BDM" 1 (.bit 7)]⟩], [⟨"SPI2_CR2", 0x00⟩]⟩,
    .reg ⟨"ICR", "ICR", 0x53c2, [⟨"ICR", [fld "RXDMAEN" 1 (.bit 0), fld "TXDMAEN" 1 (.bit 1), gap 2 (.pad 2), fld "WKIE" 1 (.bit 4), fld "ERRIE" 1 (.bit 5), fld "RXIE" 1 (.bit 6), fld "TXIE" 1 (.bit 7)]⟩], [⟨"SPI2_ICR", 0x00⟩]⟩,
    .reg ⟨"SR", "SR", 0x53c3, [⟨"SR", [fld "RXNE" 1 (.bit 0), fld "TXE" 1 (.bit 1), gap 1 (.pad 1), fld "WKUP" 1 (.bit 3), fld "CRCERR" 1 (.bit 4), fld "MODF" 1 (.bit 5), fld "OVR" 1 (.bit 6), fld "BSY" 1 (.bit 7)]⟩], [⟨"SPI2_SR", 0x02⟩]⟩,
    .reg ⟨"DR", "DR", 0x53c4, [⟨"DR", [fld "DR" 8 (.bits 0 7)]⟩], [⟨"SPI2_DR", 0x00⟩]⟩,
    .reg ⟨"CRCPR", "CRCPR", 0x53c5, [⟨"CRCPR", [fld "CRCPOLY" 8 (.bits 0 7)]⟩], [⟨"SPI2_CRCPR", 0x07⟩]⟩,
    .reg ⟨"RXCRCR", "RXCRCR", 0x53c6, [⟨"RXCRCR", [fld "RXCRC" 8 (.bits 0 7)]⟩], [⟨"SPI2_RXCRCR", 0x00⟩]⟩,
    .reg ⟨"TXCRCR", "TXCRCR", 0x53c7, [⟨"TXCRCR", [fld "TXCRC" 7 (.bits 0 6), gap 1 (.pad 1)]⟩], [⟨"SPI2_TXCRCR", 0x00⟩]⟩ ] }

/-- Overlay struct SWIM_t (source lines 6006 and following). -/
def SWIM_t : Overlay :=
  { typeName := "SWIM_t", docModule := "SWIM", members := [
    .reg ⟨"CSR", "CSR", 0x7f80, [], [⟨"SWIM_CSR", 0x00⟩]⟩ ] }

/-- Overlay struct SYSCFG_t (source lines 6032 and following). -/
def SYSCFG_t : Overlay :=
  { typeName := "SYSCFG_t", docModule := "SYSCFG", members := [
    .reg ⟨"RMPCR3", "RMPCR3", 0x509d, [⟨"RMPCR3", [fld "SPI1_REMAP2" 1 (.bit 0), fld "USART3TR_REMAP" 1 (.bit 1), fld "USART3CK_REMAP" 1 (.bit 2), fld "TIM3_CH1_REMAP" 1 (.bit 3), fld "TIM3_CH2_REMAP" 1 (.bit 4), fld "CCO_REMAP" 1 (.bit 5), gap 2 (.pad 2)]⟩], [⟨"SYSCFG_RMPCR3", 0x00⟩]⟩,
    .reg ⟨"RMPCR1", "RMPCR1", 0x509e, [⟨"RMPCR1", [fld "ADC1DMA_REMAP" 2 (.bits 0 1), fld "TIM4DMA_REMAP" 2 (.bits 2 3), fld "USART1TR_REMAP" 2 (.bits 4 5), fld "USART1CK_REMAP" 1 (.bit 6), fld "SPI1_REMAP" 1 (.bit 7)]⟩], [⟨"SYSCFG_RMPCR1", 0x00⟩]⟩,
    .reg ⟨"RMPCR2", "RMPCR2", 0x509f, [⟨"RMPCR2", [fld "ADC1TRIG_REMAP" 1 (.bit 0), fld "TIM2TRIG_REMAP" 1 (.bit 1), fld "TIM3TRIG_REMAP" 1 (.bit 2), gap 5 (.pad 5)]⟩], [⟨"SYSCFG_RMPCR2", 0x00⟩]⟩ ] }

/-- Overlay struct TIM1_t (source lines 6108 and following). -/
def TIM1_t : Overlay :=
  { typeName := "TIM1_t", docModule := "TIM1", members := [
    .reg ⟨"CR1", "CR1", 0x52b0, [⟨"CR1", [fld "CEN" 1 (.bit 0), fld "UDIS" 1 (.bit 1), fld "URS" 1 (.bit 2), fld "OPM" 1 (.bit 3), fld "DIR" 1 (.bit 4), fld "CMS" 2 (.bits 5 6), fld "ARPE" 1 (.bit 7)]⟩], [⟨"TIM1_CR1", 0x00⟩]⟩,
    .reg ⟨"CR2", "CR2", 0x52b1, [⟨"CR2", [fld "CCPC" 1 (.bit 0), gap 1 (.pad 1), fld "COMS" 1 (.bit 2), fld "CCDS" 1 (.bit 3), fld "MMS" 3 (.bits 4 6), fld "TI1S" 1 (.bit 7)]⟩], [⟨"TIM1_CR2", 0x00⟩]⟩,
    .reg ⟨"SMCR", "SMCR", 0x52b2, [⟨"SMCR", [fld "SMS" 3 (.bits 0 2), fld "OCCS" 1 (.bit 3), fld "TS" 3 (.bits 4 6), fld "MSM" 1 (.bit 7)]⟩], [⟨"TIM1_SMCR", 0x00⟩]⟩,
    .reg ⟨"ETR", "ETR", 0x52b3, [⟨"ETR", [fld "ETF" 4 (.bits 0 3), fld "ETPS" 2 (.bits 4 5), fld "ECE" 1 (.bit 6), fld "ETP" 1 (.bit 7)]⟩], [⟨"TIM1_ETR", 0x00⟩]⟩,
    .reg ⟨"DER", "DER", 0x52b4, [⟨"DER", [fld "UDE" 1 (.bit 0), fld "CC1DE" 1 (.bit 1), fld "CC2DE" 1 (.bit 2), fld "CC3DE" 1 (.bit 3), fld "CC4DE" 1 (.bit 4), fld "COMDE" 1 (.bit 5), gap 2 (.pad 2)]⟩], [⟨"TIM1_DER", 0x00⟩]⟩,
    .reg ⟨"IER", "IER", 0x52b5, [⟨"IER", [fld "UIE" 1 (.bit 0), fld "CC1IE" 1 (.bit 1), fld "CC2IE" 1 (.bit 2), fld "CC3IE" 1 (.bit 3), fld "CC4IE" 1 (.bit 4), fld "COMIE" 1 (.bit 5), fld "TIE" 1 (.bit 6), fld "BIE" 1 (.bit 7)]⟩], [⟨"TIM1_IER", 0x00⟩]⟩,
    .reg ⟨"SR1", "SR1", 0x52b6, [⟨"SR1", [fld "UIF" 1 (.bit 0), fld "CC1IF" 1 (.bit 1), fld "CC2IF" 1 (.bit 2), fld "CC3IF" 1 (.bit 3), fld "CC4IF" 1 (.bit 4), fld "COMIF" 1 (.bit 5), fld "TIF" 1 (.bit 6), fld "BIF" 1 (.bit 7)]⟩], [⟨"TIM1_SR1", 0x00⟩]⟩,
    .reg ⟨"SR2", "SR2", 0x52b7, [⟨"SR2", [gap 1 (.pad 1), fld "CC1OF" 1 (.bit 1), fld "CC2OF" 1 (.bit 2), fld "CC3OF" 1 (.bit 3), fld "CC4OF" 1 (.bit 4), gap 3 (.pad 3)]⟩], [⟨"TIM1_SR2", 0x00⟩]⟩,
    .reg ⟨"EGR", "EGR", 0x52b8, [⟨"EGR", [fld "UG" 1 (.bit 0), fld "CC1G" 1 (.bit 1), fld "CC2G" 1 (.bit 2), fld "CC3G" 1 (.bit 3), fld "CC4G" 1 (.bit 4), fld "COMG" 1 (.bit 5), fld "TG" 1 (.bit 6), fld "BG" 1 (.bit 7)]⟩], [⟨"TIM1_EGR", 0x00⟩]⟩,
    .reg ⟨"CCMR1", "CCMR1", 0x52b9, [⟨"CCMR1", [fld "CC1S" 2 (.bits 0 1), fld "OC1FE" 1 (.bit 2), fld "OC1PE" 1 (.bit 3), fld "OC1M" 3 (.bits 4 6), fld "OC1CE" 1 (.bit 7)]⟩], [⟨"TIM1_CCMR1", 0x00⟩]⟩,
    .reg ⟨"CCMR2", "CCMR2", 0x52ba, [⟨"CCMR2", [fld "CC2S" 2 (.bits 0 1), fld "OC2FE" 1 (.bit 2), fld "OC2PE" 1 (.bit 3), fld "OC2M" 3 (.bits 4 6), fld "OC2CE" 1 (.bit 7)]⟩], [⟨"TIM1_CCMR2", 0x00⟩]⟩,
    .reg ⟨"CCMR3", "CCMR3", 0x52bb, [⟨"CCMR3", [fld "CC3S" 2 (.bits 0 1), fld "OC3FE" 1 (.bit 2), fld "OC3PE" 1 (.bit 3), fld "OC3M" 3 (.bits 4 6), fld "OC3CE" 1 (.bit 7)]⟩], [⟨"TIM1_CCMR3", 0x00⟩]⟩,
    .reg ⟨"CCMR4", "CCMR4", 0x52bc, [⟨"CCMR4", [fld "CC4S" 2 (.bits 0 1), gap 1 (.pad 1), fld "OC4PE" 1 (.bit 3), fld "OC4M" 3 (.bits 4 6), fld "OC4CE" 1 (.bit 7)]⟩], [⟨"TIM1_CCMR4", 0x00⟩]⟩,
    .reg ⟨"CCER1", "CCER1", 0x52bd, [⟨"CCER1", [fld "CC1E" 1 (.bit 0), fld "CC1P" 1 (.bit 1), fld "CC1NE" 1 (.bit 2), fld "CC1NP" 1 (.bit 3), fld "CC2E" 1 (.bit 4), fld "CC2P" 1 (.bit 5), fld "CC2NE" 1 (.bit 6), fld "CC2NP" 1 (.bit 7)]⟩], [⟨"TIM1_CCER1", 0x00⟩]⟩,
    .reg ⟨"CCER2", "CCER2", 0x52be, [⟨"CCER2", [fld "CC3E" 1 (.bit 0), fld "CC3P" 1 (.bit 1), fld "CC3NE" 1 (.bit 2), fld "CC3NP" 1 (.bit 3), fld "CC4E" 1 (.bit 4), fld "CC4P" 1 (.bit 5), gap 2 (.pad 2)]⟩], [⟨"TIM1_CCER2", 0x00⟩]⟩,
    .reg ⟨"CNTRH", "CNTRH", 0x52bf, [⟨"CNTRH", [fld "CNT8" 1 (.bit 0), fld "CNT9" 1 (.bit 1), fld "CNT10" 1 (.bit 2), fld "CNT11" 1 (.bit 3), fld "CNT12" 1 (.bit 4), fld "CNT13" 1 (.bit 5), fld "CNT14" 1 (.bit 6), fld "CNT15" 1 (.bit 7)]⟩], [⟨"TIM1_CNTRH", 0x00⟩]⟩,
    .reg ⟨"CNTRL", "CNTRL", 0x52c0, [⟨"CNTRL", [fld "CNT0" 1 (.bit 0), fld "CNT1" 1 (.bit 1), fld "CNT2" 1 (.bit 2), fld "CNT3" 1 (.bit 3), fld "CNT4" 1 (.bit 4), fld "CNT5" 1 (.bit 5), fld "CNT6" 1 (.bit 6), fld "CNT7" 1 (.bit 7)]⟩], [⟨"TIM1_CNTRL", 0x00⟩]⟩,
    .reg ⟨"PSCRH", "PSCRH", 0x52c1, [⟨"PSCRH", [fld "PSC8" 1 (.bit 0), fld "PSC9" 1 (.bit 1), fld "PSC10" 1 (.bit 2), fld "PSC11" 1 (.bit 3), fld "PSC12" 1 (.bit 4), fld "PSC13" 1 (.bit 5), fld "PSC14" 1 (.bit 6), fld "PSC15" 1 (.bit 7)]⟩], [⟨"TIM1_PSCRH", 0x00⟩]⟩,
    .reg ⟨"PSCRL", "PSCRL", 0x52c2, [⟨"PSCRL", [fld "PSC0" 1 (.bit 0), fld "PSC1" 1 (.bit 1), fld "PSC2" 1 (.bit 2), fld "PSC3" 1 (.bit 3), fld "PSC4" 1 (.bit 4), fld "PSC5" 1 (.bit 5), fld "PSC6" 1 (.bit 6), fld "PSC7" 1 (.bit 7)]⟩], [⟨"TIM1_PSCRL", 0x00⟩]⟩,
    .reg ⟨"ARRH", "ARRH", 0x52c3, [⟨"ARRH", [fld "ARR8" 1 (.bit 0), fld "ARR9" 1 (.bit 1), fld "ARR10" 1 (.bit 2), fld "ARR11" 1 (.bit 3), fld "ARR12" 1 (.bit 4), fld "ARR13" 1 (.bit 5), fld "ARR14" 1 (.bit 6), fld "ARR15" 1 (.bit 7)]⟩], [⟨"TIM1_ARRH", 0xFF⟩]⟩,
    .reg ⟨"ARRL", "ARRL", 0x52c4, [⟨"ARRL", [fld "ARR0" 1 (.bit 0), fld "ARR1" 1 (.bit 1), fld "ARR2" 1 (.bit 2), fld "ARR3" 1 (.bit 3), fld "ARR4" 1 (.bit 4), fld "ARR5" 1 (.bit 5), fld "ARR6" 1 (.bit 6), fld "ARR7" 1 (.bit 7)]⟩], [⟨"TIM1_ARRL", 0xFF⟩]⟩,
    .reg ⟨"RCR", "RCR", 0x52c5, [⟨"RCR", [fld "REP" 8 (.bits 0 7)]⟩], [⟨"TIM1_RCR", 0x00⟩]⟩,
    .reg ⟨"CCR1H", "CCR1H", 0x52c6, [⟨"CCR1H", [fld "CCR18" 1 (.bit 0), fld "CCR19" 1 (.bit 1), fld "CCR110" 1 (.bit 2), fld "CCR111" 1 (.bit 3), fld "CCR112" 1 (.bit 4), fld "CCR113" 1 (.bit 5), fld "CCR114" 1 (.bit 6), fld "CCR115" 1 (.bit 7)]⟩], [⟨"TIM1_CCR1H", 0x00⟩]⟩,
    .reg ⟨"CCR1L", "CCR1L", 0x52c7, [⟨"CCR1L", [fld "CCR10" 1 (.bit 0), fld "CCR11" 1 (.bit 1), fld "CCR12" 1 (.bit 2), fld "CCR13" 1 (.bit 3), fld "CCR14" 1 (.bit 4), fld "CCR15" 1 (.bit 5), fld "CCR16" 1 (.bit 6), fld "CCR17" 1 (.bit 7)]⟩], [⟨"TIM1_CCR1L", 0x00⟩]⟩,
    .reg ⟨"CCR2H", "CCR2H", 0x52c8, [⟨"CCR2H", [fld "CCR28" 1 (.bit 0), fld "CCR29" 1 (.bit 1), fld "CCR210" 1 (.bit 2), fld "CCR211" 1 (.bit 3), fld "CCR212" 1 (.bit 4), fld "CCR213" 1 (.bit 5), fld "CCR214" 1 (.bit 6), fld "CCR215" 1 (.bit 7)]⟩], [⟨"TIM1_CCR2H", 0x00⟩]⟩,
    .reg ⟨"CCR2L", "CCR2L", 0x52c9, [⟨"CCR2L", [fld "CCR20" 1 (.bit 0), fld "CCR21" 1 (.bit 1), fld "CCR22" 1 (.bit 2), fld "CCR23" 1 (.bit 3), fld "CCR24" 1 (.bit 4), fld "CCR25" 1 (.bit 5), fld "CCR26" 1 (.bit 6), fld "CCR27" 1 (.bit 7)]⟩], [⟨"TIM1_CCR2L", 0x00⟩]⟩,
    .reg ⟨"CCR3H", "CCR3H", 0x52ca, [⟨"CCR3H", [fld "CCR38" 1 (.bit 0), fld "CCR39" 1 (.bit 1), fld "CCR310" 1 (.bit 2), fld "CCR311" 1 (.bit 3), fld "CCR312" 1 (.bit 4), fld "CCR313" 1 (.bit 5), fld "CCR314" 1 (.bit 6), fld "CCR315" 1 (.bit 7)]⟩], [⟨"TIM1_CCR3H", 0x00⟩]⟩,
    .reg ⟨"CCR3L", "CCR3L", 0x52cb, [⟨"CCR3L", [fld "CCR30" 1 (.bit 0), fld "CCR31" 1 (.bit 1), fld "CCR32" 1 (.bit 2), fld "CCR33" 1 (.bit 3), fld "CCR34" 1 (.bit 4), fld "CCR35" 1 (.bit 5), fld "CCR36" 1 (.bit 6), fld "CCR37" 1 (.bit 7)]⟩], [⟨"TIM1_CCR3L", 0x00⟩]⟩,
    .reg ⟨"CCR4H", "CCR4H", 0x52cc, [⟨"CCR4H", [fld "CCR48" 1 (.bit 0), fld "CCR49" 1 (.bit 1), fld "CCR410" 1 (.bit 2), fld "CCR411" 1 (.bit 3), fld "CCR412" 1 (.bit 4), fld "CCR413" 1 (.bit 5), fld "CCR414" 1 (.bit 6), fld "CCR415" 1 (.bit 7)]⟩], [⟨"TIM1_CCR4H", 0x00⟩]⟩,
    .reg ⟨"CCR4L", "CCR4L", 0x52cd, [⟨"CCR4L", [fld "CCR40" 1 (.bit 0), fld "CCR41" 1 (.bit 1), fld "CCR42" 1 (.bit 2), fld "CCR43" 1 (.bit 3), fld "CCR44" 1 (.bit 4), fld "CCR45" 1 (.bit 5), fld "CCR46" 1 (.bit 6), fld "CCR47" 1 (.bit 7)]⟩], [⟨"TIM1_CCR4L", 0x00⟩]⟩,
    .reg ⟨"BKR", "BKR", 0x52ce, [⟨"BKR", [fld "LOCK" 2 (.bits 0 1), fld "OSSI" 1 (.bit 2), fld "OSSR" 1 (.bit 3), fld "BKE" 1 (.bit 4), fld "BKP" 1 (.bit 5), fld "AOE" 1 (.bit 6), fld "MOE" 1 (.bit 7)]⟩], [⟨"TIM1_BKR", 0x00⟩]⟩,
    .reg ⟨"DTR", "DTR", 0x52cf, [⟨"DTR", [fld "DTG" 8 (.bits 0 7)]⟩], [⟨"TIM1_DTR", 0x00⟩]⟩,
    .reg ⟨"OISR", "OISR", 0x52d0, [⟨"OISR", [fld "OIS1" 1 (.bit 0), fld "OIS1N" 1 (.bit 1), fld "OIS2" 1 (.bit 2), fld "OIS2N" 1 (.bit 3), fld "OIS3" 1 (.bit 4), fld "OIS3N" 1 (.bit 5), gap 2 (.pad 2)]⟩], [⟨"TIM1_OISR", 0x00⟩]⟩,
    .reg ⟨"DCR1", "DCR1", 0x52d1, [⟨"DCR1", [fld "DBA" 5 (.bits 0 4), gap 3 (.pad 3)]⟩], [⟨"TIM1_DCR1", 0x00⟩]⟩,
    .reg ⟨"DCR2", "DCR2", 0x52d2, [⟨"DCR2", [fld "DBL" 5 (.bits 0 4), gap 3 (.pad 3)]⟩], [⟨"TIM1_DCR2", 0x00⟩]⟩,
    .reg ⟨"DMA1R", "DMA1R", 0x52d3, [⟨"DMA1R", [fld "DMAB" 8 (.bits 0 7)]⟩], [⟨"TIM1_DMA1R", 0x00⟩]⟩ ] }

/-- Overlay struct TIM2_t (source lines 6922 and following). -/
def TIM2_t : Overlay :=
  { typeName := "TIM2_t", docModule := "TIM2", members := [
    .reg ⟨"CR1", "CR1", 0x5250, [⟨"CR1", [fld "CEN" 1 (.bit 0), fld "UDIS" 1 (.bit 1), fld "URS" 1 (.bit 2), fld "OPM" 1 (.bit 3), fld "DIR" 1 (.bit 4), fld "CMS" 2 (.bits 5 6), fld "ARPE" 1 (.bit 7)]⟩], [⟨"TIM2_CR1", 0x00⟩]⟩,
    .reg ⟨"CR2", "CR2", 0x5251, [⟨"CR2", [gap 3 (.pad 3), fld "CCDS" 1 (.bit 3), fld "MMS" 3 (.bits 4 6), fld "TI1S" 1 (.bit 7)]⟩], [⟨"TIM2_CR2", 0x00⟩]⟩,
    .reg ⟨"SMCR", "SMCR", 0x5252, [⟨"SMCR", [fld "SMS" 3 (.bits 0 2), gap 1 (.pad 1), fld "TS" 3 (.bits 4 6), fld "MSM" 1 (.bit 7)]⟩], [⟨"TIM2_SMCR", 0x00⟩]⟩,
    .reg ⟨"ETR", "ETR", 0x5253, [⟨"ETR", [fld "ETF" 4 (.bits 0 3), fld "ETPS" 2 (.bits 4 5), fld "ECE" 1 (.bit 6), fld "ETP" 1 (.bit 7)]⟩], [⟨"TIM2_ETR", 0x00⟩]⟩,
    .reg ⟨"DER", "DER", 0x5254, [⟨"DER", [fld "UDE" 1 (.bit 0), fld "CC1DE" 1 (.bit 1), fld "CC2DE" 1 (.bit 2), gap 5 (.pad 5)]⟩], [⟨"TIM2_DER", 0x00⟩]⟩,
    .reg ⟨"IER", "IER", 0x5255, [⟨"IER", [fld "UIE" 1 (.bit 0), fld "CC1IE" 1 (.bit 1), fld "CC2IE" 1 (.bit 2), gap 3 (.pad 3), fld "TIE" 1 (.bit 6), fld "BIE" 1 (.bit 7)]⟩], [⟨"TIM2_IER", 0x00⟩]⟩,
    .reg ⟨"SR1", "SR1", 0x5256, [⟨"SR1", [fld "UIF" 1 (.bit 0), fld "CC1IF" 1 (.bit 1), fld "CC2IF" 1 (.bit 2), gap 3 (.pad 3), fld "TIF" 1 (.bit 6), fld "BIF" 1 (.bit 7)]⟩], [⟨"TIM2_SR1", 0x00⟩]⟩,
    .reg ⟨"SR2", "SR2", 0x5257, [⟨"SR2", [gap 1 (.pad 1), fld "CC1OF" 1 (.bit 1), fld "CC2OF" 1 (.bit 2), gap 5 (.pad 5)]⟩], [⟨"TIM2_SR2", 0x00⟩]⟩,
    .reg ⟨"EGR", "EGR", 0x5258, [⟨"EGR", [fld "UG" 1 (.bit 0), fld "CC1G" 1 (.bit 1), fld "CC2G" 1 (.bit 2), gap 3 (.pad 3), fld "TG" 1 (.bit 6), fld "BG" 1 (.bit 7)]⟩], [⟨"TIM2_EGR", 0x00⟩]⟩,
    .reg ⟨"CCMR1", "CCMR1", 0x5259, [⟨"CCMR1", [fld "CC1S" 2 (.bits 0 1), fld "OC1FE" 1 (.bit 2), fld "OC1PE" 1 (.bit 3), fld "OC1M" 3 (.bits 4 6), gap 1 (.pad 1)]⟩], [⟨"TIM2_CCMR1", 0x00⟩]⟩,
    .reg ⟨"CCMR2", "CCMR2", 0x525a, [⟨"CCMR2", [fld "CC2S" 2 (.bits 0 1), fld "OC2FE" 1 (.bit 2), fld "OC2PE" 1 (.bit 3), fld "OC2M" 3 (.bits 4 6), gap 1 (.pad 1)]⟩], [⟨"TIM2_CCMR2", 0x00⟩]⟩,
    .reg ⟨"CCER1", "CCER1", 0x525b, [⟨"CCER1", [fld "CC1E" 1 (.bit 0), fld "CC1P" 1 (.bit 1), gap 2 (.pad 2), fld "CC2E" 1 (.bit 4), fld "CC2P" 1 (.bit 5), gap 2 (.pad 2)]⟩], [⟨"TIM2_CCER1", 0x00⟩]⟩,
    .reg ⟨"CNTRH", "CNTRH", 0x525c, [⟨"CNTRH", [fld "CNT8" 1 (.bit 0), fld "CNT9" 1 (.bit 1), fld "CNT10" 1 (.bit 2), fld "CNT11" 1 (.bit 3), fld "CNT12" 1 (.bit 4), fld "CNT13" 1 (.bit 5), fld "CNT14" 1 (.bit 6), fld "CNT15" 1 (.bit 7)]⟩], [⟨"TIM2_CNTRH", 0x00⟩]⟩,
    .reg ⟨"CNTRL", "CNTRL", 0x525d, [⟨"CNTRL", [fld "CNT0" 1 (.bit 0), fld "CNT1" 1 (.bit 1), fld "CNT2" 1 (.bit 2), fld "CNT3" 1 (.bit 3), fld "CNT4" 1 (.bit 4), fld "CNT5" 1 (.bit 5), fld "CNT6" 1 (.bit 6), fld "CNT7" 1 (.bit 7)]⟩], [⟨"TIM2_CNTRL", 0x00⟩]⟩,
    .reg ⟨"PSCR", "PSCR", 0x525e, [⟨"PSCR", [fld "PSC" 3 (.bits 0 2), gap 5 (.pad 5)]⟩], [⟨"TIM2_PSCR", 0x00⟩]⟩,
    .reg ⟨"ARRH", "ARRH", 0x525f, [⟨"ARRH", [fld "ARR8" 1 (.bit 0), fld "ARR9" 1 (.bit 1), fld "ARR10" 1 (.bit 2), fld "ARR11" 1 (.bit 3), fld "ARR12" 1 (.bit 4), fld "ARR13" 1 (.bit 5), fld "ARR14" 1 (.bit 6), fld "ARR15" 1 (.bit 7)]⟩], [⟨"TIM2_ARRH", 0xFF⟩]⟩,
    .reg ⟨"ARRL", "ARRL", 0x5260, [⟨"ARRL", [fld "ARR0" 1 (.bit 0), fld "ARR1" 1 (.bit 1), fld "ARR2" 1 (.bit 2), fld "ARR3" 1 (.bit 3), fld "ARR4" 1 (.bit 4), fld "ARR5" 1 (.bit 5), fld "ARR6" 1 (.bit 6), fld "ARR7" 1 (.bit 7)]⟩], [⟨"TIM2_ARRL", 0xFF⟩]⟩,
    .reg ⟨"CCR1H", "CCR1H", 0x5261, [⟨"CCR1H", [fld "CCR18" 1 (.bit 0), fld "CCR19" 1 (.bit 1), fld "CCR110" 1 (.bit 2), fld "CCR111" 1 (.bit 3), fld "CCR112" 1 (.bit 4), fld "CCR113" 1 (.bit 5), fld "CCR114" 1 (.bit 6), fld "CCR115" 1 (.bit 7)]⟩], [⟨"TIM2_CCR1H", 0x00⟩]⟩,
    .reg ⟨"CCR1L", "CCR1L", 0x5262, [⟨"CCR1L", [fld "CCR10" 1 (.bit 0), fld "CCR11" 1 (.bit 1), fld "CCR12" 1 (.bit 2), fld "CCR13" 1 (.bit 3), fld "CCR14" 1 (.bit 4), fld "CCR15" 1 (.bit 5), fld "CCR16" 1 (.bit 6), fld "CCR17" 1 (.bit 7)]⟩], [⟨"TIM2_CCR1L", 0x00⟩]⟩,
    .reg ⟨"CCR2H", "CCR2H", 0x5263, [⟨"CCR2H", [fld "CCR28" 1 (.bit 0), fld "CCR29" 1 (.bit 1), fld "CCR210" 1 (.bit 2), fld "CCR211" 1 (.bit 3), fld "CCR212" 1 (.bit 4), fld "CCR213" 1 (.bit 5), fld "CCR214" 1 (.bit 6), fld "CCR215" 1 (.bit 7)]⟩], [⟨"TIM2_CCR2H", 0x00⟩]⟩,
    .reg ⟨"CCR2L", "CCR2L", 0x5264, [⟨"CCR2L", [fld "CCR10" 1 (.bit 0), fld "CCR11" 1 (.bit 1), fld "CCR12" 1 (.bit 2), fld "CCR13" 1 (.bit 3), fld "CCR14" 1 (.bit 4), fld "CCR15" 1 (.bit 5), fld "CCR16" 1 (.bit 6), fld "CCR17" 1 (.bit 7)]⟩], [⟨"TIM2_CCR2L", 0x00⟩]⟩,
    .reg ⟨"BKR", "BKR", 0x5265, [⟨"BKR", [fld "LOCK" 2 (.bits 0 1), fld "OSSI" 1 (.bit 2), gap 1 (.pad 1), fld "BKE" 1 (.bit 4), fld "BKP" 1 (.bit 5), fld "AOE" 1 (.bit 6), fld "MOE" 1 (.bit 7)]⟩], [⟨"TIM2_BKR", 0x00⟩]⟩,
    .reg ⟨"OISR", "OISR", 0x5266, [⟨"OISR", [fld "OIS1" 1 (.bit 0), gap 1 (.pad 1), fld "OIS2" 1 (.bit 2), gap 5 (.pad 5)]⟩], [⟨"TIM2_OISR", 0x00⟩]⟩ ] }

/-- Overlay struct TIM3_t (source lines 7440 and following). -/
def TIM3_t : Overlay :=
  { typeName := "TIM3_t", docModule := "TIM3", members := [
    .reg ⟨"CR1", "CR1", 0x5280, [⟨"CR1", [fld "CEN" 1 (.bit 0), fld "UDIS" 1 (.bit 1), fld "URS" 1 (.bit 2), fld "OPM" 1 (.bit 3), fld "DIR" 1 (.bit 4), fld "CMS" 2 (.bits 5 6), fld "ARPE" 1 (.bit 7)]⟩], [⟨"TIM3_CR1", 0x00⟩]⟩,
    .reg ⟨"CR2", "CR2", 0x5281, [⟨"CR2", [gap 3 (.pad 3), fld "CCDS" 1 (.bit 3), fld "MMS" 3 (.bits 4 6), fld "TI1S" 1 (.bit 7)]⟩], [⟨"TIM3_CR2", 0x00⟩]⟩,
    .reg ⟨"SMCR", "SMCR", 0x5282, [⟨"SMCR", [fld "SMS" 3 (.bits 0 2), gap 1 (.pad 1), fld "TS" 3 (.bits 4 6), fld "MSM" 1 (.bit 7)]⟩], [⟨"TIM3_SMCR", 0x00⟩]⟩,
    .reg ⟨"ETR", "ETR", 0x5283, [⟨"ETR", [fld "ETF" 4 (.bits 0 3), fld "ETPS" 2 (.bits 4 5), fld "ECE" 1 (.bit 6), fld "ETP" 1 (.bit 7)]⟩], [⟨"TIM3_ETR", 0x00⟩]⟩,
    .reg ⟨"DER", "DER", 0x5284, [⟨"DER", [fld "UDE" 1 (.bit 0), fld "CC1DE" 1 (.bit 1), fld "CC2DE" 1 (.bit 2), gap 5 (.pad 5)]⟩], [⟨"TIM3_DER", 0x00⟩]⟩,
    .reg ⟨"IER", "IER", 0x5285, [⟨"IER", [fld "UIE" 1 (.bit 0), fld "CC1IE" 1 (.bit 1), fld "CC2IE" 1 (.bit 2), gap 3 (.pad 3), fld "TIE" 1 (.bit 6), fld "BIE" 1 (.bit 7)]⟩], [⟨"TIM3_IER", 0x00⟩]⟩,
    .reg ⟨"SR1", "SR1", 0x5286, [⟨"SR1", [fld "UIF" 1 (.bit 0), fld "CC1IF" 1 (.bit 1), fld "CC2IF" 1 (.bit 2), gap 3 (.pad 3), fld "TIF" 1 (.bit 6), fld "BIF" 1 (.bit 7)]⟩], [⟨"TIM3_SR1", 0x00⟩]⟩,
    .reg ⟨"SR2", "SR2", 0x5287, [⟨"SR2", [gap 1 (.pad 1), fld "CC1OF" 1 (.bit 1), fld "CC2OF" 1 (.bit 2), gap 5 (.pad 5)]⟩], [⟨"TIM3_SR2", 0x00⟩]⟩,
    .reg ⟨"EGR", "EGR", 0x5288, [⟨"EGR", [fld "UG" 1 (.bit 0), fld "CC1G" 1 (.bit 1), fld "CC2G" 1 (.bit 2), gap 3 (.pad 3), fld "TG" 1 (.bit 6), fld "BG" 1 (.bit 7)]⟩], [⟨"TIM3_EGR", 0x00⟩]⟩,
    .reg ⟨"CCMR1", "CCMR1", 0x5289, [⟨"CCMR1", [fld "CC1S" 2 (.bits 0 1), fld "OC1FE" 1 (.bit 2), fld "OC1PE" 1 (.bit 3), fld "OC1M" 3 (.bits 4 6), gap 1 (.pad 1)]⟩], [⟨"TIM3_CCMR1", 0x00⟩]⟩,
    .reg ⟨"CCMR2", "CCMR2", 0x528a, [⟨"CCMR2", [fld "CC2S" 2 (.bits 0 1), fld "OC2FE" 1 (.bit 2), fld "OC2PE" 1 (.bit 3), fld "OC2M" 3 (.bits 4 6), gap 1 (.pad 1)]⟩], [⟨"TIM3_CCMR2", 0x00⟩]⟩,
    .reg ⟨"CCER1", "CCER1", 0x528b, [⟨"CCER1", [fld "CC1E" 1 (.bit 0), fld "CC1P" 1 (.bit 1), gap 2 (.pad 2), fld "CC2E" 1 (.bit 4), fld "CC2P" 1 (.bit 5), gap 2 (.pad 2)]⟩], [⟨"TIM3_CCER1", 0x00⟩]⟩,
    .reg ⟨"CNTRH", "CNTRH", 0x528c, [⟨"CNTRH", [fld "CNT8" 1 (.bit 0), fld "CNT9" 1 (.bit 1), fld "CNT10" 1 (.bit 2), fld "CNT11" 1 (.bit 3), fld "CNT12" 1 (.bit 4), fld "CNT13" 1 (.bit 5), fld "CNT14" 1 (.bit 6), fld "CNT15" 1 (.bit 7)]⟩], [⟨"TIM3_CNTRH", 0x00⟩]⟩,
    .reg ⟨"CNTRL", "CNTRL", 0x528d, [⟨"CNTRL", [fld "CNT0" 1 (.bit 0), fld "CNT1" 1 (.bit 1), fld "CNT2" 1 (.bit 2), fld "CNT3" 1 (.bit 3), fld "CNT4" 1 (.bit 4), fld "CNT5" 1 (.bit 5), fld "CNT6" 1 (.bit 6), fld "CNT7" 1 (.bit 7)]⟩], [⟨"TIM3_CNTRL", 0x00⟩]⟩,
    .reg ⟨"PSCR", "PSCR", 0x528e, [⟨"PSCR", [fld "PSC" 3 (.bits 0 2), gap 5 (.pad 5)]⟩], [⟨"TIM3_PSCR", 0x00⟩]⟩,
    .reg ⟨"ARRH", "ARRH", 0x528f, [⟨"ARRH", [fld "ARR8" 1 (.bit 0), fld "ARR9" 1 (.bit 1), fld "ARR10" 1 (.bit 2), fld "ARR11" 1 (.bit 3), fld "ARR12" 1 (.bit 4), fld "ARR13" 1 (.bit 5), fld "ARR14" 1 (.bit 6), fld "ARR15" 1 (.bit 7)]⟩], [⟨"TIM3_ARRH", 0xFF⟩]⟩,
    .reg ⟨"ARRL", "ARRL", 0x5290, [⟨"ARRL", [fld "ARR0" 1 (.bit 0), fld "ARR1" 1 (.bit 1), fld "ARR2" 1 (.bit 2), fld "ARR3" 1 (.bit 3), fld "ARR4" 1 (.bit 4), fld "ARR5" 1 (.bit 5), fld "ARR6" 1 (.bit 6), fld "ARR7" 1 (.bit 7)]⟩], [⟨"TIM3_ARRL", 0xFF⟩]⟩,
    .reg ⟨"CCR1H", "CCR1H", 0x5291, [⟨"CCR1H", [fld "CCR18" 1 (.bit 0), fld "CCR19" 1 (.bit 1), fld "CCR110" 1 (.bit 2), fld "CCR111" 1 (.bit 3), fld "CCR112" 1 (.bit 4), fld "CCR113" 1 (.bit 5), fld "CCR114" 1 (.bit 6), fld "CCR115" 1 (.bit 7)]⟩], [⟨"TIM3_CCR1H", 0x00⟩]⟩,
    .reg ⟨"CCR1L", "CCR1L", 0x5292, [⟨"CCR1L", [fld "CCR10" 1 (.bit 0), fld "CCR11" 1 (.bit 1), fld "CCR12" 1 (.bit 2), fld "CCR13" 1 (.bit 3), fld "CCR14" 1 (.bit 4), fld "CCR15" 1 (.bit 5), fld "CCR16" 1 (.bit 6), fld "CCR17" 1 (.bit 7)]⟩], [⟨"TIM3_CCR1L", 0x00⟩]⟩,
    .reg ⟨"CCR2H", "CCR2H", 0x5293, [⟨"CCR2H", [fld "CCR28" 1 (.bit 0), fld "CCR29" 1 (.bit 1), fld "CCR210" 1 (.bit 2), fld "CCR211" 1 (.bit 3), fld "CCR212" 1 (.bit 4), fld "CCR213" 1 (.bit 5), fld "CCR214" 1 (.bit 6), fld "CCR215" 1 (.bit 7)]⟩], [⟨"TIM3_CCR2H", 0x00⟩]⟩,
    .reg ⟨"CCR2L", "CCR2L", 0x5294, [⟨"CCR2L", [fld "CCR10" 1 (.bit 0), fld "CCR11" 1 (.bit 1), fld "CCR12" 1 (.bit 2), fld "CCR13" 1 (.bit 3), fld "CCR14" 1 (.bit 4), fld "CCR15" 1 (.bit 5), fld "CCR16" 1 (.bit 6), fld "CCR17" 1 (.bit 7)]⟩], [⟨"TIM3_CCR2L", 0x00⟩]⟩,
    .reg ⟨"BKR", "BKR", 0x5295, [⟨"BKR", [fld "LOCK" 2 (.bits 0 1), fld "OSSI" 1 (.bit 2), gap 1 (.pad 1), fld "BKE" 1 (.bit 4), fld "BKP" 1 (.bit 5), fld "AOE" 1 (.bit 6), fld "MOE" 1 (.bit 7)]⟩], [⟨"TIM3_BKR", 0x00⟩]⟩,
    .reg ⟨"OISR", "OISR", 0x5296, [⟨"OISR", [fld "OIS1" 1 (.bit 0), gap 1 (.pad 1), fld "OIS2" 1 (.bit 2), gap 5 (.pad 5)]⟩], [⟨"TIM3_OISR", 0x00⟩]⟩ ] }

/-- Overlay struct TIM4_t (source lines 7958 and following). -/
def TIM4_t : Overlay :=
  { typeName := "TIM4_t", docModule := "TIM4", members := [
    .reg ⟨"CR1", "CR1", 0x52e0, [⟨"CR1", [fld "CEN" 1 (.bit 0), fld "UDIS" 1 (.bit 1), fld "URS" 1 (.bit 2), fld "OPM" 1 (.bit 3), gap 3 (.pad 3), fld "ARPE" 1 (.bit 7)]⟩], [⟨"TIM4_CR1", 0x00⟩]⟩,
    .reg ⟨"CR2", "CR2", 0x52e1, [⟨"CR2", [gap 4 (.pad 4), fld "MMS" 3 (.bits 4 6), gap 1 (.pad 1)]⟩], [⟨"TIM4_CR2", 0x00⟩]⟩,
    .reg ⟨"SMCR", "SMCR", 0x52e2, [⟨"SMCR", [fld "SMS" 3 (.bits 0 2), gap 1 (.pad 1), fld "TS" 3 (.bits 4 6), fld "MSM" 1 (.bit 7)]⟩], [⟨"TIM4_SMCR", 0x00⟩]⟩,
    .reg ⟨"DER", "DER", 0x52e3, [⟨"DER", [fld "UDE" 1 (.bit 0), gap 7 (.pad 7)]⟩], [⟨"TIM4_DER", 0x00⟩]⟩,
    .reg ⟨"IER", "IER", 0x52e4, [⟨"IER", [fld "UIE" 1 (.bit 0), gap 5 (.pad 5), fld "TIE" 1 (.bit 6), gap 1 (.pad 1)]⟩], [⟨"TIM4_IER", 0x00⟩]⟩,
    .reg ⟨"SR1", "SR1", 0x52e5, [⟨"SR1", [fld "UIF" 1 (.bit 0), gap 5 (.pad 5), fld "TIF" 1 (.bit 6), gap 1 (.pad 1)]⟩], [⟨"TIM4_SR1", 0x00⟩]⟩,
    .reg ⟨"EGR", "EGR", 0x52e6, [⟨"EGR", [fld "UG" 1 (.bit 0), gap 5 (.pad 5), fld "TG" 1 (.bit 6), gap 1 (.pad 1)]⟩], [⟨"TIM4_EGR", 0x00⟩]⟩,
    .reg ⟨"CNTR", "CNTR", 0x52e7, [⟨"CNTR", [fld "CNT" 8 (.bits 0 7)]⟩], [⟨"TIM4_CNTR", 0x00⟩]⟩,
    .reg ⟨"PSCR", "PSCR", 0x52e8, [⟨"PSCR", [fld "PSC" 4 (.bits 0 3), gap 4 (.pad 4)]⟩], [⟨"TIM4_PSCR", 0x00⟩]⟩,
    .reg ⟨"ARR", "ARR", 0x52e9, [⟨"ARR", [fld "ARR" 8 (.bits 0 7)]⟩], [⟨"TIM4_ARR", 0x00⟩]⟩ ] }

/-- Overlay struct TIM5_t (source lines 8161 and following). -/
def TIM5_t : Overlay :=
  { typeName := "TIM5_t", docModule := "TIM5", members := [
    .reg ⟨"CR1", "CR1", 0x5300, [⟨"CR1", [fld "CEN" 1 (.bit 0), fld "UDIS" 1 (.bit 1), fld "URS" 1 (.bit 2), fld "OPM" 1 (.bit 3), fld "DIR" 1 (.bit 4), fld "CMS" 2 (.bits 5 6), fld "ARPE" 1 (.bit 7)]⟩], [⟨"TIM5_CR1", 0x00⟩]⟩,
    .reg ⟨"CR2", "CR2", 0x5301, [⟨"CR2", [gap 3 (.pad 3), fld "CCDS" 1 (.bit 3), fld "MMS" 3 (.bits 4 6), fld "TI1S" 1 (.bit 7)]⟩], [⟨"TIM5_CR2", 0x00⟩]⟩,
    .reg ⟨"SMCR", "SMCR", 0x5302, [⟨"SMCR", [fld "SMS" 3 (.bits 0 2), gap 1 (.pad 1), fld "TS" 3 (.bits 4 6), fld "MSM" 1 (.bit 7)]⟩], [⟨"TIM5_SMCR", 0x00⟩]⟩,
    .reg ⟨"ETR", "ETR", 0x5303, [⟨"ETR", [fld "ETF" 4 (.bits 0 3), fld "ETPS" 2 (.bits 4 5), fld "ECE" 1 (.bit 6), fld "ETP" 1 (.bit 7)]⟩], [⟨"TIM5_ETR", 0x00⟩]⟩,
    .reg ⟨"DER", "DER", 0x5304, [⟨"DER", [fld "UDE" 1 (.bit 0), fld "CC1DE" 1 (.bit 1), fld "CC2DE" 1 (.bit 2), gap 5 (.pad 5)]⟩], [⟨"TIM5_DER", 0x00⟩]⟩,
    .reg ⟨"IER", "IER", 0x5305, [⟨"IER", [fld "UIE" 1 (.bit 0), fld "CC1IE" 1 (.bit 1), fld "CC2IE" 1 (.bit 2), gap 3 (.pad 3), fld "TIE" 1 (.bit 6), fld "BIE" 1 (.bit 7)]⟩], [⟨"TIM5_IER", 0x00⟩]⟩,
    .reg ⟨"SR1", "SR1", 0x5306, [⟨"SR1", [fld "UIF" 1 (.bit 0), fld "CC1IF" 1 (.bit 1), fld "CC2IF" 1 (.bit 2), gap 3 (.pad 3), fld "TIF" 1 (.bit 6), fld "BIF" 1 (.bit 7)]⟩], [⟨"TIM5_SR1", 0x00⟩]⟩,
    .reg ⟨"SR2", "SR2", 0x5307, [⟨"SR2", [gap 1 (.pad 1), fld "CC1OF" 1 (.bit 1), fld "CC2OF" 1 (.bit 2), gap 5 (.pad 5)]⟩], [⟨"TIM5_SR2", 0x00⟩]⟩,
    .reg ⟨"EGR", "EGR", 0x5308, [⟨"EGR", [fld "UG" 1 (.bit 0), fld "CC1G" 1 (.bit 1), fld "CC2G" 1 (.bit 2), gap 3 (.pad 3), fld "TG" 1 (.bit 6), fld "BG" 1 (.bit 7)]⟩], [⟨"TIM5_EGR", 0x00⟩]⟩,
    .reg ⟨"CCMR1", "CCMR1", 0x5309, [⟨"CCMR1", [fld "CC1S" 2 (.bits 0 1), fld "OC1FE" 1 (.bit 2), fld "OC1PE" 1 (.bit 3), fld "OC1M" 3 (.bits 4 6), gap 1 (.pad 1)]⟩], [⟨"TIM5_CCMR1", 0x00⟩]⟩,
    .reg ⟨"CCMR2", "CCMR2", 0x530a, [⟨"CCMR2", [fld "CC2S" 2 (.bits 0 1), fld "OC2FE" 1 (.bit 2), fld "OC2PE" 1 (.bit 3), fld "OC2M" 3 (.bits 4 6), gap 1 (.pad 1)]⟩], [⟨"TIM5_CCMR2", 0x00⟩]⟩,
    .reg ⟨"CCER1", "CCER1", 0x530b, [⟨"CCER1", [fld "CC1E" 1 (.bit 0), fld "CC1P" 1 (.bit 1), gap 2 (.pad 2), fld "CC2E" 1 (.bit 4), fld "CC2P" 1 (.bit 5), gap 2 (.pad 2)]⟩], [⟨"TIM5_CCER1", 0x00⟩]⟩,
    .reg ⟨"CNTRH", "CNTRH", 0x530c, [⟨"CNTRH", [fld "CNT8" 1 (.bit 0), fld "CNT9" 1 (.bit 1), fld "CNT10" 1 (.bit 2), fld "CNT11" 1 (.bit 3), fld "CNT12" 1 (.bit 4), fld "CNT13" 1 (.bit 5), fld "CNT14" 1 (.bit 6), fld "CNT15" 1 (.bit 7)]⟩], [⟨"TIM5_CNTRH", 0x00⟩]⟩,
    .reg ⟨"CNTRL", "CNTRL", 0x530d, [⟨"CNTRL", [fld "CNT0" 1 (.bit 0), fld "CNT1" 1 (.bit 1), fld "CNT2" 1 (.bit 2), fld "CNT3" 1 (.bit 3), fld "CNT4" 1 (.bit 4), fld "CNT5" 1 (.bit 5), fld "CNT6" 1 (.bit 6), fld "CNT7" 1 (.bit 7)]⟩], [⟨"TIM5_CNTRL", 0x00⟩]⟩,
    .reg ⟨"PSCR", "PSCR", 0x530e, [⟨"PSCR", [fld "PSC" 3 (.bits 0 2), gap 5 (.pad 5)]⟩], [⟨"TIM5_PSCR", 0x00⟩]⟩,
    .reg ⟨"ARRH", "ARRH", 0x530f, [⟨"ARRH", [fld "ARR8" 1 (.bit 0), fld "ARR9" 1 (.bit 1), fld "ARR10" 1 (.bit 2), fld "ARR11" 1 (.bit 3), fld "ARR12" 1 (.bit 4), fld "ARR13" 1 (.bit 5), fld "ARR14" 1 (.bit 6), fld "ARR15" 1 (.bit 7)]⟩], [⟨"TIM5_ARRH", 0xFF⟩]⟩,
    .reg ⟨"ARRL", "ARRL", 0x5310, [⟨"ARRL", [fld "ARR0" 1 (.bit 0), fld "ARR1" 1 (.bit 1), fld "ARR2" 1 (.bit 2), fld "ARR3" 1 (.bit 3), fld "ARR4" 1 (.bit 4), fld "ARR5" 1 (.bit 5), fld "ARR6" 1 (.bit 6), fld "ARR7" 1 (.bit 7)]⟩], [⟨"TIM5_ARRL", 0xFF⟩]⟩,
    .reg ⟨"CCR1H", "CCR1H", 0x5311, [⟨"CCR1H", [fld "CCR18" 1 (.bit 0), fld "CCR19" 1 (.bit 1), fld "CCR110" 1 (.bit 2), fld "CCR111" 1 (.bit 3), fld "CCR112" 1 (.bit 4), fld "CCR113" 1 (.bit 5), fld "CCR114" 1 (.bit 6), fld "CCR115" 1 (.bit 7)]⟩], [⟨"TIM5_CCR1H", 0x00⟩]⟩,
    .reg ⟨"CCR1L", "CCR1L", 0x5312, [⟨"CCR1L", [fld "CCR10" 1 (.bit 0), fld "CCR11" 1 (.bit 1), fld "CCR12" 1 (.bit 2), fld "CCR13" 1 (.bit 3), fld "CCR14" 1 (.bit 4), fld "CCR15" 1 (.bit 5), fld "CCR16" 1 (.bit 6), fld "CCR17" 1 (.bit 7)]⟩], [⟨"TIM5_CCR1L", 0x00⟩]⟩,
    .reg ⟨"CCR2H", "CCR2H", 0x5313, [⟨"CCR2H", [fld "CCR28" 1 (.bit 0), fld "CCR29" 1 (.bit 1), fld "CCR210" 1 (.bit 2), fld "CCR211" 1 (.bit 3), fld "CCR212" 1 (.bit 4), fld "CCR213" 1 (.bit 5), fld "CCR214" 1 (.bit 6), fld "CCR215" 1 (.bit 7)]⟩], [⟨"TIM5_CCR2H", 0x00⟩]⟩,
    .reg ⟨"CCR2L", "CCR2L", 0x5314, [⟨"CCR2L", [fld "CCR10" 1 (.bit 0), fld "CCR11" 1 (.bit 1), fld "CCR12" 1 (.bit 2), fld "CCR13" 1 (.bit 3), fld "CCR14" 1 (.bit 4), fld "CCR15" 1 (.bit 5), fld "CCR16" 1 (.bit 6), fld "CCR17" 1 (.bit 7)]⟩], [⟨"TIM5_CCR2L", 0x00⟩]⟩,
    .reg ⟨"BKR", "BKR", 0x5315, [⟨"BKR", [fld "LOCK" 2 (.bits 0 1), fld "OSSI" 1 (.bit 2), gap 1 (.pad 1), fld "BKE" 1 (.bit 4), fld "BKP" 1 (.bit 5), fld "AOE" 1 (.bit 6), fld "MOE" 1 (.bit 7)]⟩], [⟨"TIM5_BKR", 0x00⟩]⟩,
    .reg ⟨"OISR", "OISR", 0x5316, [⟨"OISR", [fld "OIS1" 1 (.bit 0), gap 1 (.pad 1), fld "OIS2" 1 (.bit 2), gap 5 (.pad 5)]⟩], [⟨"TIM5_OISR", 0x00⟩]⟩ ] }

/-- Overlay struct USART1_t (source lines 8679 and following). -/
def USART1_t : Overlay :=
  { typeName := "USART1_t", docModule := "USART1", members := [
    .reg ⟨"SR", "SR", 0x5230, [⟨"SR", [fld "PE" 1 (.bit 0), fld "FE" 1 (.bit 1), fld "NF" 1 (.bit 2), fld "OR" 1 (.bit 3), fld "IDLE" 1 (.bit 4), fld "RXNE" 1 (.bit 5), fld "TC" 1 (.bit 6), fld "TXE" 1 (.bit 7)]⟩], [⟨"USART1_SR", 0xC0⟩]⟩,
    .reg ⟨"DR", "DR", 0x5231, [⟨"DR", [fld "DR" 8 (.bits 0 7)]⟩], [⟨"USART1_DR", 0x00⟩]⟩,
    .reg ⟨"BRR1", "BRR1", 0x5232, [⟨"BRR1", [fld "USART_DIV4" 1 (.bit 0), fld "USART_DIV5" 1 (.bit 1), fld "USART_DIV6" 1 (.bit 2), fld "USART_DIV7" 1 (.bit 3), fld "USART_DIV8" 1 (.bit 4), fld "USART_DIV9" 1 (.bit 5), fld "USART_DIV10" 1 (.bit 6), fld "USART_DIV11" 1 (.bit 7)]⟩], [⟨"USART1_BRR1", 0x00⟩]⟩,
    .reg ⟨"BRR2", "BRR2", 0x5233, [⟨"BRR2", [fld "USART_DIV0" 1 (.bit 0), fld "USART_DIV1" 1 (.bit 1), fld "USART_DIV2" 1 (.bit 2), fld "USART_DIV3" 1 (.bit 3), fld "USART_DIV12" 1 (.bit 4), fld "USART_DIV13" 1 (.bit 5), fld "USART_DIV14" 1 (.bit 6), fld "USART_DIV15" 1 (.bit 7)]⟩], [⟨"USART1_BRR2", 0x00⟩]⟩,
    .reg ⟨"CR1", "CR1", 0x5234, [⟨"CR1", [fld "PIEN" 1 (.bit 0), fld "PS" 1 (.bit 1), fld "PCEN" 1 (.bit 2), fld "WAKE" 1 (.bit 3), fld "M" 1 (.bit 4), fld "USARTD" 1 (.bit 5), fld "T8" 1 (.bit 6), fld "R8" 1 (.bit 7)]⟩], [⟨"USART1_CR1", 0x00⟩]⟩,
    .reg ⟨"CR2", "CR2", 0x5235, [⟨"CR2", [fld "SBK" 1 (.bit 0), fld "RWU" 1 (.bit 1), fld "REN" 1 (.bit 2), fld "TEN" 1 (.bit 3), fld "ILIEN" 1 (.bit 4), fld "RIEN" 1 (.bit 5), fld "TCIEN" 1 (.bit 6), fld "TIEN" 1 (.bit 7)]⟩], [⟨"USART1_CR2", 0x00⟩]⟩,
    .reg ⟨"CR3", "CR3", 0x5236, [⟨"CR3", [fld "LBCL" 1 (.bit 0), fld "CPHA" 1 (.bit 1), fld "CPOL" 1 (.bit 2), fld "CLKEN" 1 (.bit 3), fld "STOP0" 1 (.bit 4), fld "STOP1" 1 (.bit 5), gap 2 (.pad 2)]⟩], [⟨"USART1_CR3", 0x00⟩]⟩,
    .reg ⟨"CR4", "CR4", 0x5237, [⟨"CR4", [fld "ADD0" 1 (.bit 0), fld "ADD1" 1 (.bit 1), fld "ADD2" 1 (.bit 2), fld "ADD3" 1 (.bit 3), gap 4 (.pad 4)]⟩], [⟨"USART1_CR4", 0x00⟩]⟩,
    .reg ⟨"CR5", "CR5", 0x5238, [⟨"CR5", [fld "EIE" 1 (.bit 0), fld "IREN" 1 (.bit 1), fld "IRLP" 1 (.bit 2), fld "HDSEL" 1 (.bit 3), fld "NACK" 1 (.bit 4), fld "SCEN" 1 (.bit 5), fld "DMAR" 1 (.bit 6), fld "DMAT" 1 (.bit 7)]⟩], [⟨"USART1_CR5", 0x00⟩]⟩,
    .reg ⟨"GTR", "GTR", 0x5239, [⟨"GTR", [fld "GT" 8 (.bits 0 7)]⟩], [⟨"USART1_GTR", 0x00⟩]⟩,
    .reg ⟨"PSCR", "PSCR", 0x523a, [⟨"PSCR", [fld "PSC" 8 (.bits 0 7)]⟩], [⟨"USART1_PSCR", 0x00⟩]⟩ ] }

/-- Overlay struct USART2_t (source lines 8930 and following). -/
def USART2_t : Overlay :=
  { typeName := "USART2_t", docModule := "USART2", members := [
    .reg ⟨"SR", "SR", 0x53e0, [⟨"SR", [fld "PE" 1 (.bit 0), fld "FE" 1 (.bit 1), fld "NF" 1 (.bit 2), fld "OR" 1 (.bit 3), fld "IDLE" 1 (.bit 4), fld "RXNE" 1 (.bit 5), fld "TC" 1 (.bit 6), fld "TXE" 1 (.bit 7)]⟩], [⟨"USART2_SR", 0xC0⟩]⟩,
    .reg ⟨"DR", "DR", 0x53e1, [⟨"DR", [fld "DR" 8 (.bits 0 7)]⟩], [⟨"USART2_DR", 0x00⟩]⟩,
    .reg ⟨"BRR1", "BRR1", 0x53e2, [⟨"BRR1", [fld "USART_DIV4" 1 (.bit 0), fld "USART_DIV5" 1 (.bit 1), fld "USART_DIV6" 1 (.bit 2), fld "USART_DIV7" 1 (.bit 3), fld "USART_DIV8" 1 (.bit 4), fld "USART_DIV9" 1 (.bit 5), fld "USART_DIV10" 1 (.bit 6), fld "USART_DIV11" 1 (.bit 7)]⟩], [⟨"USART2_BRR1", 0x00⟩]⟩,
    .reg ⟨"BRR2", "BRR2", 0x53e3, [⟨"BRR2", [fld "USART_DIV0" 1 (.bit 0), fld "USART_DIV1" 1 (.bit 1), fld "USART_DIV2" 1 (.bit 2), fld "USART_DIV3" 1 (.bit 3), fld "USART_DIV12" 1 (.bit 4), fld "USART_DIV13" 1 (.bit 5), fld "USART_DIV14" 1 (.bit 6), fld "USART_DIV15" 1 (.bit 7)]⟩], [⟨"USART2_BRR2", 0x00⟩]⟩,
    .reg ⟨"CR1", "CR1", 0x53e4, [⟨"CR1", [fld "PIEN" 1 (.bit 0), fld "PS" 1 (.bit 1), fld "PCEN" 1 (.bit 2), fld "WAKE" 1 (.bit 3), fld "M" 1 (.bit 4), fld "USARTD" 1 (.bit 5), fld "T8" 1 (.bit 6), fld "R8" 1 (.bit 7)]⟩], [⟨"USART2_CR1", 0x00⟩]⟩,
    .reg ⟨"CR2", "CR2", 0x53e5, [⟨"CR2", [fld "SBK" 1 (.bit 0), fld "RWU" 1 (.bit 1), fld "REN" 1 (.bit 2), fld "TEN" 1 (.bit 3), fld "ILIEN" 1 (.bit 4), fld "RIEN" 1 (.bit 5), fld "TCIEN" 1 (.bit 6), fld "TIEN" 1 (.bit 7)]⟩], [⟨"USART2_CR2", 0x00⟩]⟩,
    .reg ⟨"CR3", "CR3", 0x53e6, [⟨"CR3", [fld "LBCL" 1 (.bit 0), fld "CPHA" 1 (.bit 1), fld "CPOL" 1 (.bit 2), fld "CLKEN" 1 (.bit 3), fld "STOP" 2 (.bits 4 5), gap 2 (.pad 2)]⟩], [⟨"USART2_CR3", 0x00⟩]⟩,
    .reg ⟨"CR4", "CR4", 0x53e7, [⟨"CR4", [fld "ADD" 4 (.bits 0 3), gap 4 (.pad 4)]⟩], [⟨"USART2_CR4", 0x00⟩]⟩,
    .reg ⟨"CR5", "CR5", 0x53e8, [⟨"CR5", [fld "EIE" 1 (.bit 0), fld "IREN" 1 (.bit 1), fld "IRLP" 1 (.bit 2), fld "HDSEL" 1 (.bit 3), fld "NACK" 1 (.bit 4), fld "SCEN" 1 (.bit 5), fld "DMAR" 1 (.bit 6), fld "DMAT" 1 (.bit 7)]⟩], [⟨"USART2_CR5", 0x00⟩]⟩,
    .reg ⟨"GTR", "GTR", 0x53e9, [⟨"GTR", [fld "GT" 8 (.bits 0 7)]⟩], [⟨"USART2_GTR", 0x00⟩]⟩,
    .reg ⟨"PSCR", "PSCR", 0x53ea, [⟨"PSCR", [fld "PSC" 8 (.bits 0 7)]⟩], [⟨"USART2_PSCR", 0x00⟩]⟩ ] }

/-- Overlay struct USART3_t (source lines 9177 and following). -/
def USART3_t : Overlay :=
  { typeName := "USART3_t", docModule := "USART3", members := [
    .reg ⟨"SR", "SR", 0x53f0, [⟨"SR", [fld "PE" 1 (.bit 0), fld "FE" 1 (.bit 1), fld "NF" 1 (.bit 2), fld "OR" 1 (.bit 3), fld "IDLE" 1 (.bit 4), fld "RXNE" 1 (.bit 5), fld "TC" 1 (.bit 6), fld "TXE" 1 (.bit 7)]⟩], [⟨"USART3_SR", 0xC0⟩]⟩,
    .reg ⟨"DR", "DR", 0x53f1, [⟨"DR", [fld "DR" 8 (.bits 0 7)]⟩], [⟨"USART3_DR", 0x00⟩]⟩,
    .reg ⟨"BRR1", "BRR1", 0x53f2, [⟨"BRR1", [fld "USART_DIV4" 1 (.bit 0), fld "USART_DIV5" 1 (.bit 1), fld "USART_DIV6" 1 (.bit 2), fld "USART_DIV7" 1 (.bit 3), fld "USART_DIV8" 1 (.bit 4), fld "USART_DIV9" 1 (.bit 5), fld "USART_DIV10" 1 (.bit 6), fld "USART_DIV11" 1 (.bit 7)]⟩], [⟨"USART3_BRR1", 0x00⟩]⟩,
    .reg ⟨"BRR2", "BRR2", 0x53f3, [⟨"BRR2", [fld "USART_DIV0" 1 (.bit 0), fld "USART_DIV1" 1 (.bit 1), fld "USART_DIV2" 1 (.bit 2), fld "USART_DIV3" 1 (.bit 3), fld "USART_DIV12" 1 (.bit 4), fld "USART_DIV13" 1 (.bit 5), fld "USART_DIV14" 1 (.bit 6), fld "USART_DIV15" 1 (.bit 7)]⟩], [⟨"USART3_BRR2", 0x00⟩]⟩,
    .reg ⟨"CR1", "CR1", 0x53f4, [⟨"CR1", [fld "PIEN" 1 (.bit 0), fld "PS" 1 (.bit 1), fld "PCEN" 1 (.bit 2), fld "WAKE" 1 (.bit 3), fld "M" 1 (.bit 4), fld "USARTD" 1 (.bit 5), fld "T8" 1 (.bit 6), fld "R8" 1 (.bit 7)]⟩], [⟨"USART3_CR1", 0x00⟩]⟩,
    .reg ⟨"CR2", "CR2", 0x53f5, [⟨"CR2", [fld "SBK" 1 (.bit 0), fld "RWU" 1 (.bit 1), fld "REN" 1 (.bit 2), fld "TEN" 1 (.bit 3), fld "ILIEN" 1 (.bit 4), fld "RIEN" 1 (.bit 5), fld "TCIEN" 1 (.bit 6), fld "TIEN" 1 (.bit 7)]⟩], [⟨"USART3_CR2", 0x00⟩]⟩,
    .reg ⟨"CR3", "CR3", 0x53f6, [⟨"CR3", [fld "LBCL" 1 (.bit 0), fld "CPHA" 1 (.bit 1), fld "CPOL" 1 (.bit 2), fld "CLKEN" 1 (.bit 3), fld "STOP" 2 (.bits 4 5), gap 2 (.pad 2)]⟩], [⟨"USART3_CR3", 0x00⟩]⟩,
    .reg ⟨"CR4", "CR4", 0x53f7, [⟨"CR4", [fld "ADD" 4 (.bits 0 3), gap 4 (.pad 4)]⟩], [⟨"USART3_CR4", 0x00⟩]⟩,
    .reg ⟨"CR5", "CR5", 0x53f8, [⟨"CR5", [fld "EIE" 1 (.bit 0), fld "IREN" 1 (.bit 1), fld "IRLP" 1 (.bit 2), fld "HDSEL" 1 (.bit 3), fld "NACK" 1 (.bit 4), fld "SCEN" 1 (.bit 5), fld "DMAR" 1 (.bit 6), fld "DMAT" 1 (.bit 7)]⟩], [⟨"USART3_CR5", 0x00⟩]⟩,
    .reg ⟨"GTR", "GTR", 0x53f9, [⟨"GTR", [fld "GT" 8 (.bits 0 7)]⟩], [⟨"USART3_GTR", 0x00⟩]⟩,
    .reg ⟨"PSCR", "PSCR", 0x53fa, [⟨"PSCR", [fld "PSC" 8 (.bits 0 7)]⟩], [⟨"USART3_PSCR", 0x00⟩]⟩ ] }

/-- Overlay struct WFE_t (source lines 9424 and following). -/
def WFE_t : Overlay :=
  { typeName := "WFE_t", docModule := "WFE", members := [
    .reg ⟨"CR1", "CR1", 0x50a6, [⟨"CR1", [fld "TIM2_EV0" 1 (.bit 0), fld "TIM2_EV1" 1 (.bit 1), fld "TIM1_EV0" 1 (.bit 2), fld "TIM1_EV1" 1 (.bit 3), fld "EXTI_EV0" 1 (.bit 4), fld "EXTI_EV1" 1 (.bit 5), fld "EXTI_EV2" 1 (.bit 6), fld "EXTI_EV3" 1 (.bit 7)]⟩], [⟨"WFE_CR1", 0x00⟩]⟩,
    .reg ⟨"CR2", "CR2", 0x50a7, [⟨"CR2", [fld "EXTI_EV4" 1 (.bit 0), fld "EXTI_EV5" 1 (.bit 1), fld "EXTI_EV6" 1 (.bit 2), fld "EXTI_EV7" 1 (.bit 3), fld "EXTI_EVB" 1 (.bit 4), fld "EXTI_EVD" 1 (.bit 5), fld "EXTI_EVF" 1 (.bit 6), fld "EXTI_EVE" 1 (.bit 7)]⟩], [⟨"WFE_CR2", 0x00⟩]⟩,
    .reg ⟨"CR3", "CR3", 0x50a8, [⟨"CR3", [fld "TIM3_EV0" 1 (.bit 0), fld "TIM3_EV1" 1 (.bit 1), fld "TIM4_EV" 1 (.bit 2), fld "SPI1_EV" 1 (.bit 3), fld "I2C1_EV" 1 (.bit 4), fld "USART1_EV" 1 (.bit 5), fld "DMA1CH01_EV" 1 (.bit 6), fld "DMA1CH23_EV" 1 (.bit 7)]⟩], [⟨"WFE_CR3", 0x00⟩]⟩,
    .reg ⟨"CR4", "CR4", 0x50a9, [⟨"CR4", [fld "RTC_CSSLSE_EV" 1 (.bit 0), fld "SPI2_EV" 1 (.bit 1), fld "USART2_EV" 1 (.bit 2), fld "USART3_EV" 1 (.bit 3), fld "TIM5_EV0" 1 (.bit 4), fld "TIM5_EV1" 1 (.bit 5), fld "AES_EV" 1 (.bit 6), gap 1 (.pad 1)]⟩], [⟨"WFE_CR4", 0x00⟩]⟩ ] }

/-- Overlay struct WWDG_t (source lines 9532 and following). -/
def WWDG_t : Overlay :=
  { typeName := "WWDG_t", docModule := "WWDG", members := [
    .reg ⟨"CR", "CR", 0x50d3, [⟨"CR", [fld "T0" 1 (.bit 0), fld "T1" 1 (.bit 1), fld "T2" 1 (.bit 2), fld "T3" 1 (.bit 3), fld "T4" 1 (.bit 4), fld "T5" 1 (.bit 5), fld "T6" 1 (.bit 6), fld "T7" 1 (.bit 7)]⟩], [⟨"WWDG_CR", 0x7F⟩]⟩,
    .reg ⟨"WR", "WR", 0x50d4, [⟨"WR", [fld "W0" 1 (.bit 0), fld "W1" 1 (.bit 1), fld "W2" 1 (.bit 2), fld "W3" 1 (.bit 3), fld "W4" 1 (.bit 4), fld "W5" 1 (.bit 5), fld "W6" 1 (.bit 6), fld "W7" 1 (.bit 7)]⟩], [⟨"WWDG_WR", 0x7F⟩]⟩ ] }

/-- Every overlay struct of the header, in declaration order. -/
def overlays : List Overlay :=
  [ADC1_t, BEEP_t, CLK_t, COMP1_2_t, CPU_t, DAC_t, DM_t, DMA1_t,
   FLASH_t, I2C1_t, IRTIM_t, ITC_EXTI_t, ITC_SPR_t, IWDG_t, OPT_t, PWR_t,
   PORT_t, RI_t, RST_t, RTC_t, SPI1_t, SPI2_t, SWIM_t, SYSCFG_t,
   TIM1_t, TIM2_t, TIM3_t, TIM4_t, TIM5_t, USART1_t, USART2_t, USART3_t,
   WFE_t, WWDG_t]

/-- Every #define sfr_<MODULE> (*((<TYPE>*) <base>)) macro, in declaration order. -/
def sfrMacros : List SfrMacro :=
  [⟨"ADC1", "ADC1_t", 0x5340⟩, ⟨"BEEP", "BEEP_t", 0x50f0⟩, ⟨"CLK", "CLK_t", 0x50c0⟩,
   ⟨"COMP1_2", "COMP1_2_t", 0x5440⟩, ⟨"CPU", "CPU_t", 0x7f00⟩, ⟨"DAC", "DAC_t", 0x5380⟩,
   ⟨"DM", "DM_t", 0x7f90⟩, ⟨"DMA1", "DMA1_t", 0x5070⟩, ⟨"FLASH", "FLASH_t", 0x5050⟩,
   ⟨"I2C1", "I2C1_t", 0x5210⟩, ⟨"IRTIM", "IRTIM_t", 0x52ff⟩, ⟨"ITC_EXTI", "ITC_EXTI_t", 0x50a0⟩,
   ⟨"ITC_SPR", "ITC_SPR_t", 0x7f70⟩, ⟨"IWDG", "IWDG_t", 0x50e0⟩, ⟨"OPT", "OPT_t", 0x4800⟩,
   ⟨"PWR", "PWR_t", 0x50b2⟩, ⟨"PORTA", "PORT_t", 0x5000⟩, ⟨"PORTB", "PORT_t", 0x5005⟩,
   ⟨"PORTC", "PORT_t", 0x500a⟩, ⟨"PORTD", "PORT_t", 0x500f⟩, ⟨"PORTE", "PORT_t", 0x5014⟩,
   ⟨"PORTF", "PORT_t", 0x5019⟩, ⟨"PORTG", "PORT_t", 0x501e⟩, ⟨"PORTH", "PORT_t", 0x5023⟩,
   ⟨"PORTI", "PORT_t", 0x5028⟩, ⟨"RI", "RI_t", 0x5431⟩, ⟨"RST", "RST_t", 0x50b0⟩,
   ⟨"RTC", "RTC_t", 0x5140⟩, ⟨"SPI1", "SPI1_t", 0x5200⟩, ⟨"SPI2", "SPI2_t", 0x53c0⟩,
   ⟨"SWIM", "SWIM_t", 0x7f80⟩, ⟨"SYSCFG", "SYSCFG_t", 0x509d⟩, ⟨"TIM1", "TIM1_t", 0x52b0⟩,
   ⟨"TIM2", "TIM2_t", 0x5250⟩, ⟨"TIM3", "TIM3_t", 0x5280⟩, ⟨"TIM4", "TIM4_t", 0x52e0⟩,
   ⟨"TIM5", "TIM5_t", 0x5300⟩, ⟨"USART1", "USART1_t", 0x5230⟩, ⟨"USART2", "USART2_t", 0x53e0⟩,
   ⟨"USART3", "USART3_t", 0x53f0⟩, ⟨"WFE", "WFE_t", 0x50a6⟩, ⟨"WWDG", "WWDG_t", 0x50d3⟩]

/-- Every _<SOURCE>_VECTOR_ macro of the ISR vector table (source lines 258 to 363), in order. -/
def vectorTable : List VectorMacro :=
  [undocumented "TLI" 0,
   documented "FLASH_EOP" 1 "FLASH_EOP" (xref "FLASH_CR1" "IE") (xref "FLASH_IAPSR" "EOP") (xref "ITC_SPR1" "VECT1SPR"),
   documented "FLASH_WR_PG_DIS" 1 "FLASH_WR_PG_DIS" (xref "FLASH_CR1" "IE") (xref "FLASH_IAPSR" "WR_PG_DIS") (xref "ITC_SPR1" "VECT1SPR"),
   documented "DMA1_CH0_HT" 2 "DMA1_CH0_HT" (xref "DMA1_C0CR" "HTIE") (xref "DMA1_C0SPR" "HTIF") (xref "ITC_SPR1" "VECT2SPR"),
   documented "DMA1_CH0_TC" 2 "DMA1_CH0_TC" (xref "DMA1_C0CR" "TCIE") (xref "DMA1_C0SPR" "TCIF") (xref "ITC_SPR1" "VECT2SPR"),
   documented "DMA1_CH1_HT" 2 "DMA1_CH1_HT" (xref "DMA1_C1CR" "HTIE") (xref "DMA1_C1SPR" "HTIF") (xref "ITC_SPR1" "VECT2SPR"),
   documented "DMA1_CH1_TC" 2 "DMA1_CH1_TC" (xref "DMA1_C1CR" "TCIE") (xref "DMA1_C1SPR" "TCIF") (xref "ITC_SPR1" "VECT2SPR"),
   documented "DMA1_CH2_HT" 3 "DMA1_CH2_HT" (xref "DMA1_C2CR" "HTIE") (xref "DMA1_C2SPR" "HTIF") (xref "ITC_SPR1" "VECT3SPR"),
   documented "DMA1_CH2_TC" 3 "DMA1_CH2_TC" (xref "DMA1_C2CR" "TCIE") (xref "DMA1_C2SPR" "TCIF") (xref "ITC_SPR1" "VECT3SPR"),
   documented "DMA1_CH3_HT" 3 "DMA1_CH3_HT" (xref "DMA1_C3CR" "HTIE") (xref "DMA1_C3SPR" "HTIF") (xref "ITC_SPR1" "VECT3SPR"),
   documented "DMA1_CH3_TC" 3 "DMA1_CH3_TC" (xref "DMA1_C3CR" "TCIE") (xref "DMA1_C3SPR" "TCIF") (xref "ITC_SPR1" "VECT3SPR"),
   documented "LSE_CSS" 4 "LSE_CSS" (xref "CSS_LSE_CSR" "CSSIE") (xref "CSS_LSE_CSR" "CSSF") (xref "ITC_SPR2" "VECT4SPR"),
   documented "RTC_ALARM" 4 "RTC_ALARM" (xref "RTC_CR2" "ALRAIE") (xref "RTC_ISR2" "ALRAF") (xref "ITC_SPR2" "VECT4SPR"),
   documented "RTC_TAMP1" 4 "RTC_TAMP1" (xref "RTC_TCR1" "TAMPIE") (xref "RTC_ISR2" "TAMP1F") (xref "ITC_SPR2" "VECT4SPR"),
   documented "RTC_TAMP2" 4 "RTC_TAMP2" (xref "RTC_TCR1" "TAMPIE") (xref "RTC_ISR2" "TAMP2F") (xref "ITC_SPR2" "VECT4SPR"),
   documented "RTC_TAMP3" 4 "RTC_TAMP3" (xref "RTC_TCR1" "TAMPIE") (xref "RTC_ISR2" "TAMP3F") (xref "ITC_SPR2" "VECT4SPR"),
   documented "RTC_WAKEUP" 4 "RTC_WAKEUP" (xref "RTC_CR2" "WUTIE") (xref "RTC_ISR2" "WUTF") (xref "ITC_SPR2" "VECT4SPR"),
   documented "EXTIE" 5 "EXTIE" (xref "EXTI_CR3" "PEIS") (xref "EXTI_SR2" "PEF") (xref "ITC_SPR2" "VECT5SPR"),
   documented "EXTIF" 5 "EXTIF" (xref "EXTI_CR3" "PFIS") (xref "EXTI_SR2" "PFF") (xref "ITC_SPR2" "VECT5SPR"),
   documented "EXTIPVD" 5 "EXTIPVD" (xref "PWR_CSR1" "PVDE") (xref "PWR_CSR1" "PVDIF") (xref "ITC_SPR2" "VECT5SPR"),
   documented "EXTIB" 6 "EXTIB" (xref "EXTI_CR3" "PBIS") (xref "EXTI_SR2" "PBF") (xref "ITC_SPR2" "VECT6SPR"),
   documented "EXTIG" 6 "EXTIG" (xref "EXTI_CR4" "PGIS") (xref "EXTI_SR2" "PGF") (xref "ITC_SPR2" "VECT6SPR"),
   documented "EXTID" 7 "EXTID" (xref "EXTI_CR3" "PDIS") (xref "EXTI_SR2" "PDF") (xref "ITC_SPR2" "VECT7SPR"),
   documented "EXTIH" 7 "EXTIH" (xref "EXTI_CR4" "PHIS") (xref "EXTI_SR2" "PHF") (xref "ITC_SPR2" "VECT7SPR"),
   documented "EXTI0" 8 "EXTI0" (xref "EXTI_CR1" "P0IS") (xref "EXTI_SR1" "P0F") (xref "ITC_SPR3" "VECT8SPR"),
   documented "EXTI1" 9 "EXTI1" (xref "EXTI_CR1" "P1IS") (xref "EXTI_SR1" "P1F") (xref "ITC_SPR3" "VECT9SPR"),
   documented "EXTI2" 10 "EXTI2" (xref "EXTI_CR1" "P2IS") (xref "EXTI_SR1" "P2F") (xref "ITC_SPR3" "VECT10SPR"),
   documented "EXTI3" 11 "EXTI3" (xref "EXTI_CR1" "P3IS") (xref "EXTI_SR1" "P3F") (xref "ITC_SPR3" "VECT11SPR"),
   documented "EXTI4" 12 "EXTI4" (xref "EXTI_CR2" "P4IS") (xref "EXTI_SR1" "P4F") (xref "ITC_SPR4" "VECT12SPR"),
   documented "EXTI5" 13 "EXTI5" (xref "EXTI_CR2" "P5IS") (xref "EXTI_SR1" "P5F") (xref "ITC_SPR4" "VECT13SPR"),
   documented "EXTI6" 14 "EXTI6" (xref "EXTI_CR2" "P6IS") (xref "EXTI_SR1" "P6F") (xref "ITC_SPR4" "VECT14SPR"),
   documented "EXTI7" 15 "EXTI7" (xref "EXTI_CR2" "P7IS") (xref "EXTI_SR1" "P7F") (xref "ITC_SPR4" "VECT15SPR"),
   documented "CLK_CSS" 17 "CLK_CSS" (xref "CLK_CSSR" "CSSDIE") (xref "CLK_CSSR" "CSSD") (xref "ITC_SPR4" "VECT17SPR"),
   documented "CLK_SWITCH" 17 "CLK_SWITCH" (xref "CLK_SWCR" "SWIEN") (xref "CLK_SWCR" "SWIF") (xref "ITC_SPR4" "VECT17SPR"),
   documented "DAC_DMAUDR1" 17 "DAC_DMAUDR1" (xref "DAC_CH1CR2" "DMAUDRIE") (xref "DAC_SR" "DMAUDR1") (xref "ITC_SPR4" "VECT17SPR"),
   documented "DAC_DMAUDR2" 17 "DAC_DMAUDR2" (xref "DAC_CH2CR2" "DMAUDRIE") (xref "DAC_SR" "DMAUDR2") (xref "ITC_SPR4" "VECT17SPR"),
   documented "TIM1_BIF" 17 "TIM1_BIF" (xref "TIM1_IER" "BIE") (xref "TIM1_SR1" "BIF") (xref "ITC_SPR4" "VECT17SPR"),
   documented "ADC1_AWD" 18 "ADC1_AWD" (xref "ADC1_CR1" "AWDIE") (xref "ADC1_SR" "AWD") (xref "ITC_SPR5" "VECT18SPR"),
   documented "ADC1_EOC" 18 "ADC1_EOC" (xref "ADC1_CR1" "EOCIE") (xref "ADC1_SR" "EOC") (xref "ITC_SPR5" "VECT18SPR"),
   documented "ADC1_OVER" 18 "ADC1_OVER" (xref "ADC1_CR1" "OVERIE") (xref "ADC1_SR" "OVER") (xref "ITC_SPR5" "VECT18SPR"),
   documented "COMP_EF1" 18 "COMP_EF1" (xref "COMP_CSR1" "IE1") (xref "COMP_CSR1" "EF1") (xref "ITC_SPR5" "VECT18SPR"),
   documented "COMP_EF2" 18 "COMP_EF2" (xref "COMP_CSR2" "IE2") (xref "COMP_CSR2" "EF2") (xref "ITC_SPR5" "VECT18SPR"),
   documented "TIM2_BIF" 19 "TIM2_BIF" (xref "TIM2_IER" "BIE") (xref "TIM2_SR1" "BIF") (xref "ITC_SPR5" "VECT19SPR"),
   documented "TIM2_OVR_UIF" 19 "TIM2_OVR_UIF" (xref "TIM2_IER" "UIE") (xref "TIM2_SR1" "UIF") (xref "ITC_SPR5" "VECT19SPR"),
   documented "TIM2_TIF" 19 "TIM2_TIF" (xref "TIM2_IER" "TIE") (xref "TIM2_SR1" "TIF") (xref "ITC_SPR5" "VECT19SPR"),
   documented "USART2_T_TC" 19 "USART2_T_TC" (xref "USART2_CR2" "TCIEN") (xref "USART2_SR" "TC") (xref "ITC_SPR5" "VECT19SPR"),
   documented "USART2_T_TXE" 19 "USART2_T_TXE" (xref "USART2_CR2" "TIEN") (xref "USART2_SR" "TXE") (xref "ITC_SPR5" "VECT19SPR"),
   documented "TIM2_CAPCOM_CC1IF" 20 "TIM2_CAPCOM_CC1IF" (xref "TIM2_IER" "CC1IE") (xref "TIM2_SR1" "CC1IF") (xref "ITC_SPR6" "VECT20SPR"),
   documented "TIM2_CAPCOM_CC2IF" 20 "TIM2_CAPCOM_CC2IF" (xref "TIM2_IER" "CC2IE") (xref "TIM2_SR1" "CC2IF") (xref "ITC_SPR6" "VECT20SPR"),
   documented "USART2_R_IDLE" 20 "USART2_R_IDLE" (xref "USART2_CR2" "ILIEN") (xref "USART2_SR" "IDLE") (xref "ITC_SPR6" "VECT20SPR"),
   documented "USART2_R_OR" 20 "USART2_R_OR" (xref "USART2_CR2" "RIEN") (xref "USART2_SR" "OR") (xref "ITC_SPR6" "VECT20SPR"),
   documented "USART2_R_PE" 20 "USART2_R_PE" (xref "USART2_CR1" "PIEN") (xref "USART2_SR" "PE") (xref "ITC_SPR6" "VECT20SPR"),
   documented "USART2_R_RXNE" 20 "USART2_R_RXNE" (xref "USART2_CR2" "RIEN") (xref "USART2_SR" "RXNE") (xref "ITC_SPR6" "VECT20SPR"),
   documented "TIM3_BIF" 21 "TIM3_BIF" (xref "TIM3_IER" "BIE") (xref "TIM3_SR1" "BIF") (xref "ITC_SPR5" "VECT21SPR"),
   documented "TIM3_OVR_UIF" 21 "TIM3_OVR_UIF" (xref "TIM3_IER" "UIE") (xref "TIM3_SR1" "UIF") (xref "ITC_SPR5" "VECT21SPR"),
   documented "TIM3_TIF" 21 "TIM3_TIF" (xref "TIM3_IER" "TIE") (xref "TIM3_SR1" "TIF") (xref "ITC_SPR5" "VECT21SPR"),
   documented "USART3_T_TC" 21 "USART3_T_TC" (xref "USART3_CR2" "TCIEN") (xref "USART3_SR" "TC") (xref "ITC_SPR5" "VECT21SPR"),
   documented "USART3_T_TXE" 21 "USART3_T_TXE" (xref "USART3_CR2" "TIEN") (xref "USART3_SR" "TXE") (xref "ITC_SPR5" "VECT21SPR"),
   documented "TIM3_CAPCOM_CC1IF" 22 "TIM3_CAPCOM_CC1IF" (xref "TIM3_IER" "CC1IE") (xref "TIM3_SR1" "CC1IF") (xref "ITC_SPR6" "VECT22SPR"),
   documented "TIM3_CAPCOM_CC2IF" 22 "TIM3_CAPCOM_CC2IF" (xref "TIM3_IER" "CC2IE") (xref "TIM3_SR1" "CC2IF") (xref "ITC_SPR6" "VECT22SPR"),
   documented "USART3_R_IDLE" 22 "USART3_R_IDLE" (xref "USART3_CR2" "ILIEN") (xref "USART3_SR" "IDLE") (xref "ITC_SPR6" "VECT22SPR"),
   documented "USART3_R_OR" 22 "USART3_R_OR" (xref "USART3_CR2" "RIEN") (xref "USART3_SR" "OR") (xref "ITC_SPR6" "VECT22SPR"),
   documented "USART3_R_PE" 22 "USART3_R_PE" (xref "USART3_CR1" "PIEN") (xref "USART3_SR" "PE") (xref "ITC_SPR6" "VECT22SPR"),
   documented "USART3_R_RXNE" 22 "USART3_R_RXNE" (xref "USART3_CR2" "RIEN") (xref "USART3_SR" "RXNE") (xref "ITC_SPR6" "VECT22SPR"),
   documented "TIM1_OVR_UIF" 23 "TIM1_OVR_UIF" (xref "TIM1_IER" "UIE") (xref "TIM1_SR1" "UIF") (xref "ITC_SPR6" "VECT23SPR"),
   documented "TIM1_CAPCOM_CC1IF" 24 "TIM1_CAPCOM_CC1IF" (xref "TIM1_IER" "CC1IE") (xref "TIM1_SR1" "CC1IF") (xref "ITC_SPR6" "VECT24SPR"),
   documented "TIM1_CAPCOM_CC2IF" 24 "TIM1_CAPCOM_CC2IF" (xref "TIM1_IER" "CC2IE") (xref "TIM1_SR1" "CC2IF") (xref "ITC_SPR6" "VECT24SPR"),
   documented "TIM1_CAPCOM_CC3IF" 24 "TIM1_CAPCOM_CC3IF" (xref "TIM1_IER" "CC3IE") (xref "TIM1_SR1" "CC2IF") (xref "ITC_SPR6" "VECT24SPR"),
   documented "TIM1_CAPCOM_CC4IF" 24 "TIM1_CAPCOM_CC4IF" (xref "TIM1_IER" "CC4IE") (xref "TIM1_SR1" "CC4IF") (xref "ITC_SPR6" "VECT24SPR"),
   documented "TIM1_CAPCOM_COMIF" 24 "TIM1_CAPCOM_COMIF" (xref "TIM1_IER" "COMIE") (xref "TIM1_SR1" "COMIF") (xref "ITC_SPR6" "VECT24SPR"),
   documented "TIM1_CAPCOM_TIF" 24 "TIM1_CAPCOM_TIF" (xref "TIM1_IER" "TIE") (xref "TIM1_SR1" "TIF") (xref "ITC_SPR6" "VECT24SPR"),
   documented "TIM4_TIF" 25 "TIM4_TIF" (xref "TIM4_IER" "TIE") (xref "TIM4_SR1" "TIF") (xref "ITC_SPR7" "VECT25SPR"),
   documented "TIM4_UIF" 25 "TIM4_UIF" (xref "TIM4_IER" "UIE") (xref "TIM4_SR1" "UIF") (xref "ITC_SPR7" "VECT25SPR"),
   documented "SPI1_MODF" 26 "SPI1_MODF" (xref "SPI1_ICR" "ERRIE") (xref "SPI1_SR" "MODF") (xref "ITC_SPR7" "VECT26SPR"),
   documented "SPI1_OVR" 26 "SPI1_OVR" (xref "SPI1_ICR" "ERRIE") (xref "SPI1_SR" "OVR") (xref "ITC_SPR7" "VECT26SPR"),
   documented "SPI1_RXNE" 26 "SPI1_RXNE" (xref "SPI1_ICR" "RXIE") (xref "SPI1_SR" "RXNE") (xref "ITC_SPR7" "VECT26SPR"),
   documented "SPI1_TXE" 26 "SPI1_TXE" (xref "SPI1_ICR" "TXIE") (xref "SPI1_SR" "TXE") (xref "ITC_SPR7" "VECT26SPR"),
   documented "SPI1_WKUP" 26 "SPI1_WKUP" (xref "SPI1_ICR" "WKIE") (xref "SPI1_SR" "WKUP") (xref "ITC_SPR7" "VECT26SPR"),
   documented "TIM5_BIF" 27 "TIM5_BIF" (xref "TIM5_IER" "BIE") (xref "TIM5_SR1" "BIF") (xref "ITC_SPR7" "VECT27SPR"),
   documented "TIM5_OVR_UIF" 27 "TIM5_OVR_UIF" (xref "TIM5_IER" "UIE") (xref "TIM5_SR1" "UIF") (xref "ITC_SPR7" "VECT27SPR"),
   documented "TIM5_TIF" 27 "TIM5_TIF" (xref "TIM5_IER" "TIE") (xref "TIM5_SR1" "TIF") (xref "ITC_SPR7" "VECT27SPR"),
   documented "USART1_T_TC" 27 "USART1_T_TC" (xref "USART1_CR2" "TCIEN") (xref "USART1_SR" "TC") (xref "ITC_SPR7" "VECT27SPR"),
   documented "USART1_T_TXE" 27 "USART1_T_TXE" (xref "USART1_CR2" "TIEN") (xref "USART1_SR" "TXE") (xref "ITC_SPR7" "VECT27SPR"),
   documented "TIM5_CAPCOM_CC1IF" 28 "TIM5_CAPCOM_CC1IF" (xref "TIM5_IER" "CC1IE") (xref "TIM5_SR1" "CC1IF") (xref "ITC_SPR7" "VECT28SPR"),
   documented "TIM5_CAPCOM_CC2IF" 28 "TIM5_CAPCOM_CC2IF" (xref "TIM5_IER" "CC2IE") (xref "TIM5_SR1" "CC2IF") (xref "ITC_SPR7" "VECT28SPR"),
   documented "USART1_R_IDLE" 28 "USART1_R_IDLE" (xref "USART1_CR2" "ILIEN") (xref "USART1_SR" "IDLE") (xref "ITC_SPR7" "VECT28SPR"),
   documented "USART1_R_OR" 28 "USART1_R_OR" (xref "USART1_CR2" "RIEN") (xref "USART1_SR" "OR") (xref "ITC_SPR7" "VECT28SPR"),
   documented "USART1_R_PE" 28 "USART1_R_PE" (xref "USART1_CR1" "PIEN") (xref "USART1_SR" "PE") (xref "ITC_SPR7" "VECT28SPR"),
   documented "USART1_R_RXNE" 28 "USART1_R_RXNE" (xref "USART1_CR2" "RIEN") (xref "USART1_SR" "RXNE") (xref "ITC_SPR7" "VECT28SPR"),
   documented "I2C1_ADD10" 29 "I2C1_ADD10" (xref "I2C1_ITR" "ITEVTEN") (xref "I2C1_SR1" "ADD10") (xref "ITC_SPR8" "VECT29SPR"),
   documented "I2C1_ADDR" 29 "I2C1_ADDR" (xref "I2C1_ITR" "ITEVTEN") (xref "I2C1_SR1" "ADDR") (xref "ITC_SPR8" "VECT29SPR"),
   documented "I2C1_AF" 29 "I2C1_AF" (xref "I2C1_ITR" "ITERREN") (xref "I2C1_SR2" "AF") (xref "ITC_SPR8" "VECT29SPR"),
   documented "I2C1_ARLO" 29 "I2C1_ARLO" (xref "I2C1_ITR" "ITERREN") (xref "I2C1_SR2" "ARLO") (xref "ITC_SPR8" "VECT29SPR"),
   documented "I2C1_BERR" 29 "I2C1_BERR" (xref "I2C1_ITR" "ITERREN") (xref "I2C1_SR2" "BERR") (xref "ITC_SPR8" "VECT29SPR"),
   documented "I2C1_BTF" 29 "I2C1_BTF" (xref "I2C1_ITR" "ITEVTEN") (xref "I2C1_SR1" "BTF") (xref "ITC_SPR8" "VECT29SPR"),
   documented "I2C1_OVR" 29 "I2C1_OVR" (xref "I2C1_ITR" "ITERREN") (xref "I2C1_SR2" "OVR") (xref "ITC_SPR8" "VECT29SPR"),
   documented "I2C1_RXNE" 29 "I2C1_RXNE" (xref "I2C1_ITR" "ITBUFEN") (xref "I2C1_SR1" "RXNE") (xref "ITC_SPR8" "VECT29SPR"),
   documented "I2C1_SB" 29 "I2C1_SB" (xref "I2C1_ITR" "ITEVTEN") (xref "I2C1_SR1" "SB") (xref "ITC_SPR8" "VECT29SPR"),
   documented "I2C1_STOPF" 29 "I2C1_STOPF" (xref "I2C1_ITR" "ITEVTEN") (xref "I2C1_SR1" "STOPF") (xref "ITC_SPR8" "VECT29SPR"),
   documented "I2C1_TXE" 29 "I2C1_TXE" (xref "I2C1_ITR" "ITBUFEN") (xref "I2C1_SR1" "TXE") (xref "ITC_SPR8" "VECT29SPR"),
   documented "I2C1_WUFH" 29 "I2C1_WUFH" (xref "I2C1_ITR" "ITEVTEN") (xref "I2C1_SR2" "WUFH") (xref "ITC_SPR8" "VECT29SPR"),
   documented "SPI2_MODF" 29 "SPI2_MODF" (xref "SPI2_ICR" "ERRIE") (xref "SPI2_SR" "MODF") (xref "ITC_SPR8" "VECT29SPR"),
   documented "SPI2_OVR" 29 "SPI2_OVR" (xref "SPI2_ICR" "ERRIE") (xref "SPI2_SR" "OVR") (xref "ITC_SPR8" "VECT29SPR"),
   documented "SPI2_RXNE" 29 "SPI2_RXNE" (xref "SPI2_ICR" "RXIE") (xref "SPI2_SR" "RXNE") (xref "ITC_SPR8" "VECT29SPR"),
   documented "SPI2_TXE" 29 "SPI2_TXE" (xref "SPI2_ICR" "TXIE") (xref "SPI2_SR" "TXE") (xref "ITC_SPR8" "VECT29SPR"),
   documented "SPI2_WKUP" 29 "SPI2_WKUP" (xref "SPI2_ICR" "WKIE") (xref "SPI2_SR" "WKUP") (xref "ITC_SPR8" "VECT29SPR")]

/-! ## Looking declarations up by name -/

/-- The macro _<source>_VECTOR_ of the vector table, found by its source name. -/
def vectorMacro (source : String) : Option VectorMacro :=
  vectorTable.find? fun e => e.source == source

/-- The IRQ numbers the vector table uses, one per macro. -/
def irqNumbers : List Nat := vectorTable.map VectorMacro.irq

/-- The cross-reference comments of the vector table, one per documented macro. -/
def vectorDocs : List VectorDoc := vectorTable.filterMap VectorMacro.doc

/-- A register of an overlay struct, found by member name, with its byte offset. -/
def Overlay.findRegister (o : Overlay) (name : String) : Option (Nat × Register) :=
  o.layout.find? fun p => p.2.name == name

/-- A named bit-field of a register, found by name, with the position of its lowest bit. -/
def Register.findField (r : Register) (name : String) : Option (Nat × BitField) :=
  (r.views.map BitView.layout).flatten.find? fun p => p.2.name == some name

/-- The member names of the registers of an overlay struct that declare the named bit-field. -/
def Overlay.declaring (o : Overlay) (field : String) : List String :=
  (o.registers.filter fun r => r.fieldNames.contains field).map Register.name

/-- The name VECTjSPR of the priority field of vector j. -/
def vectSPR (j : Nat) : String := "VECT" ++ toString j ++ "SPR"

/-- The name under which the vector table refers to member SPRn of ITC_SPR_t. -/
def itcName (member : String) : String := "ITC_" ++ member

/-- The name under which the vector table refers to a member of ITC_EXTI_t. -/
def extiName (member : String) : String := "EXTI_" ++ member

/-! ## Compiler specific settings -/

/-- The predefined macros the compiler-settings block tests: whether __CSMC__, __ICCSTM8__
and __SDCC are defined, and the values of __SDCC_VERSION_MAJOR, __SDCC_VERSION_MINOR and
__SDCC_VERSION_PATCH. -/
structure Predefined where
  csmc : Bool
  iccstm8 : Bool
  sdcc : Bool
  major : Nat
  minor : Nat
  patch : Nat
  deriving DecidableEq, Repr

/-- One #define of the compiler-settings block: the macro name and, for a function-like
macro, its parameter names (none for an object-like macro). -/
structure MacroDef where
  name : String
  params : Option (List String)
  deriving DecidableEq, Repr

/-- The macros the Cosmic branch defines (source lines 70 to 86). -/
def cosmicMacros : List MacroDef :=
  [MacroDef.mk "ISR_HANDLER" (some ["func", "irq"]),
   MacroDef.mk "ISR_HANDLER_TRAP" (some ["func"]),
   MacroDef.mk "INLINE" none,
   MacroDef.mk "NOP" (some []),
   MacroDef.mk "DISABLE_INTERRUPTS" (some []),
   MacroDef.mk "ENABLE_INTERRUPTS" (some []),
   MacroDef.mk "TRIGGER_TRAP" none,
   MacroDef.mk "WAIT_FOR_INTERRUPT" (some []),
   MacroDef.mk "ENTER_HALT" (some []),
   MacroDef.mk "SW_RESET" (some []),
   MacroDef.mk "BITFIELD_UINT" none]

/-- The macros the IAR branch defines (source lines 96 to 118). -/
def iarMacros : List MacroDef :=
  [MacroDef.mk "STRINGVECTOR" (some ["x"]),
   MacroDef.mk "VECTOR_ID" (some ["x"]),
   MacroDef.mk "ISR_HANDLER" (some ["a", "b"]),
   MacroDef.mk "ISR_HANDLER_TRAP" (some ["a"]),
   MacroDef.mk "INLINE" none,
   MacroDef.mk "NOP" (some []),
   MacroDef.mk "DISABLE_INTERRUPTS" (some []),
   MacroDef.mk "ENABLE_INTERRUPTS" (some []),
   MacroDef.mk "TRIGGER_TRAP" none,
   MacroDef.mk "WAIT_FOR_INTERRUPT" (some []),
   MacroDef.mk "ENTER_HALT" (some []),
   MacroDef.mk "SW_RESET" (some []),
   MacroDef.mk "BITFIELD_UINT" none]

/-- The macros the SDCC branch defines before its version test (source lines 125 to 130). -/
def sdccMacrosBeforeTest : List MacroDef :=
  [MacroDef.mk "SDCC_VERSION" none,
   MacroDef.mk "ISR_HANDLER" (some ["func", "irq"])]

/-- The macros the SDCC branch defines from its version test on, when the test succeeds
(source lines 132 to 150). -/
def sdccMacrosAfterTest : List MacroDef :=
  [MacroDef.mk "ISR_HANDLER_TRAP" (some ["func"]),
   MacroDef.mk "INLINE" none,
   MacroDef.mk "NOP" (some []),
   MacroDef.mk "DISABLE_INTERRUPTS" (some []),
   MacroDef.mk "ENABLE_INTERRUPTS" (some []),
   MacroDef.mk "TRIGGER_TRAP" none,
   MacroDef.mk "WAIT_FOR_INTERRUPT" (some []),
   MacroDef.mk "ENTER_HALT" (some []),
   MacroDef.mk "SW_RESET" (some []),
   MacroDef.mk "BITFIELD_UINT" none]

/-- The macro SDCC_VERSION: the SDCC version in preprocessor friendly form. -/
def SDCC_VERSION (major minor patch : Nat) : Nat := major * 10000 + minor * 100 + patch

/-- Preprocessing the compiler-settings block (source lines 66 to 155): the macros it
defines, or the message of the #error directive that stops it.  The branches are tried
in the order of the #if / #elif chain. -/
def compilerSettings (p : Predefined) : Except String (List MacroDef) :=
  if p.csmc then .ok cosmicMacros
  else if p.iccstm8 then .ok iarMacros
  else if p.sdcc then
    if SDCC_VERSION p.major p.minor p.patch ≥ 30403 then
      .ok (sdccMacrosBeforeTest ++ sdccMacrosAfterTest)
    else .error "traps require SDCC >=3.4.3. Please update!"
  else .error ": compiler not supported"

/-- The three supported compilers. -/
inductive Compiler where
  | cosmic
  | iar
  | sdcc
  deriving DecidableEq, Repr

/-- The vector number ISR_HANDLER(f, irq) binds the handler f to: IAR writes the pragma
vector = ((irq)+2), SDCC writes __interrupt(irq), and the Cosmic expansion names no vector
(Cosmic takes it from a separate vector file). -/
def ISR_HANDLER (c : Compiler) (irq : Nat) : Option Nat :=
  match c with
  | .cosmic => none
  | .iar => some (irq + 2)
  | .sdcc => some irq

/-- The vector number ISR_HANDLER_TRAP(f) binds the handler to: IAR writes the pragma
vector = (1); the Cosmic and SDCC expansions name no vector. -/
def ISR_HANDLER_TRAP (c : Compiler) : Option Nat :=
  match c with
  | .cosmic => none
  | .iar => some 1
  | .sdcc => none

/-- The arity a list of definitions gives a macro name: none when the name is not
defined, some none for an object-like macro, some (some n) for a function-like macro
of n parameters. -/
def arityIn (ms : List MacroDef) (name : String) : Option (Option Nat) :=
  (ms.find? fun d => d.name == name).map fun d => d.params.map List.length

/-- Versions compared as triples (major, minor, patch), lexicographically. -/
def versionLt (a b : Nat × Nat × Nat) : Prop :=
  a.1 < b.1 ∨ (a.1 = b.1 ∧ (a.2.1 < b.2.1 ∨ (a.2.1 = b.2.1 ∧ a.2.2 < b.2.2)))

/-! ## Pin masks -/

def PIN0 : Nat := 0x01
def PIN1 : Nat := 0x02
def PIN2 : Nat := 0x04
def PIN3 : Nat := 0x08
def PIN4 : Nat := 0x10
def PIN5 : Nat := 0x20
def PIN6 : Nat := 0x40
def PIN7 : Nat := 0x80

/-- The pin masks PIN0 to PIN7, indexed by pin number. -/
def pins : List Nat := [PIN0, PIN1, PIN2, PIN3, PIN4, PIN5, PIN6, PIN7]

/-! ## Device memory -/

def RAM_ADDR_START : Nat := 0x000000
def RAM_ADDR_END : Nat := 0x000FFF
def RAM_SIZE : Nat := 4096

def EEPROM_ADDR_START : Nat := 0x001000
def EEPROM_ADDR_END : Nat := 0x0017FF
def EEPROM_SIZE : Nat := 2048

def OPTION_ADDR_START : Nat := 0x004800
def OPTION_ADDR_END : Nat := 0x0048FF
def OPTION_SIZE : Nat := 256

def STORAGE_ADDR_START : Nat := 0x004910
def STORAGE_ADDR_END : Nat := 0x004912
def STORAGE_SIZE : Nat := 3

def ID_ADDR_START : Nat := 0x004926
def ID_ADDR_END : Nat := 0x004931
def ID_SIZE : Nat := 12

def SFR1_ADDR_START : Nat := 0x005000
def SFR1_ADDR_END : Nat := 0x0057FF
def SFR1_SIZE : Nat := 2048

def BOOTROM_ADDR_START : Nat := 0x006000
def BOOTROM_ADDR_END : Nat := 0x0067FF
def BOOTROM_SIZE : Nat := 2048

def SFR2_ADDR_START : Nat := 0x007F00
def SFR2_ADDR_END : Nat := 0x007FFF
def SFR2_SIZE : Nat := 256

def FLASH_ADDR_START : Nat := 0x008000
def FLASH_ADDR_END : Nat := 0x017FFF
def FLASH_SIZE : Nat := 65536

/-- Width of the address space in bits; FLASH_POINTER_T is uint32_t. -/
def FLASH_ADDR_WIDTH : Nat := 32

/-- A memory region: the macros R_ADDR_START, R_ADDR_END and R_SIZE of one region R. -/
structure Region where
  name : String
  addrStart : Nat
  addrEnd : Nat
  size : Nat
  deriving DecidableEq, Repr

/-- The nine memory regions of the device, in declaration order. -/
def memoryRegions : List Region :=
  [Region.mk "RAM" RAM_ADDR_START RAM_ADDR_END RAM_SIZE,
   Region.mk "EEPROM" EEPROM_ADDR_START EEPROM_ADDR_END EEPROM_SIZE,
   Region.mk "OPTION" OPTION_ADDR_START OPTION_ADDR_END OPTION_SIZE,
   Region.mk "STORAGE" STORAGE_ADDR_START STORAGE_ADDR_END STORAGE_SIZE,
   Region.mk "ID" ID_ADDR_START ID_ADDR_END ID_SIZE,
   Region.mk "SFR1" SFR1_ADDR_START SFR1_ADDR_END SFR1_SIZE,
   Region.mk "BOOTROM" BOOTROM_ADDR_START BOOTROM_ADDR_END BOOTROM_SIZE,
   Region.mk "SFR2" SFR2_ADDR_START SFR2_ADDR_END SFR2_SIZE,
   Region.mk "FLASH" FLASH_ADDR_START FLASH_ADDR_END FLASH_SIZE]

/-! ## Unique identifier -/

/-- Start address of the unique identifier. -/
def UID_ADDR_START : Nat := 0x4926

/-- Size of the unique identifier in bytes. -/
def UID_SIZE : Nat := 12

/-- The address the macro UID(N) reads: it dereferences (uint8_t*) (UID_ADDR_START+N). -/
def UID (N : Nat) : Nat := UID_ADDR_START + N

/-! ## Port instances -/

/-- The sfr macros that cast their base address to the named struct type, in declaration
order. -/
def instancesOf (typeName : String) : List SfrMacro :=
  sfrMacros.filter fun m => m.typeName == typeName

/-! ## Module instances and their address extents -/

/-- The overlay struct an sfr macro casts its base address to. -/
def SfrMacro.overlay (m : SfrMacro) : Option Overlay :=
  overlays.find? fun o => o.typeName == m.typeName

/-- The sizeof of the struct an sfr macro casts its base address to. -/
def SfrMacro.size (m : SfrMacro) : Nat :=
  match m.overlay with
  | some o => o.size
  | none => 0

/-- The last byte of the extent of a module instance: base + sizeof - 1. -/
def SfrMacro.last (m : SfrMacro) : Nat := m.base + m.size - 1

/-- A named register of a module instance: the instance, the member name and the address
base + offset. -/
structure MappedRegister where
  module : String
  register : String
  address : Nat
  deriving DecidableEq, Repr

/-- The named registers of one module instance. -/
def SfrMacro.registers (m : SfrMacro) : List MappedRegister :=
  match m.overlay with
  | some o => o.layout.map fun p => MappedRegister.mk m.module p.2.name (m.base + p.1)
  | none => []

/-- Every named register of every module instance, the nine PORT_t instances included. -/
def mappedRegisters : List MappedRegister := (sfrMacros.map SfrMacro.registers).flatten

/-- One Reserved_idx[size] array of an overlay struct with its byte offset. -/
structure ReservedRange where
  idx : Nat
  offset : Nat
  size : Nat
  deriving DecidableEq, Repr

/-- The reserved arrays of a member list with their byte offsets, members laid out in
declaration order without padding, the first one at offset off. -/
def reservedFrom : Nat → List Member → List ReservedRange
  | _, [] => []
  | off, .reg _ :: ms => reservedFrom (off + 1) ms
  | off, .reserved idx k :: ms => ReservedRange.mk idx off k :: reservedFrom (off + k) ms

/-- The reserved arrays of an overlay struct with their byte offsets. -/
def Overlay.reserved (o : Overlay) : List ReservedRange := reservedFrom 0 o.members

/-! ## Theorems -/

/-! ## Register addresses -/

/-- Bit-field positions are the running sum of the widths declared before. -/
theorem bitLayoutFrom_get (fs : List BitField) (pos i : Nat) (h : i < fs.length) :
    (bitLayoutFrom pos fs)[i]? = some (pos + ((fs.take i).map BitField.width).sum, fs[i]) := by
  induction fs generalizing pos i with
  | nil => simp at h
  | cons f fs ih =>
    cases i with
    | zero => simp [bitLayoutFrom]
    | succ i =>
      have h' : i < fs.length := by simpa using h
      simp [bitLayoutFrom, ih (pos + f.width) i h', Nat.add_assoc]

theorem documented_address_all : ∀ o ∈ overlays,
    (∃ m ∈ sfrMacros, m.typeName = o.typeName ∧ m.module = o.docModule ∧
      ∀ p ∈ o.layout, m.base + p.1 = p.2.docAddr ∧ p.2.docName = p.2.name) ∧
    (∀ m ∈ sfrMacros, m.typeName = o.typeName → m.module ≠ o.docModule →
      o.typeName = "PORT_t" ∧ 0x5000 < m.base ∧
      ∀ p ∈ o.layout, m.base + p.1 = p.2.docAddr + (m.base - 0x5000)) := by
  decide!

theorem bit_positions_all : ∀ o ∈ overlays, ∀ r ∈ o.registers, ∀ v ∈ r.views, ∀ p ∈ v.layout,
    p.2.name.isSome = true →
    (p.2.doc = .bit p.1 ∧ p.2.width = 1) ∨
    (p.2.doc = .bits p.1 (p.1 + p.2.width - 1) ∧ 1 < p.2.width) := by
  decide!

theorem view_bits_all : ∀ o ∈ overlays, ∀ r ∈ o.registers, ∀ v ∈ r.views,
    v.bits = 8 ∧ ∀ p ∈ v.layout, p.1 + p.2.width ≤ 8 := by
  decide!

/-- C1 (as stated, read over every sfr macro): fails for sfr_PORTB, which casts 0x5005 to
PORT_t; member ODR sits at offset 0, so the register is at 0x5005, while the comment of ODR
in PORT_t documents 0x5000. -/
theorem C1_counterexample_PORTB :
    ∃ m ∈ sfrMacros, ∃ o ∈ overlays, ∃ p ∈ o.layout,
      m.module = "PORTB" ∧ m.typeName = o.typeName ∧ p.2.name = "ODR" ∧
      m.base + p.1 = 0x5005 ∧ p.2.docAddr = 0x5000 ∧ m.base + p.1 ≠ p.2.docAddr := by
  decide!

/-- C1 (amended): for every overlay struct, the sfr macro of the module that the doc comment
of the struct names exists, and its base address plus the byte offset of every register
member (one byte per preceding register, k bytes per Reserved_n[k]) equals the address
documented in the comment of that register, which also names the member.  Every other sfr
macro of the struct type belongs to PORT_t (sfr_PORTB to sfr_PORTI); there the sum exceeds
the documented address, which is the one of port A, by base - 0x5000. -/
theorem C1_documented_address (o : Overlay) (ho : o ∈ overlays) :
    (∃ m ∈ sfrMacros, m.typeName = o.typeName ∧ m.module = o.docModule ∧
      ∀ p ∈ o.layout, m.base + p.1 = p.2.docAddr ∧ p.2.docName = p.2.name) ∧
    (∀ m ∈ sfrMacros, m.typeName = o.typeName → m.module ≠ o.docModule →
      o.typeName = "PORT_t" ∧ 0x5000 < m.base ∧
      ∀ p ∈ o.layout, m.base + p.1 = p.2.docAddr + (m.base - 0x5000)) :=
  documented_address_all o ho

/-- C1 at RTC_t: sfr_RTC exists and every register of RTC_t is documented at base + offset. -/
theorem C1_documented_address_witness :
    ∃ m ∈ sfrMacros, m.typeName = RTC_t.typeName ∧ m.module = RTC_t.docModule ∧
      ∀ p ∈ RTC_t.layout, m.base + p.1 = p.2.docAddr ∧ p.2.docName = p.2.name :=
  (C1_documented_address RTC_t (by decide!)).1

/-- C2: with bit-fields allocated LSB-first in declaration order, every named bit-field of
every bitwise-access struct is documented at its actual position: either by bit k, where k
is the sum of the widths of the fields declared before it and the field is one bit wide, or
by bits a-b, where a is that sum and the declared width is b - a + 1. -/
theorem C2_bit_positions (o : Overlay) (ho : o ∈ overlays) (r : Register)
    (hr : r ∈ o.registers) (v : BitView) (hv : v ∈ r.views) (i : Nat) (hi : i < v.fields.length)
    (hn : (v.fields[i]).name.isSome = true) :
    ((v.fields[i]).doc = .bit ((v.fields.take i).map BitField.width).sum ∧
      (v.fields[i]).width = 1) ∨
    (∃ a b, (v.fields[i]).doc = .bits a b ∧ a = ((v.fields.take i).map BitField.width).sum ∧
      (v.fields[i]).width = b - a + 1 ∧ a < b) := by
  have hget := bitLayoutFrom_get v.fields 0 i hi
  have hmem : (0 + ((v.fields.take i).map BitField.width).sum, v.fields[i]) ∈ v.layout :=
    List.getElem?_mem hget
  have h := bit_positions_all o ho r hr v hv _ hmem hn
  simp only [Nat.zero_add] at h
  rcases h with h | h
  · exact Or.inl h
  · refine Or.inr ⟨_, _, h.1, rfl, ?_, ?_⟩ <;> omega

/-- C2 at the field RES of ADC1 CR1: documented by bits 5-6, two bits wide, after five
single-bit fields. -/
theorem C2_bit_positions_witness :
    ∃ a b, BitDoc.bits 5 6 = .bits a b ∧ a = 5 ∧ 2 = b - a + 1 ∧ a < b := by
  have h := C2_bit_positions ADC1_t (by decide!)
    (Register.mk "CR1" "CR1" 0x5340
      [BitView.mk "CR1" [fld "ADON" 1 (.bit 0), fld "START" 1 (.bit 1), fld "CONT" 1 (.bit 2),
        fld "EOCIE" 1 (.bit 3), fld "AWDIE" 1 (.bit 4), fld "RES" 2 (.bits 5 6),
        fld "OVERIE" 1 (.bit 7)]]
      [ResetValue.mk "ADC1_CR1" 0x00])
    (by decide!)
    (BitView.mk "CR1" [fld "ADON" 1 (.bit 0), fld "START" 1 (.bit 1), fld "CONT" 1 (.bit 2),
        fld "EOCIE" 1 (.bit 3), fld "AWDIE" 1 (.bit 4), fld "RES" 2 (.bits 5 6),
        fld "OVERIE" 1 (.bit 7)])
    (by decide!) 5 (by decide!) (by decide!)
  rcases h with h | h
  · exact absurd h.1 (by decide!)
  · exact h

/-- C3: every bitwise-access struct of every register union, both structs of a dual-view
union included, has bit-field widths, named and unnamed together, that sum to exactly 8, and
no field reaches beyond bit 7. -/
theorem C3_view_bits (o : Overlay) (ho : o ∈ overlays) (r : Register) (hr : r ∈ o.registers)
    (v : BitView) (hv : v ∈ r.views) :
    v.bits = 8 ∧ ∀ p ∈ v.layout, p.1 + p.2.width ≤ 8 :=
  view_bits_all o ho r hr v hv

/-- C3 at the dual-view union DORH_CH1DORH of DAC_t: its two bitwise-access structs, DORH
and CH1DORH, cover eight bits each. -/
theorem C3_view_bits_witness :
    ∃ r ∈ DAC_t.registers, r.name = "DORH_CH1DORH" ∧ r.views.map BitView.name = ["DORH", "CH1DORH"] ∧
      ∀ v ∈ r.views, v.bits = 8 ∧ ∀ p ∈ v.layout, p.1 + p.2.width ≤ 8 := by
  have hr : ∃ r ∈ DAC_t.registers, r.name = "DORH_CH1DORH" ∧
      r.views.map BitView.name = ["DORH", "CH1DORH"] := by decide!
  obtain ⟨r, hr, hname, hviews⟩ := hr
  exact ⟨r, hr, hname, hviews, fun v hv => C3_view_bits DAC_t (by decide!) r hr v hv⟩

/-! ## Interrupt vector table -/

theorem priority_field_all : ∀ e ∈ vectorTable, ∀ d, e.doc = some d →
    d.priority.field = vectSPR e.irq ∧ d.name = e.source := by
  decide!

theorem irq_range_all : ∀ e ∈ vectorTable, e.irq ≤ 29 := by
  decide!

theorem slots_mapped_all : ∀ k < 30, k ≠ 16 → ∃ e ∈ vectorTable, e.irq = k := by
  decide!

theorem exti_pins_all : ∀ n < 8,
    vectorMacro ("EXTI" ++ toString n) = some
      (documented ("EXTI" ++ toString n) (8 + n) ("EXTI" ++ toString n)
        (xref (extiName ("CR" ++ toString (1 + n / 4))) ("P" ++ toString n ++ "IS"))
        (xref (extiName "SR1") ("P" ++ toString n ++ "F"))
        (xref (itcName ("SPR" ++ toString (3 + n / 4))) (vectSPR (8 + n)))) ∧
    (∃ p, ITC_EXTI_t.findRegister ("CR" ++ toString (1 + n / 4)) = some p ∧
      p.2.findField ("P" ++ toString n ++ "IS") = some
        (2 * (n % 4),
          fld ("P" ++ toString n ++ "IS") 2 (.bits (2 * (n % 4)) (2 * (n % 4) + 1))) ∧
      ∀ q ∈ ITC_EXTI_t.layout, ("P" ++ toString n ++ "IS") ∈ q.2.fieldNames → q = p) ∧
    (∃ p, ITC_EXTI_t.findRegister "SR1" = some p ∧
      p.2.findField ("P" ++ toString n ++ "F") = some (n, fld ("P" ++ toString n ++ "F") 1 (.bit n)) ∧
      ∀ q ∈ ITC_EXTI_t.layout, ("P" ++ toString n ++ "F") ∈ q.2.fieldNames → q = p) := by
  decide!

/-- C5 (the header breaks it): the entry _CLK_CSS_VECTOR_ (IRQ 17) documents its priority
field as ITC_SPR4.VECT17SPR, but in ITC_SPR_t the field VECT17SPR is declared by SPR5 alone
(17 / 4 + 1 = 5) and SPR4 declares VECT12SPR to VECT15SPR.  The entries whose documented
register is not the declaring one are exactly those of IRQ 17, 21, 24 and 28; for every other
documented entry the register named is the declaring one, SPR(k / 4 + 1). -/
theorem C5_priority_register_mismatch :
    (vectorMacro "CLK_CSS").bind VectorMacro.doc =
      some (VectorDoc.mk "CLK_CSS" (xref "CLK_CSSR" "CSSDIE") (xref "CLK_CSSR" "CSSD")
        (xref "ITC_SPR4" "VECT17SPR")) ∧
    ITC_SPR_t.declaring "VECT17SPR" = ["SPR5"] ∧
    (ITC_SPR_t.findRegister "SPR4").map (fun p => p.2.fieldNames) =
      some ["VECT12SPR", "VECT13SPR", "VECT14SPR", "VECT15SPR"] ∧
    ((vectorTable.filter fun e => e.doc.any fun d =>
        ! (ITC_SPR_t.declaring d.priority.field).map itcName == [d.priority.register]).map
      VectorMacro.irq).dedup = [17, 21, 24, 28] ∧
    (∀ e ∈ vectorTable, ∀ d, e.doc = some d → e.irq ∉ [17, 21, 24, 28] →
      (ITC_SPR_t.declaring d.priority.field).map itcName = [d.priority.register] ∧
      d.priority.register = itcName ("SPR" ++ toString (e.irq / 4 + 1))) := by
  decide!

/-- C6: for every entry of the vector table that documents a priority field, the field is
VECTjSPR with j the IRQ number the macro of the entry expands to (and the comment names the
source of the macro). -/
theorem C6_priority_field_index (e : VectorMacro) (he : e ∈ vectorTable) (d : VectorDoc)
    (hd : e.doc = some d) :
    d.priority.field = vectSPR e.irq ∧ d.name = e.source :=
  priority_field_all e he d hd

/-- C6 at _TIM3_BIF_VECTOR_: IRQ 21, priority field VECT21SPR. -/
theorem C6_priority_field_index_witness :
    (xref "ITC_SPR5" "VECT21SPR").field = vectSPR 21 ∧ "TIM3_BIF" = "TIM3_BIF" :=
  C6_priority_field_index
    (documented "TIM3_BIF" 21 "TIM3_BIF" (xref "TIM3_IER" "BIE") (xref "TIM3_SR1" "BIF")
      (xref "ITC_SPR5" "VECT21SPR"))
    (by decide!)
    (VectorDoc.mk "TIM3_BIF" (xref "TIM3_IER" "BIE") (xref "TIM3_SR1" "BIF")
      (xref "ITC_SPR5" "VECT21SPR"))
    rfl

/-- C7: every vector macro expands to an IRQ number between 0 and 29, and both bounds are
attained: _TLI_VECTOR_ is 0 and every I2C1 and SPI2 source is 29. -/
theorem C7_irq_range (e : VectorMacro) (he : e ∈ vectorTable) :
    (0 ≤ e.irq ∧ e.irq ≤ 29) ∧
    (vectorMacro "TLI").map VectorMacro.irq = some 0 ∧
    (vectorTable.filter fun x =>
        "I2C1_".data.isPrefixOf x.source.data || "SPI2_".data.isPrefixOf x.source.data).length = 17 ∧
    (("I2C1_".data.isPrefixOf e.source.data = true ∨ "SPI2_".data.isPrefixOf e.source.data = true) →
      e.irq = 29) := by
  refine ⟨⟨Nat.zero_le _, irq_range_all e he⟩, by decide!, by decide!, ?_⟩
  have h : ∀ x ∈ vectorTable,
      ("I2C1_".data.isPrefixOf x.source.data = true ∨ "SPI2_".data.isPrefixOf x.source.data = true) →
      x.irq = 29 := by decide!
  exact h e he

/-- C7 at _SPI2_WKUP_VECTOR_, the last entry of the table: IRQ 29. -/
theorem C7_irq_range_witness : (29 : Nat) ≤ 29 ∧ (vectorMacro "TLI").map VectorMacro.irq = some 0 :=
  have h := C7_irq_range
    (documented "SPI2_WKUP" 29 "SPI2_WKUP" (xref "SPI2_ICR" "WKIE") (xref "SPI2_SR" "WKUP")
      (xref "ITC_SPR8" "VECT29SPR"))
    (by decide!)
  ⟨h.1.2, h.2.1⟩

/-- C8 (the header breaks it): the entries _TIM1_CAPCOM_CC2IF_VECTOR_ and
_TIM1_CAPCOM_CC3IF_VECTOR_ document the same pending flag TIM1_SR1.CC2IF, although they
document different enable bits (CC2IE, CC3IE) and TIM1_t declares a flag CC3IF at bit 3 of
SR1, which no entry documents.  Every other pending flag is documented by one entry only. -/
theorem C8_pending_flag_shared :
    ((vectorMacro "TIM1_CAPCOM_CC2IF").bind VectorMacro.doc).map (fun d => (d.enable, d.pending)) =
      some (xref "TIM1_IER" "CC2IE", xref "TIM1_SR1" "CC2IF") ∧
    ((vectorMacro "TIM1_CAPCOM_CC3IF").bind VectorMacro.doc).map (fun d => (d.enable, d.pending)) =
      some (xref "TIM1_IER" "CC3IE", xref "TIM1_SR1" "CC2IF") ∧
    ¬ (vectorDocs.map VectorDoc.pending).Nodup ∧
    (TIM1_t.findRegister "SR1").bind (fun p => p.2.findField "CC3IF") =
      some (3, fld "CC3IF" 1 (.bit 3)) ∧
    xref "TIM1_SR1" "CC3IF" ∉ vectorDocs.map VectorDoc.pending ∧
    ((vectorDocs.filter fun d => d.name != "TIM1_CAPCOM_CC3IF").map VectorDoc.pending).Nodup := by
  decide!

/-- C9 (as stated): fails at k = 16, which lies in 0..29 and is the value of no vector
macro. -/
theorem C9_counterexample_irq16 :
    (0 ≤ 16 ∧ 16 ≤ 29) ∧ ¬ ∃ e ∈ vectorTable, e.irq = 16 := by
  decide!

/-- C9 (amended): for every k in 0..29 other than 16 there is at least one vector macro
whose value is k. -/
theorem C9_slots_mapped (k : Nat) (hk : k ≤ 29) (h16 : k ≠ 16) :
    ∃ e ∈ vectorTable, e.irq = k :=
  slots_mapped_all k (Nat.lt_succ_of_le hk) h16

/-- C9 at k = 17, the slot after the unused one. -/
theorem C9_slots_mapped_witness : ∃ e ∈ vectorTable, e.irq = 17 :=
  C9_slots_mapped 17 (by decide) (by decide)

/-- C10: for every pin number n in 0..7, _EXTIn_VECTOR_ is 8 + n; its comment names the
enable field PnIS in EXTI_CR(1 + n / 4) and the pending flag PnF in EXTI_SR1; in ITC_EXTI_t
the field PnIS is declared by member CR(1 + n / 4) and by no other, as a 2-bit field at
bits 2 * (n mod 4) .. 2 * (n mod 4) + 1, and PnF is declared by SR1 and by no other, as
bit n. -/
theorem C10_exti_pins (n : Nat) (hn : n ≤ 7) :
    vectorMacro ("EXTI" ++ toString n) = some
      (documented ("EXTI" ++ toString n) (8 + n) ("EXTI" ++ toString n)
        (xref (extiName ("CR" ++ toString (1 + n / 4))) ("P" ++ toString n ++ "IS"))
        (xref (extiName "SR1") ("P" ++ toString n ++ "F"))
        (xref (itcName ("SPR" ++ toString (3 + n / 4))) (vectSPR (8 + n)))) ∧
    (∃ p, ITC_EXTI_t.findRegister ("CR" ++ toString (1 + n / 4)) = some p ∧
      p.2.findField ("P" ++ toString n ++ "IS") = some
        (2 * (n % 4),
          fld ("P" ++ toString n ++ "IS") 2 (.bits (2 * (n % 4)) (2 * (n % 4) + 1))) ∧
      ∀ q ∈ ITC_EXTI_t.layout, ("P" ++ toString n ++ "IS") ∈ q.2.fieldNames → q = p) ∧
    (∃ p, ITC_EXTI_t.findRegister "SR1" = some p ∧
      p.2.findField ("P" ++ toString n ++ "F") = some (n, fld ("P" ++ toString n ++ "F") 1 (.bit n)) ∧
      ∀ q ∈ ITC_EXTI_t.layout, ("P" ++ toString n ++ "F") ∈ q.2.fieldNames → q = p) :=
  exti_pins_all n (Nat.lt_succ_of_le hn)

/-- C10 at pin 5: _EXTI5_VECTOR_ is 13, enable EXTI_CR2.P5IS, pending EXTI_SR1.P5F. -/
theorem C10_exti_pins_witness :
    vectorMacro "EXTI5" = some
      (documented "EXTI5" 13 "EXTI5" (xref "EXTI_CR2" "P5IS") (xref "EXTI_SR1" "P5F")
        (xref "ITC_SPR4" "VECT13SPR")) :=
  (C10_exti_pins 5 (by decide)).1

/-! ## Port instances -/

theorem port_instances_all : ∀ i < 9,
    (instancesOf "PORT_t")[i]? = some
      (SfrMacro.mk ("PORT" ++ String.singleton (Char.ofNat (65 + i))) "PORT_t" (0x5000 + 5 * i)) := by
  decide!

theorem port_offsets : ∀ p ∈ PORT_t.layout, p.1 < 5 := by
  decide!

/-- C11: the nine port instances sfr_PORTA .. sfr_PORTI are the sfr macros of the struct
PORT_t, whose five registers ODR, IDR, DDR, CR1, CR2 sit at offsets 0..4; the base address of
the i-th port is 0x5000 + 5 * i, so the next port starts where this one ends, register R of
port i is at 0x5000 + 5 * i + offset(R), and no register of another port has that address. -/
theorem C11_ports (i : Nat) (hi : i ≤ 8) :
    PORT_t.layout.map (fun p => (p.2.name, p.1)) =
      [("ODR", 0), ("IDR", 1), ("DDR", 2), ("CR1", 3), ("CR2", 4)] ∧
    PORT_t.size = 5 ∧
    (instancesOf "PORT_t").length = 9 ∧
    (∃ m, (instancesOf "PORT_t")[i]? = some m ∧
      m.module = "PORT" ++ String.singleton (Char.ofNat (65 + i)) ∧
      m.base = 0x5000 + 5 * i ∧
      (∀ p ∈ PORT_t.layout, m.base + p.1 = 0x5000 + 5 * i + p.1) ∧
      (∀ j, j ≤ 8 → ∀ m', (instancesOf "PORT_t")[j]? = some m' →
        (j = i + 1 → m'.base = m.base + PORT_t.size) ∧
        (j ≠ i → (m.base + PORT_t.size ≤ m'.base ∨ m'.base + PORT_t.size ≤ m.base) ∧
          ∀ p ∈ PORT_t.layout, ∀ q ∈ PORT_t.layout, m.base + p.1 ≠ m'.base + q.1))) := by
  have hsize : PORT_t.size = 5 := by decide!
  refine ⟨by decide!, hsize, by decide!, _, port_instances_all i (Nat.lt_succ_of_le hi), rfl, rfl,
    fun _ _ => rfl, ?_⟩
  intro j hj m' hm'
  rw [port_instances_all j (Nat.lt_succ_of_le hj)] at hm'
  cases hm'
  rw [hsize]
  refine ⟨fun h => by subst h; simp only []; omega, fun h => ⟨by simp only []; omega, ?_⟩⟩
  intro p hp q hq
  have h1 := port_offsets p hp
  have h2 := port_offsets q hq
  simp only []
  omega

/-- C11 at port B: sfr_PORTB is the second instance, at 0x5005. -/
theorem C11_ports_witness :
    ∃ m, (instancesOf "PORT_t")[1]? = some m ∧ m.module = "PORTB" ∧ m.base = 0x5005 :=
  have h := (C11_ports 1 (by decide)).2.2.2
  h.elim fun m hm => ⟨m, hm.1, hm.2.1.trans (by decide!), hm.2.2.1⟩

/-! ## Device memory -/

/-- C12: for each of the nine memory regions RAM, EEPROM, OPTION, STORAGE, ID, SFR1,
BOOTROM, SFR2 and FLASH, the size is the number of addresses of the inclusive range from
R_ADDR_START to R_ADDR_END. -/
theorem C12_region_sizes (r : Region) (hr : r ∈ memoryRegions) :
    memoryRegions.map Region.name =
      ["RAM", "EEPROM", "OPTION", "STORAGE", "ID", "SFR1", "BOOTROM", "SFR2", "FLASH"] ∧
    r.addrStart ≤ r.addrEnd ∧ r.size = r.addrEnd - r.addrStart + 1 := by
  have h : ∀ r ∈ memoryRegions, r.addrStart ≤ r.addrEnd ∧ r.size = r.addrEnd - r.addrStart + 1 := by
    decide!
  exact ⟨by decide!, h r hr⟩

/-- C12 at the STORAGE region: three bytes from 0x4910 to 0x4912. -/
theorem C12_region_sizes_witness :
    STORAGE_ADDR_START ≤ STORAGE_ADDR_END ∧ STORAGE_SIZE = STORAGE_ADDR_END - STORAGE_ADDR_START + 1 :=
  (C12_region_sizes (Region.mk "STORAGE" STORAGE_ADDR_START STORAGE_ADDR_END STORAGE_SIZE)
    (by decide!)).2

/-! ## Compiler specific settings -/

/-- C13 (as stated): fails under SDCC 3.4.2 with neither __CSMC__ nor __ICCSTM8__ defined: a
supported compiler is detected, yet the block stops with a #error. -/
theorem C13_counterexample_sdcc_3_4_2 :
    (Predefined.mk false false true 3 4 2).sdcc = true ∧
    compilerSettings (Predefined.mk false false true 3 4 2) =
      .error "traps require SDCC >=3.4.3. Please update!" :=
  ⟨rfl, rfl⟩

/-- C13 (amended): the block stops with the #error for an unsupported compiler exactly when
none of __CSMC__, __ICCSTM8__, __SDCC is defined.  When at least one of them is defined, the
block raises no error, except in the SDCC branch (neither __CSMC__ nor __ICCSTM8__ defined)
with SDCC_VERSION below 30403, where it stops with the #error that asks for SDCC 3.4.3. -/
theorem C13_compiler_errors (p : Predefined) :
    (compilerSettings p = .error ": compiler not supported" ↔
      (p.csmc = false ∧ p.iccstm8 = false ∧ p.sdcc = false)) ∧
    (compilerSettings p = .error "traps require SDCC >=3.4.3. Please update!" ↔
      (p.csmc = false ∧ p.iccstm8 = false ∧ p.sdcc = true ∧
        SDCC_VERSION p.major p.minor p.patch < 30403)) ∧
    ((∃ ms, compilerSettings p = .ok ms) ↔
      (p.csmc = true ∨ p.iccstm8 = true ∨
        (p.sdcc = true ∧ 30403 ≤ SDCC_VERSION p.major p.minor p.patch))) := by
  have hne : ("traps require SDCC >=3.4.3. Please update!" : String) ≠ ": compiler not supported" := by
    decide
  obtain ⟨c, i, s, ma, mi, pa⟩ := p
  cases c <;> cases i <;> cases s <;>
    by_cases hv : 30403 ≤ SDCC_VERSION ma mi pa <;>
    simp [compilerSettings, hv, hne, hne.symm]
  all_goals omega

/-- C14: under SDCC, for versions whose minor and patch numbers are below 100,
SDCC_VERSION = major * 10000 + minor * 100 + patch orders versions exactly as the
lexicographic order of (major, minor, patch); ISR_HANDLER_TRAP is defined if and only if the
version is at least 3.4.3, that is SDCC_VERSION >= 30403, and for every older version the
header stops with the #error that asks for SDCC 3.4.3. -/
theorem C14_sdcc_version (a b : Nat × Nat × Nat) (ha1 : a.2.1 < 100) (ha2 : a.2.2 < 100)
    (hb1 : b.2.1 < 100) (hb2 : b.2.2 < 100) :
    (SDCC_VERSION a.1 a.2.1 a.2.2 < SDCC_VERSION b.1 b.2.1 b.2.2 ↔ versionLt a b) ∧
    (SDCC_VERSION a.1 a.2.1 a.2.2 = SDCC_VERSION b.1 b.2.1 b.2.2 ↔ a = b) ∧
    (30403 ≤ SDCC_VERSION a.1 a.2.1 a.2.2 ↔ ¬ versionLt a (3, 4, 3)) ∧
    ((∃ ms, compilerSettings (Predefined.mk false false true a.1 a.2.1 a.2.2) = .ok ms ∧
        (arityIn ms "ISR_HANDLER_TRAP").isSome = true) ↔ ¬ versionLt a (3, 4, 3)) ∧
    (versionLt a (3, 4, 3) →
      compilerSettings (Predefined.mk false false true a.1 a.2.1 a.2.2) =
        .error "traps require SDCC >=3.4.3. Please update!") := by
  obtain ⟨a1, a2, a3⟩ := a
  obtain ⟨b1, b2, b3⟩ := b
  simp only at ha1 ha2 hb1 hb2
  have hlt : 30403 ≤ SDCC_VERSION a1 a2 a3 ↔ ¬ versionLt (a1, a2, a3) (3, 4, 3) := by
    simp only [versionLt, SDCC_VERSION]; omega
  have htrap : (arityIn (sdccMacrosBeforeTest ++ sdccMacrosAfterTest) "ISR_HANDLER_TRAP").isSome
      = true := by decide!
  refine ⟨?_, ?_, hlt, ?_, ?_⟩
  · simp only [versionLt, SDCC_VERSION]; omega
  · simp only [SDCC_VERSION, Prod.mk.injEq]; omega
  · rw [← hlt]
    by_cases hv : 30403 ≤ SDCC_VERSION a1 a2 a3
    · simp [compilerSettings, hv, htrap]
    · simp [compilerSettings, hv]
  · intro h
    have hv : ¬ 30403 ≤ SDCC_VERSION a1 a2 a3 := fun h' => hlt.mp h' h
    simp [compilerSettings, hv]

/-- C14 at the versions 3.4.2 and 3.4.3: 30402 < 30403, as 3.4.2 precedes 3.4.3. -/
theorem C14_sdcc_version_witness :
    SDCC_VERSION 3 4 2 < SDCC_VERSION 3 4 3 ↔ versionLt (3, 4, 2) (3, 4, 3) :=
  (C14_sdcc_version (3, 4, 2) (3, 4, 3) (by decide) (by decide) (by decide) (by decide)).1

/-- C15: under IAR, ISR_HANDLER(f, irq) binds the handler to vector irq + 2 and
ISR_HANDLER_TRAP binds to vector 1; under SDCC, ISR_HANDLER(f, irq) binds to irq unchanged.
Hence for every IRQ number in 0..29 the IAR vector lies in 2..31, differs from the trap
vector 1, and differs from the IAR vector of every other IRQ number. -/
theorem C15_iar_vectors (k : Nat) (hk : k ≤ 29) :
    ISR_HANDLER .iar k = some (k + 2) ∧
    ISR_HANDLER_TRAP .iar = some 1 ∧
    ISR_HANDLER .sdcc k = some k ∧
    (∃ v, ISR_HANDLER .iar k = some v ∧ 2 ≤ v ∧ v ≤ 31 ∧ some v ≠ ISR_HANDLER_TRAP .iar) ∧
    (∀ j, j ≠ k → ISR_HANDLER .iar j ≠ ISR_HANDLER .iar k) := by
  refine ⟨rfl, rfl, rfl, ⟨k + 2, rfl, by omega, by omega, ?_⟩, ?_⟩
  · simp [ISR_HANDLER_TRAP]
  · intro j hj
    simp [ISR_HANDLER, hj]

/-- C15 at IRQ 29, the highest of the vector table: IAR vector 31. -/
theorem C15_iar_vectors_witness : ISR_HANDLER .iar 29 = some 31 :=
  (C15_iar_vectors 29 (by decide)).1

theorem pins_all : ∀ n < 8, pins[n]? = some (2 ^ n) ∧
    ∀ m < 8, m ≠ n → (pins.getD n 0) &&& (pins.getD m 0) = 0 := by
  decide!

/-- C17: for every n in 0..7, PINn equals 2^n; the mask of any other pin has no bit in
common with it, and the bitwise OR of the eight masks is 0xFF. -/
theorem C17_pin_masks (n : Nat) (hn : n ≤ 7) :
    pins[n]? = some (2 ^ n) ∧
    (∀ m, m ≤ 7 → m ≠ n → (pins.getD n 0) &&& (pins.getD m 0) = 0) ∧
    PIN0 ||| PIN1 ||| PIN2 ||| PIN3 ||| PIN4 ||| PIN5 ||| PIN6 ||| PIN7 = 0xFF :=
  ⟨(pins_all n (Nat.lt_succ_of_le hn)).1,
    fun m hm hne => (pins_all n (Nat.lt_succ_of_le hn)).2 m (Nat.lt_succ_of_le hm) hne,
    by decide!⟩

/-- C17 at pin 7: PIN7 is 0x80. -/
theorem C17_pin_masks_witness : pins[7]? = some (2 ^ 7) :=
  (C17_pin_masks 7 (by decide)).1

/-- C18: the unique identifier agrees with the ID memory region: UID_ADDR_START is
ID_ADDR_START, UID_SIZE is ID_SIZE, for every N below UID_SIZE the address UID(N) reads lies
between ID_ADDR_START and ID_ADDR_END, and N = UID_SIZE - 1 reads exactly ID_ADDR_END.  The
address UID(N) reads is UID_ADDR_START + N, byte N of the ID region, so different indices
read different addresses. -/
theorem C18_uid_region (N : Nat) (hN : N < UID_SIZE) :
    UID_ADDR_START = ID_ADDR_START ∧ UID_SIZE = ID_SIZE ∧
    ID_ADDR_START ≤ UID N ∧ UID N ≤ ID_ADDR_END ∧
    UID (UID_SIZE - 1) = ID_ADDR_END ∧
    UID N = UID_ADDR_START + N ∧ UID N = ID_ADDR_START + N ∧
    UID 0 = ID_ADDR_START ∧
    (∀ M, M ≠ N → UID M ≠ UID N) := by
  have hN' : N < 12 := hN
  have hu : ∀ M, UID M = 0x4926 + M := fun _ => rfl
  have hs : ID_ADDR_START = 0x4926 := rfl
  have he : ID_ADDR_END = 0x4931 := rfl
  refine ⟨rfl, rfl, ?_, ?_, rfl, rfl, rfl, rfl, ?_⟩
  · rw [hu N]; omega
  · rw [hu N]; omega
  · intro M hM h
    rw [hu M, hu N] at h
    omega

/-- C18 at the last byte, N = 11: UID(11) reads UID_ADDR_START + 11, inside the ID region,
and not the address UID(10) reads. -/
theorem C18_uid_region_witness :
    ID_ADDR_START ≤ UID 11 ∧ UID 11 ≤ ID_ADDR_END ∧ UID 11 = UID_ADDR_START + 11 ∧
    UID 10 ≠ UID 11 :=
  have h := C18_uid_region 11 (by decide)
  ⟨h.2.2.1, h.2.2.2.1, h.2.2.2.2.2.1, h.2.2.2.2.2.2.2.2 10 (by decide)⟩

/-- C19: flash starts at 0x8000 and FLASH_SIZE exceeds 32 kB, so the last flash address
FLASH_ADDR_END does not fit in 16 bits, and every flash address between FLASH_ADDR_START and
FLASH_ADDR_END fits in FLASH_ADDR_WIDTH = 32 bits. -/
theorem C19_flash_width (a : Nat) (_h1 : FLASH_ADDR_START ≤ a) (h2 : a ≤ FLASH_ADDR_END) :
    FLASH_ADDR_START = 0x8000 ∧ 32 * 1024 < FLASH_SIZE ∧
    FLASH_ADDR_END = FLASH_ADDR_START + FLASH_SIZE - 1 ∧ 0xFFFF < FLASH_ADDR_END ∧
    FLASH_ADDR_WIDTH = 32 ∧ a < 2 ^ FLASH_ADDR_WIDTH := by
  have he : FLASH_ADDR_END = 0x17FFF := rfl
  have hw : (2 : Nat) ^ FLASH_ADDR_WIDTH = 4294967296 := by decide
  refine ⟨rfl, by decide, by decide, by decide, rfl, ?_⟩
  omega

/-- C19 at the last flash address 0x17FFF. -/
theorem C19_flash_width_witness : 0xFFFF < FLASH_ADDR_END ∧ FLASH_ADDR_END < 2 ^ FLASH_ADDR_WIDTH :=
  have h := C19_flash_width FLASH_ADDR_END (by decide) (Nat.le_refl _)
  ⟨h.2.2.2.1, h.2.2.2.2.2⟩

/-! ## Software priority registers -/

theorem spr_fields_all : ∀ k < 30,
    ∃ p, ITC_SPR_t.findRegister ("SPR" ++ toString (k / 4 + 1)) = some p ∧
      p.1 = k / 4 ∧ p.2.docAddr = 0x7f70 + k / 4 ∧
      p.2.findField (vectSPR k) = some
        (2 * (k % 4), fld (vectSPR k) 2 (.bits (2 * (k % 4)) (2 * (k % 4) + 1))) ∧
      ∀ q ∈ ITC_SPR_t.layout, vectSPR k ∈ q.2.fieldNames → q = p := by
  decide!

/-- C20: in ITC_SPR_t, placed at 0x7f70 by sfr_ITC_SPR, for every vector number k in 0..29
the priority field VECTkSPR is declared by member SPR(k / 4 + 1) and by no other; that
member sits at offset k / 4, so at address 0x7f70 + k / 4, and the field is a 2-bit field at
bits 2 * (k mod 4) .. 2 * (k mod 4) + 1.  The named fields of ITC_SPR_t are exactly
VECT0SPR to VECT29SPR. -/
theorem C20_spr_fields (k : Nat) (hk : k ≤ 29) :
    instancesOf "ITC_SPR_t" = [SfrMacro.mk "ITC_SPR" "ITC_SPR_t" 0x7f70] ∧
    (∃ p, ITC_SPR_t.findRegister ("SPR" ++ toString (k / 4 + 1)) = some p ∧
      p.1 = k / 4 ∧ p.2.docAddr = 0x7f70 + k / 4 ∧
      p.2.findField (vectSPR k) = some
        (2 * (k % 4), fld (vectSPR k) 2 (.bits (2 * (k % 4)) (2 * (k % 4) + 1))) ∧
      ∀ q ∈ ITC_SPR_t.layout, vectSPR k ∈ q.2.fieldNames → q = p) ∧
    (ITC_SPR_t.registers.map Register.fieldNames).flatten = (List.range 30).map vectSPR :=
  ⟨by decide!, spr_fields_all k (Nat.lt_succ_of_le hk), by decide!⟩

/-- C20 at vector 21: VECT21SPR is found in SPR6, at bits 2-3. -/
theorem C20_spr_fields_witness :
    ∃ p, ITC_SPR_t.findRegister "SPR6" = some p ∧ p.1 = 5 ∧ p.2.docAddr = 0x7f75 ∧
      p.2.findField "VECT21SPR" = some (2, fld "VECT21SPR" 2 (.bits 2 3)) :=
  have h := (C20_spr_fields 21 (by decide)).2.1
  h.elim fun p hp => ⟨p, hp.1, hp.2.1, hp.2.2.1, hp.2.2.2.1⟩

/-! ## Addresses of module instances -/

theorem instance_registers_all : ∀ m ∈ sfrMacros,
    (∀ x ∈ m.registers, x.module = m.module ∧ m.base ≤ x.address ∧ x.address ≤ m.last) ∧
    (∀ x ∈ m.registers, ∀ y ∈ m.registers, x.address = y.address → x.register = y.register) := by
  decide!

theorem extents_all : ∀ m1 ∈ sfrMacros, ∀ m2 ∈ sfrMacros, m1 ≠ m2 →
    0 < m1.size ∧
    ((m1.module, m2.module) ≠ ("ITC_EXTI", "WFE") → (m1.module, m2.module) ≠ ("WFE", "ITC_EXTI") →
      m1.last < m2.base ∨ m2.last < m1.base) ∧
    ((m1.module, m2.module) = ("ITC_EXTI", "WFE") →
      m1.overlay.map Overlay.reserved = some [ReservedRange.mk 1 (m2.base - m1.base) m2.size] ∧
      m1.base < m2.base ∧
      ∀ x ∈ m1.registers, x.address < m2.base ∨ m2.last < x.address) := by
  decide!

/-- C21: no two distinct named registers of the header are mapped to the same address:
over every named register member of every module instance, the nine PORT_t instances
included, two registers that differ in instance or in member name have different addresses
base + offset. -/
theorem C21_register_addresses_injective (x y : MappedRegister) (hx : x ∈ mappedRegisters)
    (hy : y ∈ mappedRegisters) (hne : x.module ≠ y.module ∨ x.register ≠ y.register) :
    x.address ≠ y.address ∧ mappedRegisters.length = 445 ∧
    (sfrMacros.map fun m => (m.registers).length).sum = 445 ∧
    ((instancesOf "PORT_t").map fun m => (m.registers).length) = [5, 5, 5, 5, 5, 5, 5, 5, 5] := by
  refine ⟨fun h => ?_, by decide!, by decide!, by decide!⟩
  obtain ⟨l1, hl1, hx1⟩ := List.mem_flatten.mp hx
  obtain ⟨m1, hm1, rfl⟩ := List.mem_map.mp hl1
  obtain ⟨l2, hl2, hy2⟩ := List.mem_flatten.mp hy
  obtain ⟨m2, hm2, rfl⟩ := List.mem_map.mp hl2
  have hx' := (instance_registers_all m1 hm1).1 x hx1
  have hy' := (instance_registers_all m2 hm2).1 y hy2
  by_cases hm : m1 = m2
  · subst hm
    have hreg := (instance_registers_all m1 hm1).2 x hx1 y hy2 h
    rcases hne with hne | hne
    · exact hne (hx'.1.trans hy'.1.symm)
    · exact hne hreg
  · have e12 := extents_all m1 hm1 m2 hm2 hm
    have e21 := extents_all m2 hm2 m1 hm1 (Ne.symm hm)
    by_cases s1 : (m1.module, m2.module) = ("ITC_EXTI", "WFE")
    · have := (e12.2.2 s1).2.2 x hx1
      omega
    · by_cases s2 : (m1.module, m2.module) = ("WFE", "ITC_EXTI")
      · have s2' : (m2.module, m1.module) = ("ITC_EXTI", "WFE") := by
          simp only [Prod.mk.injEq] at s2 ⊢
          exact ⟨s2.2, s2.1⟩
        have := (e21.2.2 s2').2.2 y hy2
        omega
      · have := e12.2.1 s1 s2
        omega

/-- C21 at the registers CR1 of WFE and CR4 of ITC_EXTI: 0x50a6 and 0x50aa. -/
theorem C21_register_addresses_injective_witness : (0x50a6 : Nat) ≠ 0x50aa :=
  (C21_register_addresses_injective (MappedRegister.mk "WFE" "CR1" 0x50a6)
    (MappedRegister.mk "ITC_EXTI" "CR4" 0x50aa) (by decide!) (by decide!)
    (Or.inl (by decide))).1

/-- C22 (as stated): fails for the instances ITC_EXTI and WFE: ITC_EXTI_t at 0x50a0 has
sizeof 12 and covers 0x50a0..0x50ab, WFE_t at 0x50a6 has sizeof 4 and covers
0x50a6..0x50a9, so the byte 0x50a6 lies in both extents. -/
theorem C22_counterexample_ITC_EXTI_WFE :
    ∃ m1 ∈ sfrMacros, ∃ m2 ∈ sfrMacros, m1 ≠ m2 ∧
      m1 = SfrMacro.mk "ITC_EXTI" "ITC_EXTI_t" 0x50a0 ∧ m2 = SfrMacro.mk "WFE" "WFE_t" 0x50a6 ∧
      m1.size = 12 ∧ m2.size = 4 ∧
      (m1.base ≤ 0x50a6 ∧ 0x50a6 ≤ m1.last) ∧ (m2.base ≤ 0x50a6 ∧ 0x50a6 ≤ m2.last) ∧
      ¬ (m1.last < m2.base ∨ m2.last < m1.base) := by
  decide!

/-- C22 (amended): the address extents [base, base + sizeof - 1] of any two distinct module
instances are disjoint, except for the pair ITC_EXTI and WFE.  There the extent of WFE is
exactly the one reserved array Reserved_1 of ITC_EXTI_t (offset 6, four bytes), while every
named register of ITC_EXTI lies outside the extent of WFE. -/
theorem C22_extents (m1 m2 : SfrMacro) (h1 : m1 ∈ sfrMacros) (h2 : m2 ∈ sfrMacros)
    (hne : m1 ≠ m2) :
    0 < m1.size ∧
    ((m1.module, m2.module) ≠ ("ITC_EXTI", "WFE") → (m1.module, m2.module) ≠ ("WFE", "ITC_EXTI") →
      m1.last < m2.base ∨ m2.last < m1.base) ∧
    ((m1.module, m2.module) = ("ITC_EXTI", "WFE") →
      m1.overlay.map Overlay.reserved = some [ReservedRange.mk 1 (m2.base - m1.base) m2.size] ∧
      m1.base < m2.base ∧
      ∀ x ∈ m1.registers, x.address < m2.base ∨ m2.last < x.address) :=
  extents_all m1 h1 m2 h2 hne

/-- C22 at DMA1 and SYSCFG: DMA1 covers 0x5070..0x509a and SYSCFG starts at 0x509d. -/
theorem C22_extents_witness :
    (SfrMacro.mk "DMA1" "DMA1_t" 0x5070).last < 0x509d ∨
      (SfrMacro.mk "SYSCFG" "SYSCFG_t" 0x509d).last < 0x5070 :=
  (C22_extents (SfrMacro.mk "DMA1" "DMA1_t" 0x5070) (SfrMacro.mk "SYSCFG" "SYSCFG_t" 0x509d)
    (by decide!) (by decide!) (by decide!)).2.1 (by decide!) (by decide!)


end STM8AL3189
